import Mathlib

/-!
# ANT driver (src/src/ANT.cpp): frame decoder and channel pool

A shallow embedding of the byte-level receive state machine `ANT::receiveByte`,
of the channel management functions, the sensor type table, the message
dispatch, the control status, the start-up pairing, the slots for the channel
events, the thread body `run()` and `associateControlChannels` of `ANT.cpp`,
with the properties proved about them.

Bytes, lengths and checksums are natural numbers; the exclusive-or of the
source (`checksum ^= byte`) is `Nat.xor`.  The constants that `ANT.h`
declares (`ANT_SYNC_BYTE`, `ANT_MAX_LENGTH`, the `ANT_OFFSET_*` positions in
the receive buffer) are not part of `ANT.cpp`; they are the fields of the
parameter record `Consts`, so every statement holds for every value of them
that meets the stated side conditions.
-/

namespace ANT

/-! ## Constants of `ANT.h` -/

/-- Constants declared in `ANT.h` and used by `ANT::receiveByte` and
`ANT::processMessage`. -/
structure Consts where
  ANT_SYNC_BYTE : Nat
  ANT_MAX_LENGTH : Nat
  ANT_OFFSET_LENGTH : Nat
  ANT_OFFSET_ID : Nat
  ANT_OFFSET_DATA : Nat
  ANT_OFFSET_MESSAGE_CODE : Nat

/-- The header positions of the receive buffer are two different cells and both
lie below the data area, so that storing a data byte never overwrites the
recorded length or message id. -/
def Consts.Layout (k : Consts) : Prop :=
  k.ANT_OFFSET_LENGTH < k.ANT_OFFSET_DATA ∧ k.ANT_OFFSET_ID < k.ANT_OFFSET_DATA ∧
    k.ANT_OFFSET_LENGTH ≠ k.ANT_OFFSET_ID

instance (k : Consts) : Decidable k.Layout := by
  unfold Consts.Layout; infer_instance

/-- A concrete choice of the constants (sync byte 0xA4, at most 9 data bytes,
buffer cells 1, 2 and 3.. for length, id and data), used to evaluate the
definitions on concrete inputs. -/
def sampleConsts : Consts :=
  { ANT_SYNC_BYTE := 0xA4, ANT_MAX_LENGTH := 9, ANT_OFFSET_LENGTH := 1,
    ANT_OFFSET_ID := 2, ANT_OFFSET_DATA := 3, ANT_OFFSET_MESSAGE_CODE := 5 }

/-! ## Frame decoder: `ANT::receiveByte` -/

/-- The states of the receive state machine (`enum States` of the driver). -/
inductive States where
  | ST_WAIT_FOR_SYNC
  | ST_GET_LENGTH
  | ST_GET_MESSAGE_ID
  | ST_GET_DATA
  | ST_VALIDATE_PACKET
  deriving DecidableEq, Repr

open States

/-- The receive buffer `rxMessage`: a cell for every index. -/
abbrev RxBuffer := Nat → Nat

/-- The members of `ANT` that `receiveByte` reads and writes. -/
structure Rx where
  state : States
  length : Nat
  bytes : Nat
  checksum : Nat
  rxMessage : RxBuffer

/-- The decoder state set by the constructor and again at the start of `run()`:
`state = ST_WAIT_FOR_SYNC; length = bytes = 0; checksum = ANT_SYNC_BYTE;`.  The
buffer is not initialised by the source, so its content is a parameter. -/
def Rx.init (k : Consts) (buf : RxBuffer) : Rx :=
  { state := ST_WAIT_FOR_SYNC, length := 0, bytes := 0, checksum := k.ANT_SYNC_BYTE,
    rxMessage := buf }

/-- One call of `ANT::receiveByte(byte)`.  The second component is `some rxMessage`
when the call reaches `processMessage()`, which works on the receive buffer as
it stands at that moment, and `none` otherwise. -/
def receiveByte (k : Consts) (s : Rx) (byte : Nat) : Rx × Option RxBuffer :=
  match s.state with
  | ST_WAIT_FOR_SYNC =>
      if byte = k.ANT_SYNC_BYTE then
        ({ s with state := ST_GET_LENGTH, checksum := k.ANT_SYNC_BYTE }, none)
      else (s, none)
  | ST_GET_LENGTH =>
      if byte = 0 ∨ byte > k.ANT_MAX_LENGTH then
        ({ s with state := ST_WAIT_FOR_SYNC }, none)
      else
        ({ s with rxMessage := Function.update s.rxMessage k.ANT_OFFSET_LENGTH byte,
                  checksum := s.checksum ^^^ byte,
                  length := byte,
                  bytes := 0,
                  state := ST_GET_MESSAGE_ID }, none)
  | ST_GET_MESSAGE_ID =>
      ({ s with rxMessage := Function.update s.rxMessage k.ANT_OFFSET_ID byte,
                checksum := s.checksum ^^^ byte,
                state := ST_GET_DATA }, none)
  | ST_GET_DATA =>
      ({ s with rxMessage := Function.update s.rxMessage (k.ANT_OFFSET_DATA + s.bytes) byte,
                checksum := s.checksum ^^^ byte,
                bytes := s.bytes + 1,
                state := if s.bytes + 1 ≥ s.length then ST_VALIDATE_PACKET else ST_GET_DATA },
       none)
  | ST_VALIDATE_PACKET =>
      ({ s with state := ST_WAIT_FOR_SYNC },
       if s.checksum = byte then some s.rxMessage else none)

/-- The receive loop of `run()` on a sequence of bytes: `receiveByte` is called
once per byte, in order.  The result is the decoder state reached and the
buffers handed to `processMessage()`, in order. -/
def feed (k : Consts) (s : Rx) : List Nat → Rx × List RxBuffer
  | [] => (s, [])
  | b :: bs =>
      let r := receiveByte k s b
      let rest := feed k r.1 bs
      (rest.1, r.2.toList ++ rest.2)

/-- Exclusive-or of a sequence of bytes. -/
def xorBytes (bs : List Nat) : Nat := bs.foldl (· ^^^ ·) 0

/-- The bytes of a frame before its checksum: sync byte, length byte,
message id and the data bytes. -/
def frameBody (k : Consts) (len id : Nat) (data : List Nat) : List Nat :=
  k.ANT_SYNC_BYTE :: len :: id :: data

/-- A frame on the wire: the body followed by the exclusive-or of the body. -/
def frame (k : Consts) (len id : Nat) (data : List Nat) : List Nat :=
  frameBody k len id data ++ [xorBytes (frameBody k len id data)]

/-- The buffer `m` records length `len`, message id `id` and the data bytes
`data` at the positions `processMessage` and the channels read them from. -/
def Recorded (k : Consts) (len id : Nat) (data : List Nat) (m : RxBuffer) : Prop :=
  m k.ANT_OFFSET_LENGTH = len ∧ m k.ANT_OFFSET_ID = id ∧
    ∀ i, i < data.length → m (k.ANT_OFFSET_DATA + i) = data.getD i 0

/-- What the decoder state `s` says about the input `pre` consumed so far, state by
state: outside `ST_WAIT_FOR_SYNC` the input ends with the part of a frame read so
far, the recorded length is within bounds, the running checksum is the
exclusive-or of that part and, when the header cells are laid out as in
`Consts.Layout`, the buffer records what has been read. -/
def RxInv (k : Consts) (pre : List Nat) (s : Rx) : Prop :=
  (s.state = ST_GET_LENGTH →
    (∃ p, pre = p ++ [k.ANT_SYNC_BYTE]) ∧ s.checksum = k.ANT_SYNC_BYTE) ∧
  (s.state = ST_GET_MESSAGE_ID →
    ∃ p len, pre = p ++ [k.ANT_SYNC_BYTE, len] ∧ 1 ≤ len ∧ len ≤ k.ANT_MAX_LENGTH ∧
      s.length = len ∧ s.bytes = 0 ∧ s.checksum = xorBytes [k.ANT_SYNC_BYTE, len] ∧
      s.rxMessage k.ANT_OFFSET_LENGTH = len) ∧
  (s.state = ST_GET_DATA ∨ s.state = ST_VALIDATE_PACKET →
    ∃ p len id d, pre = p ++ frameBody k len id d ∧ 1 ≤ len ∧ len ≤ k.ANT_MAX_LENGTH ∧
      s.length = len ∧ s.bytes = d.length ∧
      (s.state = ST_GET_DATA → d.length < len) ∧
      (s.state = ST_VALIDATE_PACKET → d.length = len) ∧
      s.checksum = xorBytes (frameBody k len id d) ∧
      (k.Layout → Recorded k len id d s.rxMessage))

/-! ## Channel pool: `addDevice`, `removeDevice`

`ANTChannel.h` and `ANTChannel.cpp` are not part of `ANT.cpp`.  The values of the
channel type enumeration are the fields of the parameter record `ChannelConsts`;
the number of channels `ANT_MAX_CHANNELS` is the parameter `N`.  Device numbers,
channel types and the power counter are `int` in the source and integers here
(the counter only grows by one per call, far from the range limit of `int`). -/

/-- The channel type enumeration and the channel flag bits of `ANTChannel.h`. -/
structure ChannelConsts where
  CHANNEL_TYPE_UNUSED : Int
  CHANNEL_TYPE_HR : Int
  CHANNEL_TYPE_POWER : Int
  CHANNEL_TYPE_SPEED : Int
  CHANNEL_TYPE_CADENCE : Int
  CHANNEL_TYPE_SandC : Int
  CHANNEL_TYPE_QUARQ : Int
  CHANNEL_TYPE_FAST_QUARQ : Int
  CHANNEL_TYPE_FAST_QUARQ_NEW : Int
  CHANNEL_TYPE_GUARD : Int
  CHANNEL_TYPE_QUICK_SEARCH : Nat
  CHANNEL_TYPE_WAITING : Nat

/-- A concrete choice of the enumeration: the values 0 to 9 in the order in which
`ant_sensor_types` lists the types, and two flag bits above the low four bits. -/
def sampleTypes : ChannelConsts :=
  { CHANNEL_TYPE_UNUSED := 0, CHANNEL_TYPE_HR := 1, CHANNEL_TYPE_POWER := 2,
    CHANNEL_TYPE_SPEED := 3, CHANNEL_TYPE_CADENCE := 4, CHANNEL_TYPE_SandC := 5,
    CHANNEL_TYPE_QUARQ := 6, CHANNEL_TYPE_FAST_QUARQ := 7, CHANNEL_TYPE_FAST_QUARQ_NEW := 8,
    CHANNEL_TYPE_GUARD := 9, CHANNEL_TYPE_QUICK_SEARCH := 0x10, CHANNEL_TYPE_WAITING := 0x20 }

/-- The members of an `ANTChannel` that `ANT.cpp` reads and writes, for a pool of `N`
channels.  `control_channel` is a pointer to a channel of the pool or `NULL`;
`is_alt` is the flag `setAlt` sets and `searching` what `isSearching()` reports. -/
structure ANTChannel (N : Nat) where
  channel_type : Int
  device_number : Int
  channel_type_flags : Nat
  is_cinqo : Bool
  is_old_cinqo : Bool
  control_channel : Option (Fin N)
  is_alt : Bool
  searching : Bool
  deriving DecidableEq

/-- Modelled from the spec: `ANTChannel::init` is not under src/.  A channel is
"created once at driver start for every slot" as unused, with zero identity, no
flags and no control channel. -/
def ANTChannel.init (T : ChannelConsts) (N : Nat) : ANTChannel N :=
  { channel_type := T.CHANNEL_TYPE_UNUSED, device_number := 0, channel_type_flags := 0,
    is_cinqo := false, is_old_cinqo := false, control_channel := none, is_alt := false,
    searching := false }

/-- Modelled from the spec: `ANTChannel::open` is not under src/.  Opening a channel
"for the requested identity" binds it to the device type and number given and
takes it from unused to searching. -/
def ANTChannel.open_ {N : Nat} (c : ANTChannel N) (device chan_type : Int) : ANTChannel N :=
  { c with channel_type := chan_type, device_number := device, searching := true }

/-- Modelled from the spec: `ANTChannel::setAlt` is not under src/.  It marks the
channel as an "alternate" feed, or not. -/
def ANTChannel.setAlt {N : Nat} (c : ANTChannel N) (b : Bool) : ANTChannel N :=
  { c with is_alt := b }

/-- A call that `ANT.cpp` makes on the channel with the given index. -/
inductive Call (N : Nat) where
  | close (i : Fin N)
  | open_ (i : Fin N) (device chan_type : Int)
  | setAlt (i : Fin N) (b : Bool)
  | setId (i : Fin N)
  deriving DecidableEq

/-- The members of `ANT` used by channel management: the channel array, the power
channel counter and, in order, the calls made on the channels so far. -/
structure Pool (N : Nat) where
  antChannel : Fin N → ANTChannel N
  powerchannels : Int
  calls : List (Call N)

/-- The pool after the constructor and after the start of `run()`: every channel
initialised, `powerchannels = 0`. -/
def Pool.init (T : ChannelConsts) (N : Nat) : Pool N :=
  { antChannel := fun _ => ANTChannel.init T N, powerchannels := 0, calls := [] }

/-- Modelled from the spec: `ANTChannel::close` is not under src/.  The spec keeps
closing apart from resetting the identity ("Close the channel, reset it to
Unused/zero identity"), so `antChannel[i]->close()` is recorded as a call and
leaves the members of the channel as they are. -/
def Pool.close {N : Nat} (a : Pool N) (i : Fin N) : Pool N :=
  { a with calls := a.calls ++ [Call.close i] }

/-- The call `antChannel[i]->open(device, chan_type)`. -/
def Pool.open_ {N : Nat} (a : Pool N) (i : Fin N) (device chan_type : Int) : Pool N :=
  { a with antChannel := Function.update a.antChannel i ((a.antChannel i).open_ device chan_type),
           calls := a.calls ++ [Call.open_ i device chan_type] }

/-- The call `antChannel[i]->setAlt(b)`. -/
def Pool.setAlt {N : Nat} (a : Pool N) (i : Fin N) (b : Bool) : Pool N :=
  { a with antChannel := Function.update a.antChannel i ((a.antChannel i).setAlt b),
           calls := a.calls ++ [Call.setAlt i b] }

/-- Modelled from the spec: `ANTChannel::setId` is not under src/; the spec gives it
no effect on the members modelled here, so the call is only recorded. -/
def Pool.setId {N : Nat} (a : Pool N) (i : Fin N) : Pool N :=
  { a with calls := a.calls ++ [Call.setId i] }

/-- The expression `channel_type & 0xf` on an `int`: the low four bits of the
two's complement representation, that is the remainder modulo 16 in `0..15`. -/
def mask0xf (x : Int) : Int := x % 16

/-- The first loop of `ANT::addDevice`: the lowest index of a channel with
`(channel_type & 0xf) == device_type` and the same device number. -/
def findBound {N : Nat} (a : Pool N) (device_number device_type : Int) : Option (Fin N) :=
  Fin.find fun i =>
    mask0xf (a.antChannel i).channel_type = device_type ∧
      (a.antChannel i).device_number = device_number

/-- The lowest index of a channel with `channel_type == CHANNEL_TYPE_UNUSED`. -/
def findUnused {N : Nat} (T : ChannelConsts) (a : Pool N) : Option (Fin N) :=
  Fin.find fun i => (a.antChannel i).channel_type = T.CHANNEL_TYPE_UNUSED

/-- The function `ANT::addDevice(device_number, device_type, channel_number)`; the
result is the pool after the call and the value returned (1 success, 0 fail).
`channel_number` is `some c` for an index of the channel array (the test
`channel_number > -1` succeeds) and `none` for a negative value. -/
def addDevice {N : Nat} (T : ChannelConsts) (a : Pool N) (device_number device_type : Int)
    (channel_number : Option (Fin N)) : Pool N × Int :=
  match channel_number with
  | some c => ((a.close c).open_ c device_number device_type, 1)
  | none =>
    match (if device_number ≠ 0 then findBound a device_number device_type else none) with
    | some _ => (a, 1)
    | none =>
      match findUnused T a with
      | some i =>
        let a1 := a.open_ i device_number device_type
        if device_type = T.CHANNEL_TYPE_POWER then
          let a2 := if a1.powerchannels ≠ 0 then a1.setAlt i true else a1
          ({ a2 with powerchannels := a2.powerchannels + 1 }, 1)
        else (a1, 1)
      | none => (a, 0)

/-- The loop of `ANT::findDevice` and `ANT::removeDevice`: the lowest index of a
channel with exactly this channel type and device number. -/
def findDevice {N : Nat} (a : Pool N) (device_number channel_type : Int) : Option (Fin N) :=
  Fin.find fun i =>
    (a.antChannel i).channel_type = channel_type ∧
      (a.antChannel i).device_number = device_number

/-- The tail of the matching branch of `ANT::removeDevice` on channel `i`:
`ac->close(); ac->channel_type = CHANNEL_TYPE_UNUSED; ac->device_number = 0; ac->setId();`. -/
def Pool.reset {N : Nat} (T : ChannelConsts) (a : Pool N) (i : Fin N) : Pool N :=
  let a1 := a.close i
  let ac : ANTChannel N :=
    { a1.antChannel i with channel_type := T.CHANNEL_TYPE_UNUSED, device_number := 0 }
  let a2 : Pool N := { a1 with antChannel := Function.update a1.antChannel i ac }
  a2.setId i

/-- The function `ANT::removeDevice(device_number, channel_type)`.  The source calls
itself on the type of a control channel that is set and is not the channel
itself; `fuel` bounds the depth of these calls and the result is `none` when
the bound is reached.  Otherwise it is the pool after the call and the value
returned (1 removed, 0 none found). -/
def removeDevice {N : Nat} (T : ChannelConsts) :
    Nat → Pool N → Int → Int → Option (Pool N × Int)
  | 0, _, _, _ => none
  | fuel + 1, a, device_number, channel_type =>
    match findDevice a device_number channel_type with
    | none => some (a, 0)
    | some i =>
      let inner : Option (Pool N) :=
        match (a.antChannel i).control_channel with
        | some c =>
          if c ≠ i then
            (removeDevice T fuel a device_number (a.antChannel c).channel_type).map Prod.fst
          else some a
        | none => some a
      inner.map fun a1 => (a1.reset T i, 1)

/-- A request made of the pool manager. -/
inductive Request (N : Nat) where
  | add (device_number device_type : Int) (channel_number : Option (Fin N))
  | remove (device_number channel_type : Int)

/-- The pool after a sequence of requests, `none` when a removal does not return
within `fuel` nested calls. -/
def runRequests {N : Nat} (T : ChannelConsts) (fuel : Nat) (a : Pool N) :
    List (Request N) → Option (Pool N)
  | [] => some a
  | Request.add d t c :: rest => runRequests T fuel (addDevice T a d t c).1 rest
  | Request.remove d t :: rest =>
    match removeDevice T fuel a d t with
    | some r => runRequests T fuel r.1 rest
    | none => none

/-- The number of channels bound to the power type. -/
def powerBound {N : Nat} (T : ChannelConsts) (a : Pool N) : Nat :=
  (Finset.univ.filter fun i : Fin N => (a.antChannel i).channel_type = T.CHANNEL_TYPE_POWER).card

/-- The channels bound to exactly the device number and channel type given. -/
def boundTo {N : Nat} (a : Pool N) (device_number channel_type : Int) : Finset (Fin N) :=
  Finset.univ.filter fun i =>
    (a.antChannel i).channel_type = channel_type ∧ (a.antChannel i).device_number = device_number

/-- A pool of four channels in which channel 0 holds power device 5 and has
channel 1 as control channel, and channel 1 is a Quarq channel that has since
been opened for device 7 (as `addDevice(7, QUARQ, 1)` does). -/
def strayCompanionPool : Pool 4 :=
  { antChannel := fun i =>
      if i = 0 then
        { ANTChannel.init sampleTypes 4 with
          channel_type := sampleTypes.CHANNEL_TYPE_POWER, device_number := 5,
          is_cinqo := true, is_old_cinqo := true, control_channel := some 1 }
      else if i = 1 then
        { ANTChannel.init sampleTypes 4 with
          channel_type := sampleTypes.CHANNEL_TYPE_QUARQ, device_number := 7,
          is_cinqo := true, control_channel := some 1 }
      else ANTChannel.init sampleTypes 4,
    powerchannels := 1,
    calls := [] }

/-- A pool of four channels as `associateControlChannels` leaves a legacy power
channel and its companion: channel 0 holds power device 5 with channel 1 as
control channel, channel 1 holds Quarq device 5 and is its own control channel. -/
def companionPool : Pool 4 :=
  { antChannel := fun i =>
      if i = 0 then
        { ANTChannel.init sampleTypes 4 with
          channel_type := sampleTypes.CHANNEL_TYPE_POWER, device_number := 5,
          is_cinqo := true, is_old_cinqo := true, control_channel := some 1 }
      else if i = 1 then
        { ANTChannel.init sampleTypes 4 with
          channel_type := sampleTypes.CHANNEL_TYPE_QUARQ, device_number := 5,
          is_cinqo := true, control_channel := some 1 }
      else ANTChannel.init sampleTypes 4,
    powerchannels := 1,
    calls := [] }

/-! ## Channel pool: `startWaitingSearch` -/

/-- The expression `x & ~m` on non-negative values: the bits of `m` are cleared in
`x` and every other bit is kept (`x & m` is the part of `x` inside `m`). -/
def clearBits (x m : Nat) : Nat := x ^^^ (x &&& m)

/-- A message that `ANT.cpp` passes to `sendMessage`, named after the function of
`ANTMessage` that builds it. -/
inductive Sent (N : Nat) where
  | unassignChannel (i : Fin N)
  | resetSystem
  | setNetworkKey (net : Nat) (key : List Nat)
  deriving DecidableEq

/-- The assignment `antChannel[i]->channel_type_flags &= ~CHANNEL_TYPE_WAITING`. -/
def Pool.clearWaiting {N : Nat} (a : Pool N) (T : ChannelConsts) (i : Fin N) : Pool N :=
  let ac : ANTChannel N :=
    { a.antChannel i with
      channel_type_flags := clearBits (a.antChannel i).channel_type_flags T.CHANNEL_TYPE_WAITING }
  { a with antChannel := Function.update a.antChannel i ac }

/-- The function `ANT::startWaitingSearch()`: the pool after the call, the value
returned and the messages passed to `sendMessage`.  A flag test such as
`channel_type_flags & CHANNEL_TYPE_QUICK_SEARCH` holds when the result is not 0. -/
def startWaitingSearch {N : Nat} (T : ChannelConsts) (a : Pool N) :
    Pool N × Int × List (Sent N) :=
  match Fin.find fun i =>
      (a.antChannel i).channel_type_flags &&& T.CHANNEL_TYPE_QUICK_SEARCH ≠ 0 with
  | some _ => (a, 0, [])
  | none =>
    match Fin.find fun i =>
        (a.antChannel i).channel_type_flags &&& T.CHANNEL_TYPE_WAITING ≠ 0 with
    | some i => (a.clearWaiting T i, 1, [Sent.unassignChannel i])
    | none => (a, 0, [])

/-- A request that goes through the allocation path of `addDevice` with a type the
mask `0xf` leaves as it is, or a removal. -/
def Request.Allocating {N : Nat} : Request N → Prop
  | Request.add d t c => c = none ∧ (d ≠ 0 → mask0xf t = t)
  | Request.remove _ _ => True

/-- No two distinct channels hold the same channel type and the same non-zero
device number. -/
def PairingUnique {N : Nat} (a : Pool N) : Prop :=
  ∀ i j : Fin N, (a.antChannel i).device_number ≠ 0 →
    (a.antChannel i).channel_type = (a.antChannel j).channel_type →
    (a.antChannel i).device_number = (a.antChannel j).device_number → i = j

instance {N : Nat} (a : Pool N) : Decidable (PairingUnique a) := by
  unfold PairingUnique; infer_instance

/-- The invariant of the pool under allocating requests and removals: no channel
has a control channel, every channel with a non-zero device number has a type
that the mask `0xf` leaves as it is, and the pairing is unique. -/
def AllocInv {N : Nat} (a : Pool N) : Prop :=
  (∀ i, (a.antChannel i).control_channel = none) ∧
  (∀ i, (a.antChannel i).device_number ≠ 0 →
    mask0xf (a.antChannel i).channel_type = (a.antChannel i).channel_type) ∧
  PairingUnique a

/-! ## Sensor type table: `ant_sensor_types`, `interpretSuffix`, `deviceTypeCode`

The macros of `ANT.h` that fill the table are the fields of the parameter record
`SensorConsts`.  The members of `ant_sensor_type_t` are taken in the order of
the initialisers: type, period, device id, frequency, network, descriptive
name, suffix. -/

/-- The periods, device type codes, frequencies and network numbers of `ANT.h`. -/
structure SensorConsts where
  ANT_SPORT_HR_PERIOD : Int
  ANT_SPORT_HR_TYPE : Int
  ANT_SPORT_POWER_PERIOD : Int
  ANT_SPORT_POWER_TYPE : Int
  ANT_SPORT_SPEED_PERIOD : Int
  ANT_SPORT_SPEED_TYPE : Int
  ANT_SPORT_CADENCE_PERIOD : Int
  ANT_SPORT_CADENCE_TYPE : Int
  ANT_SPORT_SandC_PERIOD : Int
  ANT_SPORT_SandC_TYPE : Int
  ANT_QUARQ_PERIOD : Int
  ANT_QUARQ_TYPE : Int
  ANT_FAST_QUARQ_PERIOD : Int
  ANT_FAST_QUARQ_TYPE : Int
  ANT_FAST_QUARQ_TYPE_WAS : Int
  ANT_SPORT_FREQUENCY : Int
  ANT_QUARQ_FREQUENCY : Int
  ANT_FAST_QUARQ_FREQUENCY : Int
  ANT_SPORT_NETWORK_NUMBER : Int
  DEFAULT_NETWORK_NUMBER : Int

/-- A concrete choice of the macros: the ANT+ device type codes (heart rate 0x78,
power 11, speed 0x7B, cadence 0x7A, speed and cadence 0x79), 0x60 and 11 for the
Quarq channels, and the usual periods, frequencies and network numbers. -/
def sampleSensors : SensorConsts :=
  { ANT_SPORT_HR_PERIOD := 8070, ANT_SPORT_HR_TYPE := 0x78,
    ANT_SPORT_POWER_PERIOD := 8182, ANT_SPORT_POWER_TYPE := 11,
    ANT_SPORT_SPEED_PERIOD := 8118, ANT_SPORT_SPEED_TYPE := 0x7B,
    ANT_SPORT_CADENCE_PERIOD := 8102, ANT_SPORT_CADENCE_TYPE := 0x7A,
    ANT_SPORT_SandC_PERIOD := 8086, ANT_SPORT_SandC_TYPE := 0x79,
    ANT_QUARQ_PERIOD := 8182 * 4, ANT_QUARQ_TYPE := 0x60,
    ANT_FAST_QUARQ_PERIOD := 8182 / 16, ANT_FAST_QUARQ_TYPE := 0x60,
    ANT_FAST_QUARQ_TYPE_WAS := 11,
    ANT_SPORT_FREQUENCY := 57, ANT_QUARQ_FREQUENCY := 61, ANT_FAST_QUARQ_FREQUENCY := 61,
    ANT_SPORT_NETWORK_NUMBER := 1, DEFAULT_NETWORK_NUMBER := 0 }

/-- One entry of the sensor type table (`ant_sensor_type_t`). -/
structure ant_sensor_type_t where
  type : Int
  period : Int
  device_id : Int
  frequency : Int
  network : Int
  descriptive_name : String
  suffix : Char

/-- The table `ANT::ant_sensor_types`: nine sensor types and the guard entry. -/
def ant_sensor_types (T : ChannelConsts) (S : SensorConsts) : List ant_sensor_type_t :=
  [ { type := T.CHANNEL_TYPE_UNUSED, period := 0, device_id := 0, frequency := 0,
      network := 0, descriptive_name := "Unused", suffix := '?' },
    { type := T.CHANNEL_TYPE_HR, period := S.ANT_SPORT_HR_PERIOD,
      device_id := S.ANT_SPORT_HR_TYPE, frequency := S.ANT_SPORT_FREQUENCY,
      network := S.ANT_SPORT_NETWORK_NUMBER, descriptive_name := "Heartrate", suffix := 'h' },
    { type := T.CHANNEL_TYPE_POWER, period := S.ANT_SPORT_POWER_PERIOD,
      device_id := S.ANT_SPORT_POWER_TYPE, frequency := S.ANT_SPORT_FREQUENCY,
      network := S.ANT_SPORT_NETWORK_NUMBER, descriptive_name := "Power", suffix := 'p' },
    { type := T.CHANNEL_TYPE_SPEED, period := S.ANT_SPORT_SPEED_PERIOD,
      device_id := S.ANT_SPORT_SPEED_TYPE, frequency := S.ANT_SPORT_FREQUENCY,
      network := S.ANT_SPORT_NETWORK_NUMBER, descriptive_name := "Speed", suffix := 's' },
    { type := T.CHANNEL_TYPE_CADENCE, period := S.ANT_SPORT_CADENCE_PERIOD,
      device_id := S.ANT_SPORT_CADENCE_TYPE, frequency := S.ANT_SPORT_FREQUENCY,
      network := S.ANT_SPORT_NETWORK_NUMBER, descriptive_name := "Cadence", suffix := 'c' },
    { type := T.CHANNEL_TYPE_SandC, period := S.ANT_SPORT_SandC_PERIOD,
      device_id := S.ANT_SPORT_SandC_TYPE, frequency := S.ANT_SPORT_FREQUENCY,
      network := S.ANT_SPORT_NETWORK_NUMBER, descriptive_name := "Speed + Cadence",
      suffix := 'd' },
    { type := T.CHANNEL_TYPE_QUARQ, period := S.ANT_QUARQ_PERIOD,
      device_id := S.ANT_QUARQ_TYPE, frequency := S.ANT_QUARQ_FREQUENCY,
      network := S.DEFAULT_NETWORK_NUMBER, descriptive_name := "Quarq Channel", suffix := 'Q' },
    { type := T.CHANNEL_TYPE_FAST_QUARQ, period := S.ANT_FAST_QUARQ_PERIOD,
      device_id := S.ANT_FAST_QUARQ_TYPE, frequency := S.ANT_FAST_QUARQ_FREQUENCY,
      network := S.DEFAULT_NETWORK_NUMBER, descriptive_name := "Fast Quarq", suffix := 'q' },
    { type := T.CHANNEL_TYPE_FAST_QUARQ_NEW, period := S.ANT_FAST_QUARQ_PERIOD,
      device_id := S.ANT_FAST_QUARQ_TYPE_WAS, frequency := S.ANT_FAST_QUARQ_FREQUENCY,
      network := S.DEFAULT_NETWORK_NUMBER, descriptive_name := "Fast Quarq New",
      suffix := 'n' },
    { type := T.CHANNEL_TYPE_GUARD, period := 0, device_id := 0, frequency := 0,
      network := 0, descriptive_name := "", suffix := Char.ofNat 0 } ]

/-- The outcome of a scan of the table: a value returned from inside the loop, the
loop left at the guard, or an entry read behind the last one. -/
inductive Scan (α : Type) where
  | found (a : α)
  | notFound
  | pastEnd
  deriving DecidableEq

/-- The loop `do { if (...) return ...; } while (++st, st->type != GUARD);` with `st`
at the head of the list: the entry at `st` is tested first, then `st` advances
and the loop goes on while the type of the entry now at `st` is not the guard. -/
def scanTable {α : Type} (guard : Int) (f : ant_sensor_type_t → Option α) :
    List ant_sensor_type_t → Scan α
  | [] => Scan.pastEnd
  | [st] =>
    match f st with
    | some r => Scan.found r
    | none => Scan.pastEnd
  | st :: nxt :: rest =>
    match f st with
    | some r => Scan.found r
    | none => if nxt.type ≠ guard then scanTable guard f (nxt :: rest) else Scan.notFound

/-- The value a lookup returns: the value found, or the default given after the
loop; `none` when the scan reads behind the table. -/
def Scan.result {α : Type} (dflt : α) : Scan α → Option α
  | Scan.found a => some a
  | Scan.notFound => some dflt
  | Scan.pastEnd => none

/-- The function `ANT::interpretSuffix(c)`: the type of the first entry scanned with
suffix `c`, or -1. -/
def interpretSuffix (T : ChannelConsts) (S : SensorConsts) (c : Char) : Option Int :=
  (scanTable T.CHANNEL_TYPE_GUARD (fun st => if st.suffix = c then some st.type else none)
    (ant_sensor_types T S)).result (-1)

/-- The function `ANT::deviceTypeCode(type)`: the suffix of the first entry scanned
whose `device_id` is the argument, or `'-'`. -/
def deviceTypeCode (T : ChannelConsts) (S : SensorConsts) (type : Int) : Option Char :=
  (scanTable T.CHANNEL_TYPE_GUARD (fun st => if st.device_id = type then some st.suffix else none)
    (ant_sensor_types T S)).result '-'

/-- The function `ANT::deviceTypeDescription(type)`: the name of the first entry
scanned whose `device_id` is the argument, or `"Unknown device type"`. -/
def deviceTypeDescription (T : ChannelConsts) (S : SensorConsts) (type : Int) : Option String :=
  (scanTable T.CHANNEL_TYPE_GUARD
    (fun st => if st.device_id = type then some st.descriptive_name else none)
    (ant_sensor_types T S)).result "Unknown device type"

/-- The entries of the table before the guard entry. -/
def sensorEntries (T : ChannelConsts) (S : SensorConsts) : List ant_sensor_type_t :=
  (ant_sensor_types T S).dropLast

/-- None of the eight types listed after `CHANNEL_TYPE_UNUSED` is the guard value,
so the scan reaches every entry of the table. -/
def ChannelConsts.GuardLast (T : ChannelConsts) : Prop :=
  T.CHANNEL_TYPE_HR ≠ T.CHANNEL_TYPE_GUARD ∧ T.CHANNEL_TYPE_POWER ≠ T.CHANNEL_TYPE_GUARD ∧
  T.CHANNEL_TYPE_SPEED ≠ T.CHANNEL_TYPE_GUARD ∧ T.CHANNEL_TYPE_CADENCE ≠ T.CHANNEL_TYPE_GUARD ∧
  T.CHANNEL_TYPE_SandC ≠ T.CHANNEL_TYPE_GUARD ∧ T.CHANNEL_TYPE_QUARQ ≠ T.CHANNEL_TYPE_GUARD ∧
  T.CHANNEL_TYPE_FAST_QUARQ ≠ T.CHANNEL_TYPE_GUARD ∧
  T.CHANNEL_TYPE_FAST_QUARQ_NEW ≠ T.CHANNEL_TYPE_GUARD

instance (T : ChannelConsts) : Decidable T.GuardLast := by
  unfold ChannelConsts.GuardLast; infer_instance

/-! ## Message dispatch: `processMessage`, `handleChannelEvent` -/

/-- The message ids, the event codes and the size of the receive buffer of `ANT.h`. -/
structure MessageConsts where
  ANT_ACK_DATA : Nat
  ANT_BROADCAST_DATA : Nat
  ANT_CHANNEL_STATUS : Nat
  ANT_CHANNEL_ID : Nat
  ANT_BURST_DATA : Nat
  ANT_CHANNEL_EVENT : Nat
  ANT_VERSION : Nat
  ANT_CAPABILITIES : Nat
  ANT_SERIAL_NUMBER : Nat
  EVENT_TRANSFER_TX_FAILED : Nat
  EVENT_TRANSFER_TX_COMPLETED : Nat
  ANT_MAX_MESSAGE_SIZE : Nat

/-- A concrete choice of the message ids and event codes (those of the ANT
message protocol) and a buffer of 12 bytes. -/
def sampleMessages : MessageConsts :=
  { ANT_ACK_DATA := 0x4F, ANT_BROADCAST_DATA := 0x4E, ANT_CHANNEL_STATUS := 0x52,
    ANT_CHANNEL_ID := 0x51, ANT_BURST_DATA := 0x50, ANT_CHANNEL_EVENT := 0x40,
    ANT_VERSION := 0x3E, ANT_CAPABILITIES := 0x54, ANT_SERIAL_NUMBER := 0x61,
    EVENT_TRANSFER_TX_FAILED := 6, EVENT_TRANSFER_TX_COMPLETED := 5,
    ANT_MAX_MESSAGE_SIZE := 12 }

/-- The function `ANT::handleChannelEvent()`: the index of the channel whose
`receiveMessage(rxMessage)` is called, if any. -/
def handleChannelEvent (k : Consts) (rxMessage : RxBuffer) : Option Nat :=
  let channel := rxMessage k.ANT_OFFSET_DATA &&& 0x7
  if channel < 4 then some channel else none

/-- What a call of `processMessage()` does: the bytes written to the debug capture
`antlog` and the channel, if any, that receives the message. -/
structure Dispatch where
  antlog : List Nat
  receiver : Option Nat
  deriving DecidableEq

/-- The function `ANT::processMessage()` on the receive buffer: the buffer is
written to the debug capture, then the message id selects the case. -/
def processMessage (k : Consts) (M : MessageConsts) (rxMessage : RxBuffer) : Dispatch :=
  let out := (List.range M.ANT_MAX_MESSAGE_SIZE).map rxMessage
  let id := rxMessage k.ANT_OFFSET_ID
  if id = M.ANT_ACK_DATA ∨ id = M.ANT_BROADCAST_DATA ∨ id = M.ANT_CHANNEL_STATUS ∨
      id = M.ANT_CHANNEL_ID ∨ id = M.ANT_BURST_DATA then
    { antlog := out, receiver := handleChannelEvent k rxMessage }
  else if id = M.ANT_CHANNEL_EVENT then
    if rxMessage k.ANT_OFFSET_MESSAGE_CODE = M.EVENT_TRANSFER_TX_FAILED then
      { antlog := out, receiver := none }
    else { antlog := out, receiver := handleChannelEvent k rxMessage }
  else { antlog := out, receiver := none }

/-! ## Control status: `restart`, `pause`, `stop` -/

/-- The macro `ANT_RUNNING` of `ANT.cpp`. -/
def ANT_RUNNING : Nat := 0x01

/-- The macro `ANT_PAUSED` of `ANT.cpp`. -/
def ANT_PAUSED : Nat := 0x02

/-- The function `ANT::restart()` on the member `Status`: the status after the call
and the value returned. -/
def restart (Status : Nat) : Nat × Int :=
  let status := Status
  if status &&& ANT_RUNNING ≠ 0 ∧ status &&& ANT_PAUSED ≠ 0 then
    (clearBits status ANT_PAUSED, 0)
  else (Status, 2)

/-- The function `ANT::pause()` on the member `Status`: the status after the call and
the value returned. -/
def pause (Status : Nat) : Nat × Int :=
  let status := Status
  if status &&& ANT_PAUSED ≠ 0 then (Status, 2)
  else if ¬ (status &&& ANT_RUNNING ≠ 0) then (Status, 4)
  else (status ||| ANT_PAUSED, 0)

/-- The function `ANT::stop()` on the member `Status`: `Status = 0` and 0 returned. -/
def stop (_Status : Nat) : Nat × Int := (0, 0)

/-! ## Start-up pairing of `run()`

The configured identities are `QString`s, here lists of characters.  The functions
of `QString` that `run()` uses are library code: `toLatin1` and `toInt` follow the
Qt documentation (`toInt` reads an optional sign and decimal digits between
white space and returns 0 when the conversion fails or the value does not fit
an `int`). -/

/-- The function `QChar::toLatin1()`: the character if it is a Latin-1 character, else 0. -/
def toLatin1 (c : Char) : Char := if c.toNat < 256 then c else Char.ofNat 0

/-- The value of a non-empty sequence of decimal digits, read after `acc`. -/
def digitsValue : List Char → Nat → Option Nat
  | [], _ => none
  | [c], acc => if c.isDigit then some (acc * 10 + (c.toNat - 48)) else none
  | c :: d :: ds, acc =>
    if c.isDigit then digitsValue (d :: ds) (acc * 10 + (c.toNat - 48)) else none

/-- The function `QString::toInt()` in base 10. -/
def toInt (s : List Char) : Int :=
  let t := ((s.dropWhile Char.isWhitespace).reverse.dropWhile Char.isWhitespace).reverse
  match t with
  | '-' :: ds =>
    match digitsValue ds 0 with
    | some n => if n ≤ 2147483648 then -(n : Int) else 0
    | none => 0
  | '+' :: ds =>
    match digitsValue ds 0 with
    | some n => if n ≤ 2147483647 then (n : Int) else 0
    | none => 0
  | ds =>
    match digitsValue ds 0 with
    | some n => if n ≤ 2147483647 then (n : Int) else 0
    | none => 0

/-- The function `QString::split(",")`: the parts between the commas, empty parts
kept. -/
def splitComma : List Char → List (List Char)
  | [] => [[]]
  | c :: cs =>
    if c = ',' then [] :: splitComma cs
    else
      match splitComma cs with
      | [] => [[c]]
      | p :: ps => (c :: p) :: ps

/-- The member `antIDs` as the constructor sets it from the device profile:
`deviceProfile.split(",")` when the profile is not empty, else the empty list. -/
def configuredIDs (deviceProfile : List Char) : List (List Char) :=
  if deviceProfile.length ≠ 0 then splitComma deviceProfile else []

/-- The device number and the channel type that `run()` reads from one configured
identity: `interpretSuffix` of the last character and `toInt` of what is before it. -/
def parseAntId (T : ChannelConsts) (S : SensorConsts) (antid : List Char) : Int × Option Int :=
  let c := toLatin1 (antid.getLastD (Char.ofNat 0))
  let ch_type := interpretSuffix T S c
  let device_number := toInt antid.dropLast
  (device_number, ch_type)

/-- The loop `foreach(QString antid, antIDs)` of `run()`: for every identity that is
not empty, `addDevice(device_number, ch_type, -1)`. -/
def pairConfigured {N : Nat} (T : ChannelConsts) (S : SensorConsts)
    (antIDs : List (List Char)) (a : Pool N) : Pool N :=
  antIDs.foldl
    (fun a antid =>
      if antid.length ≠ 0 then
        match (parseAntId T S antid).2 with
        | some ch_type => (addDevice T a (parseAntId T S antid).1 ch_type none).1
        | none => a
      else a)
    a

/-- The four requests of `run()` when nothing is configured; the channel array has
at least the four channels 0 to 3 that the source names. -/
def pairDefault {N : Nat} (T : ChannelConsts) (h : 4 ≤ N) (a : Pool N) : Pool N :=
  let a0 := (addDevice T a 0 T.CHANNEL_TYPE_POWER (some ⟨0, by omega⟩)).1
  let a1 := (addDevice T a0 0 T.CHANNEL_TYPE_SandC (some ⟨1, by omega⟩)).1
  let a2 := (addDevice T a1 0 T.CHANNEL_TYPE_CADENCE (some ⟨2, by omega⟩)).1
  (addDevice T a2 0 T.CHANNEL_TYPE_HR (some ⟨3, by omega⟩)).1

/-- The pairing part of `run()` once the port is open: the configured identities if
`antIDs.count()` is not 0, else the default requests. -/
def startupPairing {N : Nat} (T : ChannelConsts) (S : SensorConsts) (h : 4 ≤ N)
    (antIDs : List (List Char)) (a : Pool N) : Pool N :=
  if antIDs.length ≠ 0 then pairConfigured T S antIDs a else pairDefault T h a

/-- The receive loop on a stream delivered in chunks: every chunk is fed byte by
byte, the decoder state being kept from one chunk to the next. -/
def feedChunks (k : Consts) (s : Rx) : List (List Nat) → Rx × List RxBuffer
  | [] => (s, [])
  | c :: cs =>
      let r := feed k s c
      let rest := feedChunks k r.1 cs
      (rest.1, r.2 ++ rest.2)

/-! ## Slots for the signals of a channel -/

/-- A signal that `ANT` emits to the controller. -/
inductive Signal where
  | foundDevice (channel device_number device_id : Int)
  | lostDevice (number : Int)
  | searchTimeout (number : Int)
  deriving DecidableEq

/-- The slot `ANT::channelInfo`: `emit foundDevice(channel, device_number, device_id)`. -/
def channelInfo (channel device_number device_id : Int) : List Signal :=
  [Signal.foundDevice channel device_number device_id]

/-- The slot `ANT::dropInfo`: returns at once. -/
def dropInfo (_number : Int) : List Signal := []

/-- The slot `ANT::lostInfo`. -/
def lostInfo (number : Int) : List Signal :=
  if number < 0 ∨ number > 3 then [] else [Signal.lostDevice number]

/-- The slot `ANT::staleInfo`: after the bound check only a debug line is written. -/
def staleInfo (number : Int) : List Signal :=
  if number < 0 ∨ number > 3 then [] else []

/-- The slot `ANT::slotSearchTimeout`. -/
def slotSearchTimeout (number : Int) : List Signal :=
  if number < 0 ∨ number > 3 then [] else [Signal.searchTimeout number]

/-- The slot `ANT::searchComplete`: only a debug line is written. -/
def searchComplete (_number : Int) : List Signal := []

/-! ## The thread function `run()` and the calls of the controller -/

/-- A call that changes the member `Status`: the start of `run()`, which assigns
`ANT_RUNNING`, and the functions `pause()`, `restart()` and `stop()`. -/
inductive Control where
  | runStart
  | pause
  | restart
  | stop
  deriving DecidableEq

/-- The status after a call and the value the call returns (0 for the start). -/
def applyControl (Status : Nat) : Control → Nat × Int
  | Control.runStart => (ANT_RUNNING, 0)
  | Control.pause => pause Status
  | Control.restart => restart Status
  | Control.stop => stop Status

/-- The status after a sequence of calls. -/
def statusAfter (Status : Nat) (cmds : List Control) : Nat :=
  cmds.foldl (fun s c => (applyControl s c).1) Status

/-- The network key `ANT::key`. -/
def key : List Nat := [0xB9, 0xA5, 0x21, 0xFB, 0xBD, 0x72, 0xC3, 0x45]

/-- The members of `ANT` that `run()` works on, with what it has sent, the bytes it
has passed to `receiveByte` and the messages it has processed. -/
structure Driver (N : Nat) where
  Status : Nat
  pool : Pool N
  rx : Rx
  sent : List (Sent N)
  received : List Nat
  processed : List Dispatch

/-- The driver as the constructor leaves it: `Status = 0`, `powerchannels = 0`, the
decoder waiting for a sync byte, every channel created. -/
def Driver.init (T : ChannelConsts) (k : Consts) (N : Nat) (buf : RxBuffer) : Driver N :=
  { Status := 0, pool := Pool.init T N, rx := Rx.init k buf, sent := [], received := [],
    processed := [] }

/-- How a run of `run()` ends: the port did not open, the running flag was found
cleared, or the loop still goes on when the input given is used up. -/
inductive RunEnd where
  | openFailed
  | stopped
  | running
  deriving DecidableEq

/-- One pass of the loop of `run()` as seen from outside: the byte `rawRead` delivers,
if any, and the calls the controller makes before the loop reads `Status`. -/
structure LoopStep where
  read : Option Nat
  control : List Control

/-- The loop `while(1)` of `run()`: a byte read is passed to `receiveByte` (a message
it completes goes to `processMessage`), then `Status` is read and the loop is
left when the running flag is not set. -/
def runLoop {N : Nat} (k : Consts) (M : MessageConsts) :
    List LoopStep → Driver N → Driver N × RunEnd
  | [], d => (d, RunEnd.running)
  | st :: rest, d =>
    let d1 : Driver N :=
      match st.read with
      | some byte =>
        { d with rx := (receiveByte k d.rx byte).1,
                 received := d.received ++ [byte],
                 processed := d.processed ++
                   (receiveByte k d.rx byte).2.toList.map (processMessage k M) }
      | none => d
    let d2 : Driver N := { d1 with Status := statusAfter d1.Status st.control }
    if ¬ (d2.Status &&& ANT_RUNNING ≠ 0) then (d2, RunEnd.stopped)
    else runLoop k M rest d2

/-- The function `ANT::run()`: the counter, the status, the channels and the decoder
are set up; if `openPort()` succeeds the two start-up messages are sent, the
pairing requests are made and the loop is entered, else `quit(0)` and return. -/
def run {N : Nat} (T : ChannelConsts) (S : SensorConsts) (k : Consts) (M : MessageConsts)
    (h : 4 ≤ N) (antIDs : List (List Char)) (openPort : Bool) (steps : List LoopStep)
    (d : Driver N) : Driver N × RunEnd :=
  let d1 : Driver N :=
    { d with
      pool := { antChannel := fun _ => ANTChannel.init T N, powerchannels := 0,
                calls := d.pool.calls },
      Status := ANT_RUNNING,
      rx := { state := ST_WAIT_FOR_SYNC, length := 0, bytes := 0,
              checksum := k.ANT_SYNC_BYTE, rxMessage := d.rx.rxMessage } }
  if openPort then
    let d2 : Driver N :=
      { d1 with sent := d1.sent ++ [Sent.resetSystem, Sent.setNetworkKey 1 key],
                pool := startupPairing T S h antIDs d1.pool }
    runLoop k M steps d2
  else (d1, RunEnd.openFailed)

/-! ## Pools and streams used as concrete inputs -/

/-- A pool of four channels in which channel 0 holds power device 5 with channel 1 as
control channel and channel 1, since opened again by `addDevice(5, POWER, 1)`,
holds power device 5 as well. -/
def loopPool : Pool 4 :=
  { antChannel := fun i =>
      if i = 0 then
        { ANTChannel.init sampleTypes 4 with
          channel_type := sampleTypes.CHANNEL_TYPE_POWER, device_number := 5,
          is_cinqo := true, is_old_cinqo := true, control_channel := some 1 }
      else if i = 1 then
        { ANTChannel.init sampleTypes 4 with
          channel_type := sampleTypes.CHANNEL_TYPE_POWER, device_number := 5,
          is_cinqo := true, control_channel := some 1 }
      else ANTChannel.init sampleTypes 4,
    powerchannels := 1,
    calls := [] }

/-- What `processMessage` does with every message that the byte sequence makes the
decoder dispatch, from the decoder state given. -/
def processAll (k : Consts) (M : MessageConsts) (s : Rx) (bs : List Nat) : List Dispatch :=
  (feed k s bs).2.map (processMessage k M)

/-! ## Control channels: `associateControlChannels` -/

/-- What `associateControlChannels` does besides changing the channels: a call
`sendCinqoSuccess()` on a channel, or a call `addDevice(device_number,
device_type, -1)`.  `ANTChannel::sendCinqoSuccess` is not under src/ and the spec
gives it no effect on the members modelled here ("signal successful
association"), so the call is only recorded. -/
inductive AssocEvent (N : Nat) where
  | sendCinqoSuccess (i : Fin N)
  | addDevice (device_number device_type : Int)
  deriving DecidableEq

/-- The three lookups of the legacy branch: `findDevice` for the type
`CHANNEL_TYPE_QUARQ`, if that finds nothing for `CHANNEL_TYPE_FAST_QUARQ`, and if
that finds nothing for `CHANNEL_TYPE_FAST_QUARQ_NEW`. -/
def companion {N : Nat} (T : ChannelConsts) (a : Pool N) (device_number : Int) :
    Option (Fin N) :=
  match findDevice a device_number T.CHANNEL_TYPE_QUARQ with
  | some c => some c
  | none =>
    match findDevice a device_number T.CHANNEL_TYPE_FAST_QUARQ with
    | some c => some c
    | none => findDevice a device_number T.CHANNEL_TYPE_FAST_QUARQ_NEW

/-- The assignment `antChannel[i]->control_channel = c`. -/
def Pool.setControl {N : Nat} (a : Pool N) (i : Fin N) (c : Option (Fin N)) : Pool N :=
  let ac : ANTChannel N := { a.antChannel i with control_channel := c }
  { a with antChannel := Function.update a.antChannel i ac }

/-- The case `CHANNEL_TYPE_FAST_QUARQ`, `CHANNEL_TYPE_FAST_QUARQ_NEW`,
`CHANNEL_TYPE_QUARQ`: `ac->is_cinqo = 1; ac->control_channel = ac;`. -/
def Pool.markCinqo {N : Nat} (a : Pool N) (i : Fin N) : Pool N :=
  let ac : ANTChannel N := { a.antChannel i with is_cinqo := true, control_channel := some i }
  { a with antChannel := Function.update a.antChannel i ac }

/-- One pass of the second loop of `ANT::associateControlChannels`, for channel `i`;
the state is the pool and the calls recorded so far.  `isSearching()` is the
member `searching`. -/
def associateStep {N : Nat} (T : ChannelConsts) (st : Pool N × List (AssocEvent N))
    (i : Fin N) : Pool N × List (AssocEvent N) :=
  let a := st.1
  let ac := a.antChannel i
  if ac.channel_type = T.CHANNEL_TYPE_POWER then
    if ac.is_cinqo = true then
      if ac.is_old_cinqo = true then
        match companion T a ac.device_number with
        | some c =>
          if (a.antChannel c).searching = true then st
          else (a.setControl i (some c), st.2 ++ [AssocEvent.sendCinqoSuccess i])
        | none =>
          ((addDevice T a ac.device_number T.CHANNEL_TYPE_QUARQ none).1,
            st.2 ++ [AssocEvent.addDevice ac.device_number T.CHANNEL_TYPE_QUARQ])
      else (a.setControl i (some i), st.2 ++ [AssocEvent.sendCinqoSuccess i])
    else st
  else if ac.channel_type = T.CHANNEL_TYPE_FAST_QUARQ ∨
      ac.channel_type = T.CHANNEL_TYPE_FAST_QUARQ_NEW ∨
      ac.channel_type = T.CHANNEL_TYPE_QUARQ then
    (a.markCinqo i, st.2)
  else st

/-- The first loop of `ANT::associateControlChannels`: every control channel is set
to `NULL`. -/
def Pool.clearControl {N : Nat} (a : Pool N) : Pool N :=
  { a with antChannel := fun i => { a.antChannel i with control_channel := none } }

/-- The function `ANT::associateControlChannels()`: the pool after the call and the
calls of `sendCinqoSuccess` and `addDevice` it makes, in order. -/
def associateControlChannels {N : Nat} (T : ChannelConsts) (a : Pool N) :
    Pool N × List (AssocEvent N) :=
  (List.finRange N).foldl (associateStep T) (a.clearControl, [])

/-- The case labels of `associateControlChannels` and the unused type: the power
type and the three Quarq types differ from the unused type, and the power type
differs from the three Quarq types. -/
def ChannelConsts.AssocDistinct (T : ChannelConsts) : Prop :=
  T.CHANNEL_TYPE_POWER ≠ T.CHANNEL_TYPE_UNUSED ∧ T.CHANNEL_TYPE_QUARQ ≠ T.CHANNEL_TYPE_UNUSED ∧
  T.CHANNEL_TYPE_FAST_QUARQ ≠ T.CHANNEL_TYPE_UNUSED ∧
  T.CHANNEL_TYPE_FAST_QUARQ_NEW ≠ T.CHANNEL_TYPE_UNUSED ∧
  T.CHANNEL_TYPE_POWER ≠ T.CHANNEL_TYPE_QUARQ ∧ T.CHANNEL_TYPE_POWER ≠ T.CHANNEL_TYPE_FAST_QUARQ ∧
  T.CHANNEL_TYPE_POWER ≠ T.CHANNEL_TYPE_FAST_QUARQ_NEW

instance (T : ChannelConsts) : Decidable T.AssocDistinct := by
  unfold ChannelConsts.AssocDistinct; infer_instance

/-- The channel type is one of the three Quarq types. -/
def ChannelConsts.IsQuarq (T : ChannelConsts) (t : Int) : Prop :=
  t = T.CHANNEL_TYPE_FAST_QUARQ ∨ t = T.CHANNEL_TYPE_FAST_QUARQ_NEW ∨ t = T.CHANNEL_TYPE_QUARQ

instance (T : ChannelConsts) (t : Int) : Decidable (T.IsQuarq t) := by
  unfold ChannelConsts.IsQuarq; infer_instance

/-- A pool of four channels before association: channel 0 holds power device 5 and
channel 2 power device 6, both flagged as legacy composites; channel 1 holds
Quarq device 5 and is not searching; channel 3 is unused. -/
def legacyPool : Pool 4 :=
  { antChannel := fun i =>
      if i = 0 then
        { ANTChannel.init sampleTypes 4 with
          channel_type := sampleTypes.CHANNEL_TYPE_POWER, device_number := 5,
          is_cinqo := true, is_old_cinqo := true, control_channel := some 2 }
      else if i = 1 then
        { ANTChannel.init sampleTypes 4 with
          channel_type := sampleTypes.CHANNEL_TYPE_QUARQ, device_number := 5 }
      else if i = 2 then
        { ANTChannel.init sampleTypes 4 with
          channel_type := sampleTypes.CHANNEL_TYPE_POWER, device_number := 6,
          is_cinqo := true, is_old_cinqo := true }
      else ANTChannel.init sampleTypes 4,
    powerchannels := 2,
    calls := [] }

/-- The outcome of the legacy case for channel `m`, with the flags of the channel
and the companion read in the pool `q` and the control link and the calls read in
the result `r`: the link is the companion when that is not searching, there is no
link when it is searching, and there is no link and `addDevice(device_number,
CHANNEL_TYPE_QUARQ, -1)` has been called when there is no companion. -/
def LegacyOutcome {N : Nat} (T : ChannelConsts) (q : Pool N) (r : Pool N × List (AssocEvent N))
    (m : Fin N) : Prop :=
  (q.antChannel m).channel_type = T.CHANNEL_TYPE_POWER → (q.antChannel m).is_cinqo = true →
    (q.antChannel m).is_old_cinqo = true →
    (∀ c, companion T q (q.antChannel m).device_number = some c →
      (q.antChannel c).searching = false → (r.1.antChannel m).control_channel = some c) ∧
    (∀ c, companion T q (q.antChannel m).device_number = some c →
      (q.antChannel c).searching = true → (r.1.antChannel m).control_channel = none) ∧
    (companion T q (q.antChannel m).device_number = none →
      (r.1.antChannel m).control_channel = none ∧
      AssocEvent.addDevice (q.antChannel m).device_number T.CHANNEL_TYPE_QUARQ ∈ r.2)

/-- How a channel `m` of the pool reached in the loop relates to the pool `a` on
entry: its type, device number, searching state and legacy flag are those on
entry (and the composite flag too for a power channel); or it was unused on
entry and has been opened by the loop as the Quarq channel requested for a
device number that had no companion on entry. -/
def AssocRel {N : Nat} (T : ChannelConsts) (a : Pool N) (st : Pool N × List (AssocEvent N))
    (m : Fin N) : Prop :=
  ((st.1.antChannel m).channel_type = (a.antChannel m).channel_type ∧
    (st.1.antChannel m).device_number = (a.antChannel m).device_number ∧
    (st.1.antChannel m).searching = (a.antChannel m).searching ∧
    (st.1.antChannel m).is_old_cinqo = (a.antChannel m).is_old_cinqo ∧
    ((a.antChannel m).channel_type = T.CHANNEL_TYPE_POWER →
      (st.1.antChannel m).is_cinqo = (a.antChannel m).is_cinqo)) ∨
  ((a.antChannel m).channel_type = T.CHANNEL_TYPE_UNUSED ∧
    (st.1.antChannel m).channel_type = T.CHANNEL_TYPE_QUARQ ∧
    (st.1.antChannel m).searching = true ∧
    AssocEvent.addDevice (st.1.antChannel m).device_number T.CHANNEL_TYPE_QUARQ ∈ st.2 ∧
    companion T a (st.1.antChannel m).device_number = none)

/-- What holds of a channel `m` once the loop has passed it, in terms of the pool `a`
on entry: the legacy outcome; a power channel flagged composite and not legacy is
linked to itself; a power channel not flagged composite has no link; a channel of
a Quarq type is flagged composite and linked to itself; a channel of another type
that is not the unused type has no link; a channel unused on entry has no link, or
is linked to itself and is now of the type `CHANNEL_TYPE_QUARQ`. -/
def AssocFinal {N : Nat} (T : ChannelConsts) (a : Pool N) (st : Pool N × List (AssocEvent N))
    (m : Fin N) : Prop :=
  LegacyOutcome T a st m ∧
  ((a.antChannel m).channel_type = T.CHANNEL_TYPE_POWER → (a.antChannel m).is_cinqo = true →
    (a.antChannel m).is_old_cinqo = false → (st.1.antChannel m).control_channel = some m) ∧
  ((a.antChannel m).channel_type = T.CHANNEL_TYPE_POWER → (a.antChannel m).is_cinqo = false →
    (st.1.antChannel m).control_channel = none) ∧
  (T.IsQuarq (a.antChannel m).channel_type →
    (st.1.antChannel m).is_cinqo = true ∧ (st.1.antChannel m).control_channel = some m) ∧
  ((a.antChannel m).channel_type ≠ T.CHANNEL_TYPE_POWER →
    ¬ T.IsQuarq (a.antChannel m).channel_type →
    (a.antChannel m).channel_type ≠ T.CHANNEL_TYPE_UNUSED →
    (st.1.antChannel m).control_channel = none) ∧
  ((a.antChannel m).channel_type = T.CHANNEL_TYPE_UNUSED →
    (st.1.antChannel m).control_channel = none ∨
    ((st.1.antChannel m).control_channel = some m ∧
      (st.1.antChannel m).channel_type = T.CHANNEL_TYPE_QUARQ))

/-- The invariant of the second loop after the channels in `l` have been passed. -/
def AssocInv {N : Nat} (T : ChannelConsts) (a : Pool N) (l : List (Fin N))
    (st : Pool N × List (AssocEvent N)) : Prop :=
  (∀ m, AssocRel T a st m) ∧
  (∀ m, m ∉ l → (st.1.antChannel m).control_channel = none) ∧
  (∀ m, m ∈ l → AssocFinal T a st m)

/-- A pool of four channels in which every channel has a control link before
association: channel 0 holds power device 5, flagged composite and not legacy;
channel 1 holds Quarq device 5; channel 2 holds heart-rate device 7; channel 3
holds power device 8, not flagged composite. -/
def linkedPool : Pool 4 :=
  { antChannel := fun i =>
      if i = 0 then
        { ANTChannel.init sampleTypes 4 with
          channel_type := sampleTypes.CHANNEL_TYPE_POWER, device_number := 5,
          is_cinqo := true, control_channel := some 3 }
      else if i = 1 then
        { ANTChannel.init sampleTypes 4 with
          channel_type := sampleTypes.CHANNEL_TYPE_QUARQ, device_number := 5,
          control_channel := some 0 }
      else if i = 2 then
        { ANTChannel.init sampleTypes 4 with
          channel_type := sampleTypes.CHANNEL_TYPE_HR, device_number := 7,
          control_channel := some 1 }
      else
        { ANTChannel.init sampleTypes 4 with
          channel_type := sampleTypes.CHANNEL_TYPE_POWER, device_number := 8,
          control_channel := some 2 },
    powerchannels := 2,
    calls := [] }

end ANT

namespace ANT

open States

/-! ## Frame decoder: basic facts -/

theorem feed_nil (k : Consts) (s : Rx) : feed k s [] = (s, []) := rfl

theorem feed_cons (k : Consts) (s : Rx) (b : Nat) (bs : List Nat) :
    feed k s (b :: bs) =
      ((feed k (receiveByte k s b).1 bs).1,
        (receiveByte k s b).2.toList ++ (feed k (receiveByte k s b).1 bs).2) := rfl

theorem feed_append (k : Consts) (xs ys : List Nat) (s : Rx) :
    feed k s (xs ++ ys) =
      ((feed k (feed k s xs).1 ys).1, (feed k s xs).2 ++ (feed k (feed k s xs).1 ys).2) := by
  induction xs generalizing s with
  | nil => simp [feed_nil]
  | cons b bs ih => simp [feed_cons, ih, List.append_assoc]

theorem xorBytes_snoc (bs : List Nat) (b : Nat) : xorBytes (bs ++ [b]) = xorBytes bs ^^^ b := by
  simp [xorBytes, List.foldl_append]

theorem foldl_xor_eq (bs : List Nat) (a : Nat) :
    bs.foldl (· ^^^ ·) a = xorBytes (a :: bs) := by
  simp [xorBytes]

theorem receiveByte_sync (k : Consts) (s : Rx) (h : s.state = ST_WAIT_FOR_SYNC) :
    receiveByte k s k.ANT_SYNC_BYTE =
      ({ s with state := ST_GET_LENGTH, checksum := k.ANT_SYNC_BYTE }, none) := by
  simp [receiveByte, h]

theorem receiveByte_length (k : Consts) (s : Rx) (b : Nat) (h : s.state = ST_GET_LENGTH)
    (h1 : 1 ≤ b) (h2 : b ≤ k.ANT_MAX_LENGTH) :
    receiveByte k s b =
      ({ s with rxMessage := Function.update s.rxMessage k.ANT_OFFSET_LENGTH b,
                checksum := s.checksum ^^^ b, length := b, bytes := 0,
                state := ST_GET_MESSAGE_ID }, none) := by
  have : ¬ (b = 0 ∨ b > k.ANT_MAX_LENGTH) := by omega
  simp [receiveByte, h, this]

theorem receiveByte_id (k : Consts) (s : Rx) (b : Nat) (h : s.state = ST_GET_MESSAGE_ID) :
    receiveByte k s b =
      ({ s with rxMessage := Function.update s.rxMessage k.ANT_OFFSET_ID b,
                checksum := s.checksum ^^^ b, state := ST_GET_DATA }, none) := by
  simp [receiveByte, h]

theorem receiveByte_data (k : Consts) (s : Rx) (b : Nat) (h : s.state = ST_GET_DATA) :
    receiveByte k s b =
      ({ s with rxMessage := Function.update s.rxMessage (k.ANT_OFFSET_DATA + s.bytes) b,
                checksum := s.checksum ^^^ b, bytes := s.bytes + 1,
                state := if s.bytes + 1 ≥ s.length then ST_VALIDATE_PACKET else ST_GET_DATA },
       none) := by
  simp [receiveByte, h]

theorem receiveByte_validate (k : Consts) (s : Rx) (b : Nat) (h : s.state = ST_VALIDATE_PACKET) :
    receiveByte k s b =
      ({ s with state := ST_WAIT_FOR_SYNC },
       if s.checksum = b then some s.rxMessage else none) := by
  simp [receiveByte, h]

/-- The data loop: in `ST_GET_DATA` with `bytes + data.length = length`, the bytes
of a non-empty `data` are stored one after the other, nothing is dispatched and
the decoder ends in `ST_VALIDATE_PACKET`. -/
theorem feed_data (k : Consts) : ∀ (data : List Nat) (s : Rx),
    s.state = ST_GET_DATA → data ≠ [] → s.bytes + data.length = s.length →
    (feed k s data).2 = [] ∧ (feed k s data).1.state = ST_VALIDATE_PACKET ∧
      (feed k s data).1.checksum = data.foldl (· ^^^ ·) s.checksum ∧
      (feed k s data).1.length = s.length ∧
      (∀ j, j < k.ANT_OFFSET_DATA + s.bytes → (feed k s data).1.rxMessage j = s.rxMessage j) ∧
      (∀ i, i < data.length →
        (feed k s data).1.rxMessage (k.ANT_OFFSET_DATA + s.bytes + i) = data.getD i 0) := by
  intro data
  induction data with
  | nil => intro s _ h; exact absurd rfl h
  | cons b rest ih =>
    intro s hs _ hlen
    rw [feed_cons, receiveByte_data k s b hs]
    by_cases hrest : rest = []
    · subst hrest
      simp only [List.length_cons, List.length_nil] at hlen
      have hge : s.bytes + 1 ≥ s.length := by omega
      simp only [feed_nil, hge, if_true, Option.toList, List.append_nil, List.foldl_cons,
        List.foldl_nil, List.length_cons, List.length_nil, true_and]
      refine ⟨?_, ?_⟩
      · intro j hj
        exact Function.update_noteq (by omega) _ _
      · intro i hi
        have : i = 0 := by omega
        subst this
        simp
    · have hpos : 0 < rest.length := List.length_pos.mpr hrest
      simp only [List.length_cons] at hlen
      have hlt : ¬ (s.bytes + 1 ≥ s.length) := by omega
      simp only [hlt, if_false]
      obtain ⟨h1, h2, h3, h4, h5, h6⟩ := ih
        { s with rxMessage := Function.update s.rxMessage (k.ANT_OFFSET_DATA + s.bytes) b,
                 checksum := s.checksum ^^^ b, bytes := s.bytes + 1, state := ST_GET_DATA }
        rfl hrest (by simp only; omega)
      simp only at h3 h4 h5 h6
      refine ⟨by simp [h1], h2, by simpa using h3, h4, ?_, ?_⟩
      · intro j hj
        rw [h5 j (by omega)]
        exact Function.update_noteq (by omega) _ _
      · intro i hi
        cases i with
        | zero =>
          rw [Nat.add_zero, h5 _ (by omega)]
          simp
        | succ n =>
          simp only [List.length_cons] at hi
          have := h6 n (by omega)
          rw [show k.ANT_OFFSET_DATA + s.bytes + (n + 1) = k.ANT_OFFSET_DATA + (s.bytes + 1) + n
            by omega, this]
          simp

/-- From `ST_WAIT_FOR_SYNC`, the body of a well-formed frame is consumed without a
dispatch and leaves the decoder in `ST_VALIDATE_PACKET` with the exclusive-or of
the body as running checksum and the frame recorded in the buffer. -/
theorem feed_frameBody (k : Consts) (s : Rx) (hs : s.state = ST_WAIT_FOR_SYNC)
    (len id : Nat) (data : List Nat) (h1 : 1 ≤ len) (h2 : len ≤ k.ANT_MAX_LENGTH)
    (hd : data.length = len) :
    (feed k s (frameBody k len id data)).2 = [] ∧
      (feed k s (frameBody k len id data)).1.state = ST_VALIDATE_PACKET ∧
      (feed k s (frameBody k len id data)).1.checksum = xorBytes (frameBody k len id data) ∧
      (k.Layout → Recorded k len id data (feed k s (frameBody k len id data)).1.rxMessage) := by
  have hne : data ≠ [] := by
    intro h; subst h; simp at hd; omega
  unfold frameBody
  rw [feed_cons, receiveByte_sync k s hs, feed_cons, receiveByte_length k _ len rfl h1 h2,
    feed_cons, receiveByte_id k _ id rfl]
  simp only [Option.toList, List.nil_append]
  obtain ⟨g1, g2, g3, g4, g5, g6⟩ := feed_data k data
    { s with rxMessage := Function.update (Function.update s.rxMessage k.ANT_OFFSET_LENGTH len)
               k.ANT_OFFSET_ID id,
             checksum := k.ANT_SYNC_BYTE ^^^ len ^^^ id, length := len, bytes := 0,
             state := ST_GET_DATA } rfl hne (by simp only; omega)
  simp only [Nat.add_zero] at g3 g5 g6
  refine ⟨g1, g2, ?_, ?_⟩
  · rw [g3]; simp [xorBytes]
  · intro hk
    obtain ⟨l1, l2, l3⟩ := hk
    refine ⟨?_, ?_, g6⟩
    · rw [g5 _ l1, Function.update_noteq l3, Function.update_same]
    · rw [g5 _ l2, Function.update_same]

/-- From `ST_WAIT_FOR_SYNC`, a well-formed frame is dispatched exactly once, by its
final byte, and the decoder is back in `ST_WAIT_FOR_SYNC`. -/
theorem feed_frame (k : Consts) (s : Rx) (hs : s.state = ST_WAIT_FOR_SYNC)
    (len id : Nat) (data : List Nat) (h1 : 1 ≤ len) (h2 : len ≤ k.ANT_MAX_LENGTH)
    (hd : data.length = len) :
    (feed k s (frame k len id data)).2 = [(feed k s (frameBody k len id data)).1.rxMessage] ∧
      (feed k s (frame k len id data)).1.state = ST_WAIT_FOR_SYNC := by
  obtain ⟨g1, g2, g3, _⟩ := feed_frameBody k s hs len id data h1 h2 hd
  unfold frame
  rw [feed_append, feed_cons, receiveByte_validate k _ _ g2, feed_nil, g1]
  simp [g3]

/-- A frame body followed by a byte that is not its checksum: nothing is
dispatched and the decoder is back in `ST_WAIT_FOR_SYNC`. -/
theorem feed_corrupt (k : Consts) (s : Rx) (hs : s.state = ST_WAIT_FOR_SYNC)
    (len id : Nat) (data : List Nat) (h1 : 1 ≤ len) (h2 : len ≤ k.ANT_MAX_LENGTH)
    (hd : data.length = len) (c : Nat) (hc : c ≠ xorBytes (frameBody k len id data)) :
    (feed k s (frameBody k len id data ++ [c])).2 = [] ∧
      (feed k s (frameBody k len id data ++ [c])).1.state = ST_WAIT_FOR_SYNC := by
  obtain ⟨g1, g2, g3, _⟩ := feed_frameBody k s hs len id data h1 h2 hd
  rw [feed_append, feed_cons, receiveByte_validate k _ _ g2, feed_nil, g1]
  have : ¬ (xorBytes (frameBody k len id data) = c) := fun h => hc h.symm
  simp [g3, this]

/-- C1. Decoder completeness: from `ST_WAIT_FOR_SYNC`, for every message id, every
length `len` with `1 ≤ len ≤ ANT_MAX_LENGTH` and every `len` data bytes, feeding
the sync byte, `len`, the id, the data bytes and the exclusive-or of all these
bytes dispatches nothing before the final byte and exactly one message on the
final byte; that message records `len`, the id and the data bytes, and the
decoder is left in `ST_WAIT_FOR_SYNC`. -/
theorem receiveByte_complete (k : Consts) (hk : k.Layout) (s : Rx)
    (hs : s.state = ST_WAIT_FOR_SYNC) (len id : Nat) (data : List Nat)
    (h1 : 1 ≤ len) (h2 : len ≤ k.ANT_MAX_LENGTH) (hd : data.length = len) :
    (feed k s (frameBody k len id data)).2 = [] ∧
      ∃ m, (feed k s (frameBody k len id data ++ [xorBytes (frameBody k len id data)])).2 = [m] ∧
        Recorded k len id data m ∧
        (feed k s (frameBody k len id data ++
          [xorBytes (frameBody k len id data)])).1.state = ST_WAIT_FOR_SYNC := by
  obtain ⟨g1, _, _, g4⟩ := feed_frameBody k s hs len id data h1 h2 hd
  obtain ⟨f1, f2⟩ := feed_frame k s hs len id data h1 h2 hd
  exact ⟨g1, _, f1, g4 hk, f2⟩

/-- Witness of C1 on the frame `A4 02 4E 00 07 EF` from the initial decoder state. -/
theorem receiveByte_complete_witness :
    (feed sampleConsts (Rx.init sampleConsts (fun _ => 0))
        (frameBody sampleConsts 2 0x4E [0, 7])).2 = [] ∧
      ∃ m, (feed sampleConsts (Rx.init sampleConsts (fun _ => 0))
          (frameBody sampleConsts 2 0x4E [0, 7] ++
            [xorBytes (frameBody sampleConsts 2 0x4E [0, 7])])).2 = [m] ∧
        Recorded sampleConsts 2 0x4E [0, 7] m ∧
        (feed sampleConsts (Rx.init sampleConsts (fun _ => 0))
          (frameBody sampleConsts 2 0x4E [0, 7] ++
            [xorBytes (frameBody sampleConsts 2 0x4E [0, 7])])).1.state = ST_WAIT_FOR_SYNC :=
  receiveByte_complete sampleConsts (by decide) (Rx.init sampleConsts (fun _ => 0)) rfl
    2 0x4E [0, 7] (by decide) (by decide) rfl

/-! ## Frame decoder: soundness -/

theorem feed_snoc (k : Consts) (s : Rx) (pre : List Nat) (b : Nat) :
    feed k s (pre ++ [b]) =
      ((receiveByte k (feed k s pre).1 b).1,
        (feed k s pre).2 ++ (receiveByte k (feed k s pre).1 b).2.toList) := by
  rw [feed_append, feed_cons, feed_nil]
  simp

theorem recorded_snoc (k : Consts) (hk : k.Layout) (len id : Nat) (d : List Nat) (b : Nat)
    (m : RxBuffer) (h : Recorded k len id d m) :
    Recorded k len id (d ++ [b]) (Function.update m (k.ANT_OFFSET_DATA + d.length) b) := by
  obtain ⟨l1, l2, l3⟩ := hk
  obtain ⟨r1, r2, r3⟩ := h
  refine ⟨?_, ?_, ?_⟩
  · rw [Function.update_noteq (by omega)]; exact r1
  · rw [Function.update_noteq (by omega)]; exact r2
  · intro i hi
    simp only [List.length_append, List.length_cons, List.length_nil] at hi
    by_cases hlt : i < d.length
    · rw [Function.update_noteq (by omega), r3 i hlt]
      simp [List.getD_eq_getElem?_getD, List.getElem?_append_left hlt]
    · have : i = d.length := by omega
      subst this
      rw [Function.update_same]
      simp [List.getD_eq_getElem?_getD]

/-- One call of `receiveByte` preserves `RxInv`. -/
theorem rxInv_step (k : Consts) (pre : List Nat) (s : Rx) (b : Nat) (h : RxInv k pre s) :
    RxInv k (pre ++ [b]) (receiveByte k s b).1 := by
  obtain ⟨hL, hI, hD⟩ := h
  cases hst : s.state with
  | ST_WAIT_FOR_SYNC =>
    by_cases hb : b = k.ANT_SYNC_BYTE
    · subst hb
      rw [receiveByte_sync k s hst]
      refine ⟨fun _ => ⟨⟨pre, rfl⟩, rfl⟩, ?_, ?_⟩ <;> simp
    · have : receiveByte k s b = (s, none) := by simp [receiveByte, hst, hb]
      rw [this]
      refine ⟨?_, ?_, ?_⟩ <;> simp [hst]
  | ST_GET_LENGTH =>
    obtain ⟨⟨p, hp⟩, hc⟩ := hL hst
    by_cases hb : b = 0 ∨ b > k.ANT_MAX_LENGTH
    · have : receiveByte k s b = ({ s with state := ST_WAIT_FOR_SYNC }, none) := by
        simp [receiveByte, hst, hb]
      rw [this]
      refine ⟨?_, ?_, ?_⟩ <;> simp
    · rw [receiveByte_length k s b hst (by omega) (by omega)]
      refine ⟨by simp, fun _ => ⟨p, b, ?_, by omega, by omega, rfl, rfl, ?_, ?_⟩, by simp⟩
      · rw [hp]; simp
      · simp [hc, xorBytes]
      · simp
  | ST_GET_MESSAGE_ID =>
    obtain ⟨p, len, hp, h1, h2, h3, h4, h5, h6⟩ := hI hst
    rw [receiveByte_id k s b hst]
    refine ⟨by simp, by simp, fun _ => ⟨p, len, b, [], ?_, h1, h2, h3, ?_, ?_, by simp, ?_, ?_⟩⟩
    · rw [hp]; simp [frameBody]
    · simpa using h4
    · intro _; simpa using h1
    · simp [h5, xorBytes, frameBody]
    · intro hk
      obtain ⟨l1, l2, l3⟩ := hk
      refine ⟨?_, ?_, ?_⟩
      · simp only; rw [Function.update_noteq l3]; exact h6
      · simp
      · intro i hi; simp at hi
  | ST_GET_DATA =>
    obtain ⟨p, len, id, d, hp, h1, h2, h3, h4, h5, _, h7, h8⟩ := hD (Or.inl hst)
    have hlt := h5 hst
    rw [receiveByte_data k s b hst]
    refine ⟨?_, ?_, fun _ => ⟨p, len, id, d ++ [b], ?_, h1, h2, h3, ?_, ?_, ?_, ?_, ?_⟩⟩
    · intro h; simp only at h; split at h <;> cases h
    · intro h; simp only at h; split at h <;> cases h
    · rw [hp]; simp [frameBody]
    · simp [h4]
    · intro h; simp only at h
      split at h
      · cases h
      · simp only [List.length_append, List.length_cons, List.length_nil]; omega
    · intro h; simp only at h
      split at h
      · simp only [List.length_append, List.length_cons, List.length_nil]; omega
      · cases h
    · simp only [h7]
      rw [show frameBody k len id (d ++ [b]) = frameBody k len id d ++ [b] by simp [frameBody],
        xorBytes_snoc]
    · intro hk
      simp only [h4]
      exact recorded_snoc k hk len id d b s.rxMessage (h8 hk)
  | ST_VALIDATE_PACKET =>
    rw [receiveByte_validate k s b hst]
    refine ⟨?_, ?_, ?_⟩ <;> simp

/-- Every state reached from `ST_WAIT_FOR_SYNC` satisfies `RxInv` for the input
consumed. -/
theorem rxInv_feed (k : Consts) (s0 : Rx) (h0 : s0.state = ST_WAIT_FOR_SYNC) (pre : List Nat) :
    RxInv k pre (feed k s0 pre).1 := by
  induction pre using List.reverseRecOn with
  | nil => rw [feed_nil]; refine ⟨?_, ?_, ?_⟩ <;> simp [h0]
  | append_singleton l a ih =>
    rw [feed_snoc]
    exact rxInv_step k l _ a ih

/-- A dispatch made by the byte `b` after the input `pre`, fed from
`ST_WAIT_FOR_SYNC`: the input up to and including `b` ends with a well-formed
frame, which the dispatched buffer records. -/
theorem dispatch_ends_frame (k : Consts) (hk : k.Layout) (s0 : Rx)
    (h0 : s0.state = ST_WAIT_FOR_SYNC) (pre : List Nat) (b : Nat) (m : RxBuffer)
    (hm : (receiveByte k (feed k s0 pre).1 b).2 = some m) :
    ∃ p len id data, pre ++ [b] = p ++ frame k len id data ∧ 1 ≤ len ∧
      len ≤ k.ANT_MAX_LENGTH ∧ data.length = len ∧ Recorded k len id data m := by
  obtain ⟨_, _, hD⟩ := rxInv_feed k s0 h0 pre
  generalize feed k s0 pre = r at hm hD
  cases hst : r.1.state with
  | ST_WAIT_FOR_SYNC =>
    simp only [receiveByte, hst] at hm
    split at hm <;> cases hm
  | ST_GET_LENGTH =>
    simp only [receiveByte, hst] at hm
    split at hm <;> cases hm
  | ST_GET_MESSAGE_ID => simp [receiveByte, hst] at hm
  | ST_GET_DATA => simp [receiveByte, hst] at hm
  | ST_VALIDATE_PACKET =>
    rw [receiveByte_validate k _ b hst] at hm
    simp only at hm
    split at hm
    · rename_i hc
      cases hm
      obtain ⟨p, len, id, d, hp, h1, h2, _, _, _, h6, h7, h8⟩ := hD (Or.inr hst)
      refine ⟨p, len, id, d, ?_, h1, h2, h6 hst, h8 hk⟩
      rw [hp, frame, ← h7, hc, List.append_assoc]
    · cases hm

/-- Every buffer in the output of `feed` was dispatched by some byte of the input. -/
theorem mem_feed (k : Consts) (s : Rx) (bs : List Nat) (m : RxBuffer)
    (hm : m ∈ (feed k s bs).2) :
    ∃ pre b post, bs = pre ++ b :: post ∧ (receiveByte k (feed k s pre).1 b).2 = some m := by
  induction bs using List.reverseRecOn with
  | nil => simp [feed_nil] at hm
  | append_singleton l a ih =>
    rw [feed_snoc] at hm
    simp only [List.mem_append] at hm
    rcases hm with hm | hm
    · obtain ⟨pre, b, post, hl, hd⟩ := ih hm
      exact ⟨pre, b, post ++ [a], by rw [hl]; simp, hd⟩
    · refine ⟨l, a, [], rfl, ?_⟩
      cases hr : (receiveByte k (feed k s l).1 a).2 with
      | none => rw [hr] at hm; simp at hm
      | some x => rw [hr] at hm; simp at hm; rw [hm]

/-- C2. Decoder soundness: for every byte sequence `bs` fed to `receiveByte` from
`ST_WAIT_FOR_SYNC`, every dispatched message `m` corresponds to a contiguous run
of the input of the form sync byte, `len`, id, `len` data bytes, `c` with
`1 ≤ len ≤ ANT_MAX_LENGTH` and `c` the exclusive-or of the sync byte, `len`, the id
and the data bytes, and `m` records that length, id and data.  Hence no message
with length 0, a length above the maximum or a wrong checksum is dispatched. -/
theorem receiveByte_sound (k : Consts) (hk : k.Layout) (s0 : Rx)
    (h0 : s0.state = ST_WAIT_FOR_SYNC) (bs : List Nat) (m : RxBuffer)
    (hm : m ∈ (feed k s0 bs).2) :
    ∃ p len id data q, bs = p ++ frame k len id data ++ q ∧ 1 ≤ len ∧
      len ≤ k.ANT_MAX_LENGTH ∧ data.length = len ∧
      frame k len id data
        = k.ANT_SYNC_BYTE :: len :: id :: data ++ [xorBytes (k.ANT_SYNC_BYTE :: len :: id :: data)] ∧
      Recorded k len id data m := by
  obtain ⟨pre, b, post, hbs, hd⟩ := mem_feed k s0 bs m hm
  obtain ⟨p, len, id, data, hp, h1, h2, h3, h4⟩ := dispatch_ends_frame k hk s0 h0 pre b m hd
  refine ⟨p, len, id, data, post, ?_, h1, h2, h3, rfl, h4⟩
  rw [hbs, ← hp]
  simp

/-- Witness of C2: the frame `A4 01 4E 05 EE` between bytes of noise. -/
theorem receiveByte_sound_witness :
    ∃ p len id data q,
      [0x11, 0x22, 0xA4, 1, 0x4E, 5, 0xEE, 0x33] = p ++ frame sampleConsts len id data ++ q ∧
      1 ≤ len ∧ len ≤ sampleConsts.ANT_MAX_LENGTH ∧ data.length = len ∧
      frame sampleConsts len id data
        = sampleConsts.ANT_SYNC_BYTE :: len :: id :: data ++
            [xorBytes (sampleConsts.ANT_SYNC_BYTE :: len :: id :: data)] ∧
      Recorded sampleConsts len id data
        (feed sampleConsts (Rx.init sampleConsts (fun _ => 0))
          [0x11, 0x22, 0xA4, 1, 0x4E, 5]).1.rxMessage :=
  receiveByte_sound sampleConsts (by decide) (Rx.init sampleConsts (fun _ => 0)) rfl
    [0x11, 0x22, 0xA4, 1, 0x4E, 5, 0xEE, 0x33] _ (List.mem_singleton.mpr rfl)

/-! ## Frame decoder: corrupted frames and the wire layout -/

/-- C3. For well-formed frames F and G, when the checksum byte of F is replaced by
any different value `c` and the result is fed from `ST_WAIT_FOR_SYNC` immediately
followed by G, nothing is dispatched for the corrupted frame and exactly one
message is dispatched in all, which records the length, id and data of G. -/
theorem corrupt_then_frame (k : Consts) (hk : k.Layout) (s : Rx)
    (hs : s.state = ST_WAIT_FOR_SYNC)
    (lenF idF : Nat) (dataF : List Nat) (hF1 : 1 ≤ lenF) (hF2 : lenF ≤ k.ANT_MAX_LENGTH)
    (hFd : dataF.length = lenF)
    (lenG idG : Nat) (dataG : List Nat) (hG1 : 1 ≤ lenG) (hG2 : lenG ≤ k.ANT_MAX_LENGTH)
    (hGd : dataG.length = lenG)
    (c : Nat) (hc : c ≠ xorBytes (frameBody k lenF idF dataF)) :
    (feed k s (frameBody k lenF idF dataF ++ [c])).2 = [] ∧
      ∃ m, (feed k s ((frameBody k lenF idF dataF ++ [c]) ++ frame k lenG idG dataG)).2 = [m] ∧
        Recorded k lenG idG dataG m := by
  obtain ⟨c1, c2⟩ := feed_corrupt k s hs lenF idF dataF hF1 hF2 hFd c hc
  obtain ⟨_, _, _, g4⟩ := feed_frameBody k _ c2 lenG idG dataG hG1 hG2 hGd
  obtain ⟨f1, _⟩ := feed_frame k _ c2 lenG idG dataG hG1 hG2 hGd
  refine ⟨c1, _, ?_, g4 hk⟩
  rw [feed_append, c1, f1]
  rfl

/-- Witness of C3: `A4 01 4E 05` with checksum `00` instead of `EE`, then the
frame `A4 02 40 01 02 E5`. -/
theorem corrupt_then_frame_witness :
    (feed sampleConsts (Rx.init sampleConsts (fun _ => 0))
        (frameBody sampleConsts 1 0x4E [5] ++ [0])).2 = [] ∧
      ∃ m, (feed sampleConsts (Rx.init sampleConsts (fun _ => 0))
          ((frameBody sampleConsts 1 0x4E [5] ++ [0]) ++ frame sampleConsts 2 0x40 [1, 2])).2
            = [m] ∧
        Recorded sampleConsts 2 0x40 [1, 2] m :=
  corrupt_then_frame sampleConsts (by decide) (Rx.init sampleConsts (fun _ => 0)) rfl
    1 0x4E [5] (by decide) (by decide) rfl 2 0x40 [1, 2] (by decide) (by decide) rfl
    0 (by decide)

/-- C4, as stated, fails: with length byte 2 and only 2 - 1 = 1 data byte
(`A4 02 4E 05` and the exclusive-or `ED` of these bytes) the decoder stores
the checksum as second data byte, dispatches nothing and waits in
`ST_VALIDATE_PACKET` for one more byte. -/
theorem frame_layout_counterexample :
    (feed sampleConsts (Rx.init sampleConsts (fun _ => 0))
        ([0xA4, 2, 0x4E] ++ [5] ++ [xorBytes ([0xA4, 2, 0x4E] ++ [5])])).2 = [] ∧
      (feed sampleConsts (Rx.init sampleConsts (fun _ => 0))
        ([0xA4, 2, 0x4E] ++ [5] ++ [xorBytes ([0xA4, 2, 0x4E] ++ [5])])).1.state
          = ST_VALIDATE_PACKET := by
  constructor <;> rfl

/-- C4, amended. A frame whose length byte is `len` carries `len` data bytes between
the message id and the checksum, `len + 4` bytes in all: from
`ST_WAIT_FOR_SYNC`, the sync byte, `len`, the id, `len` data bytes and the
exclusive-or of these bytes make the decoder dispatch exactly that frame, while
with only `len - 1` data bytes nothing is dispatched and the decoder is left in
`ST_VALIDATE_PACKET`. -/
theorem frame_layout (k : Consts) (hk : k.Layout) (s : Rx) (hs : s.state = ST_WAIT_FOR_SYNC)
    (len id : Nat) (h1 : 1 ≤ len) (h2 : len ≤ k.ANT_MAX_LENGTH) :
    (∀ data : List Nat, data.length = len →
      (frame k len id data).length = len + 4 ∧
      ∃ m, (feed k s (frame k len id data)).2 = [m] ∧ Recorded k len id data m) ∧
    (∀ short : List Nat, short.length = len - 1 →
      (feed k s (frame k len id short)).2 = [] ∧
      (feed k s (frame k len id short)).1.state = ST_VALIDATE_PACKET) := by
  constructor
  · intro data hd
    obtain ⟨_, _, _, g4⟩ := feed_frameBody k s hs len id data h1 h2 hd
    obtain ⟨f1, _⟩ := feed_frame k s hs len id data h1 h2 hd
    refine ⟨by simp [frame, frameBody, hd], _, f1, g4 hk⟩
  · intro short hshort
    have hfr : frame k len id short
        = frameBody k len id (short ++ [xorBytes (frameBody k len id short)]) := by
      simp [frame, frameBody]
    have hlen : (short ++ [xorBytes (frameBody k len id short)]).length = len := by
      simp only [List.length_append, List.length_cons, List.length_nil]; omega
    obtain ⟨g1, g2, _, _⟩ := feed_frameBody k s hs len id _ h1 h2 hlen
    rw [hfr]
    exact ⟨g1, g2⟩

/-- Witness of the amended C4 with length byte 2 from the initial decoder state. -/
theorem frame_layout_witness :
    (∀ data : List Nat, data.length = 2 →
      (frame sampleConsts 2 0x4E data).length = 2 + 4 ∧
      ∃ m, (feed sampleConsts (Rx.init sampleConsts (fun _ => 0))
          (frame sampleConsts 2 0x4E data)).2 = [m] ∧ Recorded sampleConsts 2 0x4E data m) ∧
    (∀ short : List Nat, short.length = 2 - 1 →
      (feed sampleConsts (Rx.init sampleConsts (fun _ => 0))
        (frame sampleConsts 2 0x4E short)).2 = [] ∧
      (feed sampleConsts (Rx.init sampleConsts (fun _ => 0))
        (frame sampleConsts 2 0x4E short)).1.state = ST_VALIDATE_PACKET) :=
  frame_layout sampleConsts (by decide) (Rx.init sampleConsts (fun _ => 0)) rfl 2 0x4E
    (by decide) (by decide)

/-! ## Channel pool: `addDevice` -/

theorem findUnused_eq_some {N : Nat} (T : ChannelConsts) (a : Pool N) (i : Fin N) :
    findUnused T a = some i ↔
      (a.antChannel i).channel_type = T.CHANNEL_TYPE_UNUSED ∧
        ∀ j, (a.antChannel j).channel_type = T.CHANNEL_TYPE_UNUSED → i ≤ j := by
  unfold findUnused
  exact Fin.find_eq_some_iff

theorem findUnused_eq_none {N : Nat} (T : ChannelConsts) (a : Pool N) :
    findUnused T a = none ↔ ∀ i, (a.antChannel i).channel_type ≠ T.CHANNEL_TYPE_UNUSED := by
  unfold findUnused
  exact Fin.find_eq_none_iff

theorem findBound_eq_none {N : Nat} (a : Pool N) (d t : Int) :
    findBound a d t = none ↔
      ∀ i, ¬ (mask0xf (a.antChannel i).channel_type = t ∧ (a.antChannel i).device_number = d) := by
  unfold findBound
  exact Fin.find_eq_none_iff

theorem findBound_isSome {N : Nat} (a : Pool N) (d t : Int) :
    (findBound a d t).isSome = true ↔
      ∃ i, mask0xf (a.antChannel i).channel_type = t ∧ (a.antChannel i).device_number = d := by
  unfold findBound
  exact Fin.isSome_find_iff

/-- The allocation branch of `addDevice`: no explicit channel, no deduplication,
and `i` the first unused channel.  The channel is opened; for the power type it
is flagged alternate when the counter is not 0 and the counter goes up by one. -/
theorem addDevice_alloc {N : Nat} (T : ChannelConsts) (a : Pool N) (d t : Int) (i : Fin N)
    (hdup : d = 0 ∨ findBound a d t = none) (hi : findUnused T a = some i) :
    addDevice T a d t none =
      ({ antChannel := Function.update a.antChannel i
           { channel_type := t, device_number := d,
             channel_type_flags := (a.antChannel i).channel_type_flags,
             is_cinqo := (a.antChannel i).is_cinqo, is_old_cinqo := (a.antChannel i).is_old_cinqo,
             control_channel := (a.antChannel i).control_channel,
             is_alt := if t = T.CHANNEL_TYPE_POWER ∧ a.powerchannels ≠ 0 then true
                       else (a.antChannel i).is_alt,
             searching := true },
         powerchannels := if t = T.CHANNEL_TYPE_POWER then a.powerchannels + 1
                          else a.powerchannels,
         calls := a.calls ++ Call.open_ i d t ::
           (if t = T.CHANNEL_TYPE_POWER ∧ a.powerchannels ≠ 0 then [Call.setAlt i true]
            else []) }, 1) := by
  have h : (if d ≠ 0 then findBound a d t else none) = none := by
    rcases hdup with h | h
    · simp [h]
    · simp [h]
  simp only [addDevice, h, hi]
  by_cases ht : t = T.CHANNEL_TYPE_POWER
  · by_cases hp : a.powerchannels = 0 <;>
      simp [ht, hp, Pool.open_, Pool.setAlt, ANTChannel.open_, ANTChannel.setAlt]
  · simp [ht, Pool.open_, ANTChannel.open_]

/-- C5. From a pool of at least two channels in which every channel is unused and the
power counter is 0, two successive calls `addDevice(0, POWER, -1)` both return 1
and bind the two lowest channels 0 and 1 to (POWER, device number 0); `setAlt(true)`
is called on channel 1, which is flagged alternate, and not on channel 0, which
keeps the flag it had (false after `init`); every other channel is unchanged
and the power counter is 2. -/
theorem addDevice_wildcard_twice {N : Nat} (T : ChannelConsts) (a : Pool N) (hN : 2 ≤ N)
    (hT : T.CHANNEL_TYPE_POWER ≠ T.CHANNEL_TYPE_UNUSED)
    (hU : ∀ i, (a.antChannel i).channel_type = T.CHANNEL_TYPE_UNUSED)
    (hc : a.powerchannels = 0) :
    (addDevice T a 0 T.CHANNEL_TYPE_POWER none).2 = 1 ∧
    (addDevice T (addDevice T a 0 T.CHANNEL_TYPE_POWER none).1 0 T.CHANNEL_TYPE_POWER none).2 = 1 ∧
    ∃ b : Pool N,
      b = (addDevice T (addDevice T a 0 T.CHANNEL_TYPE_POWER none).1 0
            T.CHANNEL_TYPE_POWER none).1 ∧
      (b.antChannel ⟨0, by omega⟩).channel_type = T.CHANNEL_TYPE_POWER ∧
      (b.antChannel ⟨0, by omega⟩).device_number = 0 ∧
      (b.antChannel ⟨1, by omega⟩).channel_type = T.CHANNEL_TYPE_POWER ∧
      (b.antChannel ⟨1, by omega⟩).device_number = 0 ∧
      (b.antChannel ⟨1, by omega⟩).is_alt = true ∧
      (b.antChannel ⟨0, by omega⟩).is_alt = (a.antChannel ⟨0, by omega⟩).is_alt ∧
      (∀ i : Fin N, 2 ≤ i.val → b.antChannel i = a.antChannel i) ∧
      b.powerchannels = 2 ∧
      b.calls = a.calls ++ [Call.open_ ⟨0, by omega⟩ 0 T.CHANNEL_TYPE_POWER,
        Call.open_ ⟨1, by omega⟩ 0 T.CHANNEL_TYPE_POWER, Call.setAlt ⟨1, by omega⟩ true] := by
  have h0 : 0 < N := by omega
  have h1 : 1 < N := by omega
  have h01 : (⟨0, h0⟩ : Fin N) ≠ ⟨1, h1⟩ := by
    intro h; exact absurd (Fin.mk.inj_iff.mp h) (by decide)
  have e1 : findUnused T a = some ⟨0, h0⟩ :=
    (findUnused_eq_some T a _).mpr ⟨hU _, fun j _ => Fin.mk_le_of_le_val (Nat.zero_le _)⟩
  have r1 := addDevice_alloc T a 0 T.CHANNEL_TYPE_POWER _ (Or.inl rfl) e1
  simp only [hc, ne_eq, not_true_eq_false, and_false, if_false, true_and, if_true, zero_add,
    List.append_nil] at r1
  have e2 : findUnused T (addDevice T a 0 T.CHANNEL_TYPE_POWER none).1 = some ⟨1, h1⟩ := by
    rw [r1]
    refine (findUnused_eq_some T _ _).mpr ⟨?_, ?_⟩
    · simp only
      rw [Function.update_noteq (Ne.symm h01)]
      exact hU _
    · intro j hj
      simp only at hj
      by_cases hj0 : j = ⟨0, h0⟩
      · rw [hj0, Function.update_same] at hj
        exact absurd hj hT
      · have : j.val ≠ 0 := fun h => hj0 (Fin.ext h)
        exact Fin.mk_le_of_le_val (by omega)
  have r2 := addDevice_alloc T _ 0 T.CHANNEL_TYPE_POWER _ (Or.inl rfl) e2
  rw [r1] at r2
  simp only [ne_eq, one_ne_zero, not_false_eq_true, and_self, if_true] at r2
  have r1a := congrArg Prod.fst r1
  have r1b := congrArg Prod.snd r1
  simp only at r1a r1b
  rw [r1b, r1a, r2]
  refine ⟨rfl, rfl, _, rfl, ?_⟩
  simp only [Function.update_same]
  refine ⟨?_, ?_, trivial, trivial, trivial, ?_, ?_, by norm_num, by simp⟩
  · rw [Function.update_noteq h01, Function.update_same]
  · rw [Function.update_noteq h01, Function.update_same]
  · rw [Function.update_noteq h01, Function.update_same]
  · intro i hi
    have n0 : i ≠ ⟨0, h0⟩ := fun h => by rw [h] at hi; simp at hi
    have n1 : i ≠ ⟨1, h1⟩ := fun h => by rw [h] at hi; simp at hi
    rw [Function.update_noteq n1, Function.update_noteq n0]

/-- Witness of C5 on the initial pool of four channels. -/
theorem addDevice_wildcard_twice_witness :
    (addDevice sampleTypes (Pool.init sampleTypes 4) 0 sampleTypes.CHANNEL_TYPE_POWER none).2 = 1 ∧
    (addDevice sampleTypes
      (addDevice sampleTypes (Pool.init sampleTypes 4) 0 sampleTypes.CHANNEL_TYPE_POWER none).1 0
      sampleTypes.CHANNEL_TYPE_POWER none).2 = 1 ∧
    ∃ b : Pool 4,
      b = (addDevice sampleTypes
            (addDevice sampleTypes (Pool.init sampleTypes 4) 0
              sampleTypes.CHANNEL_TYPE_POWER none).1 0
            sampleTypes.CHANNEL_TYPE_POWER none).1 ∧
      (b.antChannel ⟨0, by omega⟩).channel_type = sampleTypes.CHANNEL_TYPE_POWER ∧
      (b.antChannel ⟨0, by omega⟩).device_number = 0 ∧
      (b.antChannel ⟨1, by omega⟩).channel_type = sampleTypes.CHANNEL_TYPE_POWER ∧
      (b.antChannel ⟨1, by omega⟩).device_number = 0 ∧
      (b.antChannel ⟨1, by omega⟩).is_alt = true ∧
      (b.antChannel ⟨0, by omega⟩).is_alt
        = ((Pool.init sampleTypes 4).antChannel ⟨0, by omega⟩).is_alt ∧
      (∀ i : Fin 4, 2 ≤ i.val → b.antChannel i = (Pool.init sampleTypes 4).antChannel i) ∧
      b.powerchannels = 2 ∧
      b.calls = (Pool.init sampleTypes 4).calls ++
        [Call.open_ ⟨0, by omega⟩ 0 sampleTypes.CHANNEL_TYPE_POWER,
         Call.open_ ⟨1, by omega⟩ 0 sampleTypes.CHANNEL_TYPE_POWER,
         Call.setAlt ⟨1, by omega⟩ true] :=
  addDevice_wildcard_twice sampleTypes (Pool.init sampleTypes 4) (by decide) (by decide)
    (fun _ => rfl) rfl

/-- The deduplication branch of `addDevice`: a non-zero device number that a channel
already holds under the masked type; the pool is left as it is. -/
theorem addDevice_dedup {N : Nat} (T : ChannelConsts) (a : Pool N) (d t : Int) (hd : d ≠ 0)
    (h : ∃ i, mask0xf (a.antChannel i).channel_type = t ∧ (a.antChannel i).device_number = d) :
    addDevice T a d t none = (a, 1) := by
  have hs := (findBound_isSome a d t).mpr h
  obtain ⟨j, hj⟩ := Option.isSome_iff_exists.mp hs
  simp [addDevice, hd, hj]

/-- The failing branch of `addDevice`: no explicit channel, no deduplication and no
unused channel. -/
theorem addDevice_full {N : Nat} (T : ChannelConsts) (a : Pool N) (d t : Int)
    (hdup : d = 0 ∨ findBound a d t = none) (hU : findUnused T a = none) :
    addDevice T a d t none = (a, 0) := by
  have h : (if d ≠ 0 then findBound a d t else none) = none := by
    rcases hdup with h | h
    · simp [h]
    · simp [h]
  simp only [addDevice, h, hU]

/-- C6, as stated, fails in two ways.  For the type -1, which `interpretSuffix`
returns for an unknown suffix, `(channel_type & 0xf) == device_type` never holds:
from the initial pool of four channels `addDevice(12, -1, -1)` called twice opens
a second channel, and two channels are bound to (-1, 12).  And when a channel
already holds device 12 with a type whose low four bits are POWER (here 18),
`addDevice(12, POWER, -1)` returns 1 without opening anything: no channel is
bound to (POWER, 12). -/
theorem addDevice_idempotent_counterexample :
    ((∃ i, ((Pool.init sampleTypes 4).antChannel i).channel_type
        = sampleTypes.CHANNEL_TYPE_UNUSED) ∧
      boundTo (Pool.init sampleTypes 4) 12 (-1) = ∅ ∧
      (addDevice sampleTypes (Pool.init sampleTypes 4) 12 (-1) none).2 = 1 ∧
      (addDevice sampleTypes (addDevice sampleTypes (Pool.init sampleTypes 4) 12 (-1) none).1
        12 (-1) none).1.antChannel
        ≠ (addDevice sampleTypes (Pool.init sampleTypes 4) 12 (-1) none).1.antChannel ∧
      (boundTo (addDevice sampleTypes
        (addDevice sampleTypes (Pool.init sampleTypes 4) 12 (-1) none).1 12 (-1) none).1
        12 (-1)).card = 2) ∧
    ((∃ i, (((Pool.init sampleTypes 4).open_ 0 12 18).antChannel i).channel_type
        = sampleTypes.CHANNEL_TYPE_UNUSED) ∧
      boundTo ((Pool.init sampleTypes 4).open_ 0 12 18) 12 sampleTypes.CHANNEL_TYPE_POWER = ∅ ∧
      (addDevice sampleTypes ((Pool.init sampleTypes 4).open_ 0 12 18) 12
        sampleTypes.CHANNEL_TYPE_POWER none).2 = 1 ∧
      (boundTo (addDevice sampleTypes ((Pool.init sampleTypes 4).open_ 0 12 18) 12
        sampleTypes.CHANNEL_TYPE_POWER none).1 12 sampleTypes.CHANNEL_TYPE_POWER).card = 0) := by
  decide

/-- C6, amended. `addDevice` is idempotent for non-wildcard requests with a type in
the range of the mask: for every non-zero device number `d` and every type `t`
with `(t & 0xf) == t`, from a pool with at least one unused channel and no
channel whose masked type is `t` with device number `d`, calling
`addDevice(d, t, -1)` twice returns 1 both times, the second call leaves the
whole pool and the power counter unchanged, and exactly one channel is bound
to `(t, d)`. -/
theorem addDevice_idempotent {N : Nat} (T : ChannelConsts) (a : Pool N) (d t : Int)
    (hd : d ≠ 0) (ht : mask0xf t = t)
    (hU : ∃ i, (a.antChannel i).channel_type = T.CHANNEL_TYPE_UNUSED)
    (hB : ∀ i, ¬ (mask0xf (a.antChannel i).channel_type = t ∧ (a.antChannel i).device_number = d)) :
    (addDevice T a d t none).2 = 1 ∧
    addDevice T (addDevice T a d t none).1 d t none = ((addDevice T a d t none).1, 1) ∧
    (boundTo (addDevice T (addDevice T a d t none).1 d t none).1 d t).card = 1 := by
  have hfind : (findUnused T a).isSome = true := Fin.isSome_find_iff.mpr hU
  obtain ⟨i, hi⟩ := Option.isSome_iff_exists.mp hfind
  have r1 := addDevice_alloc T a d t i (Or.inr ((findBound_eq_none a d t).mpr hB)) hi
  have r1a := congrArg Prod.fst r1
  have r1b := congrArg Prod.snd r1
  simp only at r1a r1b
  have r2 : addDevice T (addDevice T a d t none).1 d t none = ((addDevice T a d t none).1, 1) := by
    apply addDevice_dedup T _ d t hd
    refine ⟨i, ?_⟩
    rw [r1a]
    simp only [Function.update_same]
    exact ⟨ht, trivial⟩
  refine ⟨r1b, r2, ?_⟩
  rw [r2]
  simp only
  have hset : boundTo (addDevice T a d t none).1 d t = {i} := by
    rw [r1a]
    ext j
    simp only [boundTo, Finset.mem_filter, Finset.mem_univ, true_and, Finset.mem_singleton]
    constructor
    · intro hj
      by_contra hne
      rw [Function.update_noteq hne] at hj
      exact hB j ⟨by rw [hj.1]; exact ht, hj.2⟩
    · intro hj
      subst hj
      simp only [Function.update_same, and_self]
  rw [hset]
  exact Finset.card_singleton i

/-- Witness of the amended C6: device 123 of the power type on the initial pool of
four channels. -/
theorem addDevice_idempotent_witness :
    (addDevice sampleTypes (Pool.init sampleTypes 4) 123 sampleTypes.CHANNEL_TYPE_POWER none).2
      = 1 ∧
    addDevice sampleTypes
      (addDevice sampleTypes (Pool.init sampleTypes 4) 123 sampleTypes.CHANNEL_TYPE_POWER none).1
      123 sampleTypes.CHANNEL_TYPE_POWER none
      = ((addDevice sampleTypes (Pool.init sampleTypes 4) 123
          sampleTypes.CHANNEL_TYPE_POWER none).1, 1) ∧
    (boundTo (addDevice sampleTypes
      (addDevice sampleTypes (Pool.init sampleTypes 4) 123 sampleTypes.CHANNEL_TYPE_POWER none).1
      123 sampleTypes.CHANNEL_TYPE_POWER none).1 123 sampleTypes.CHANNEL_TYPE_POWER).card = 1 :=
  addDevice_idempotent sampleTypes (Pool.init sampleTypes 4) 123 sampleTypes.CHANNEL_TYPE_POWER
    (by decide) (by decide) ⟨0, rfl⟩ (by decide)

/-- C7. `addDevice` returns 0 exactly when no explicit channel index is given, the
request is not satisfied by an existing channel (the device number is 0, or no
channel has masked type equal to the device type and the same device number)
and no channel is unused; in that case the pool, with every channel and the
power counter, is unchanged.  In every other case it returns 1. -/
theorem addDevice_fail_iff {N : Nat} (T : ChannelConsts) (a : Pool N) (d t : Int)
    (c : Option (Fin N)) :
    ((addDevice T a d t c).2 = 0 ↔
      c = none ∧
      (d = 0 ∨ ∀ i, ¬ (mask0xf (a.antChannel i).channel_type = t ∧
        (a.antChannel i).device_number = d)) ∧
      ∀ i, (a.antChannel i).channel_type ≠ T.CHANNEL_TYPE_UNUSED) ∧
    ((addDevice T a d t c).2 = 0 → (addDevice T a d t c).1 = a) ∧
    ((addDevice T a d t c).2 ≠ 0 → (addDevice T a d t c).2 = 1) := by
  cases c with
  | some c => simp [addDevice]
  | none =>
    by_cases hdup : d ≠ 0 ∧ ∃ i, mask0xf (a.antChannel i).channel_type = t ∧
        (a.antChannel i).device_number = d
    · rw [addDevice_dedup T a d t hdup.1 hdup.2]
      obtain ⟨hd, i, hi⟩ := hdup
      refine ⟨⟨fun h => absurd h (by simp), fun h => ?_⟩, fun _ => rfl, fun _ => rfl⟩
      rcases h.2.1 with h0 | hall
      · exact absurd h0 hd
      · exact absurd hi (hall i)
    · have hdup2 : d = 0 ∨ findBound a d t = none := by
        by_cases hd : d = 0
        · exact Or.inl hd
        · refine Or.inr ((findBound_eq_none a d t).mpr fun i hi => hdup ⟨hd, i, hi⟩)
      have hdup3 : d = 0 ∨ ∀ i, ¬ (mask0xf (a.antChannel i).channel_type = t ∧
          (a.antChannel i).device_number = d) :=
        hdup2.imp id (findBound_eq_none a d t).mp
      cases hU : findUnused T a with
      | none =>
        rw [addDevice_full T a d t hdup2 hU]
        exact ⟨⟨fun _ => ⟨rfl, hdup3, (findUnused_eq_none T a).mp hU⟩, fun _ => rfl⟩,
          fun _ => rfl, fun h => absurd rfl h⟩
      | some i =>
        rw [addDevice_alloc T a d t i hdup2 hU]
        refine ⟨⟨fun h => absurd h (by simp), fun h => ?_⟩, fun h => absurd h (by simp),
          fun _ => rfl⟩
        exact absurd ((findUnused_eq_some T a i).mp hU).1 (h.2.2 i)

/-! ## Channel pool: the power counter -/

/-- C8, the code at the failing input.  From the initial pool of four channels,
`addDevice(0, POWER, 0)` (the first default pairing request of `run()`) opens
channel 0 for the power type, returns 1 and leaves `powerchannels` at 0; the
next `addDevice(7, POWER, -1)` opens channel 1 for the power type without
`setAlt`, so that channel is not flagged alternate although a power channel was
opened before it, and the counter is 1 with two channels bound to power. -/
theorem addDevice_explicit_power_uncounted :
    (addDevice sampleTypes (Pool.init sampleTypes 4) 0 sampleTypes.CHANNEL_TYPE_POWER
      (some 0)).2 = 1 ∧
    ((addDevice sampleTypes (Pool.init sampleTypes 4) 0 sampleTypes.CHANNEL_TYPE_POWER
      (some 0)).1.antChannel 0).channel_type = sampleTypes.CHANNEL_TYPE_POWER ∧
    (addDevice sampleTypes (Pool.init sampleTypes 4) 0 sampleTypes.CHANNEL_TYPE_POWER
      (some 0)).1.powerchannels = 0 ∧
    (addDevice sampleTypes (Pool.init sampleTypes 4) 0 sampleTypes.CHANNEL_TYPE_POWER
      (some 0)).1.calls = [Call.close 0, Call.open_ 0 0 sampleTypes.CHANNEL_TYPE_POWER] ∧
    ((addDevice sampleTypes
      (addDevice sampleTypes (Pool.init sampleTypes 4) 0 sampleTypes.CHANNEL_TYPE_POWER
        (some 0)).1 7 sampleTypes.CHANNEL_TYPE_POWER none).1.antChannel 1).channel_type
        = sampleTypes.CHANNEL_TYPE_POWER ∧
    ((addDevice sampleTypes
      (addDevice sampleTypes (Pool.init sampleTypes 4) 0 sampleTypes.CHANNEL_TYPE_POWER
        (some 0)).1 7 sampleTypes.CHANNEL_TYPE_POWER none).1.antChannel 1).is_alt = false ∧
    (addDevice sampleTypes
      (addDevice sampleTypes (Pool.init sampleTypes 4) 0 sampleTypes.CHANNEL_TYPE_POWER
        (some 0)).1 7 sampleTypes.CHANNEL_TYPE_POWER none).1.powerchannels = 1 ∧
    powerBound sampleTypes (addDevice sampleTypes
      (addDevice sampleTypes (Pool.init sampleTypes 4) 0 sampleTypes.CHANNEL_TYPE_POWER
        (some 0)).1 7 sampleTypes.CHANNEL_TYPE_POWER none).1 = 2 := by
  decide

/-- C9, the code at the failing input.  From the initial pool of four channels,
`addDevice(5, POWER, -1)` followed by `removeDevice(5, POWER)` returns with no
channel bound to the power type and `powerchannels` still 1: `removeDevice`
never lowers the counter.  And `addDevice(0, POWER, 0)` alone leaves one channel
bound to the power type and the counter at 0. -/
theorem removeDevice_keeps_powerchannels :
    (runRequests sampleTypes 2 (Pool.init sampleTypes 4)
        [Request.add 5 sampleTypes.CHANNEL_TYPE_POWER none,
         Request.remove 5 sampleTypes.CHANNEL_TYPE_POWER]).map
      (fun b => (b.powerchannels, powerBound sampleTypes b)) = some (1, 0) ∧
    (runRequests sampleTypes 2 (Pool.init sampleTypes 4)
        [Request.add 0 sampleTypes.CHANNEL_TYPE_POWER (some 0)]).map
      (fun b => (b.powerchannels, powerBound sampleTypes b)) = some (0, 1) := by
  decide

/-! ## Channel pool: `removeDevice` -/

theorem reset_antChannel {N : Nat} (T : ChannelConsts) (a : Pool N) (i : Fin N) :
    (a.reset T i).antChannel = Function.update a.antChannel i
      { a.antChannel i with channel_type := T.CHANNEL_TYPE_UNUSED, device_number := 0 } := rfl

theorem reset_calls {N : Nat} (T : ChannelConsts) (a : Pool N) (i : Fin N) :
    (a.reset T i).calls = a.calls ++ [Call.close i, Call.setId i] := by
  simp [Pool.reset, Pool.close, Pool.setId]

theorem reset_powerchannels {N : Nat} (T : ChannelConsts) (a : Pool N) (i : Fin N) :
    (a.reset T i).powerchannels = a.powerchannels := rfl

/-- A call of `removeDevice` that matches channel `c`, when `c` has no control
channel or is its own: only `c` is reset. -/
theorem removeDevice_single {N : Nat} (T : ChannelConsts) (a : Pool N) (d t : Int) (c : Fin N)
    (fuel : Nat) (hc : findDevice a d t = some c)
    (hl : (a.antChannel c).control_channel = none ∨ (a.antChannel c).control_channel = some c) :
    removeDevice T (fuel + 1) a d t = some (a.reset T c, 1) := by
  rcases hl with hl | hl <;> simp [removeDevice, hc, hl]

/-- A call of `removeDevice` that matches channel `c` with control channel `k ≠ c`:
the call made on the type of `k` runs first, then `c` is reset. -/
theorem removeDevice_linked {N : Nat} (T : ChannelConsts) (a : Pool N) (d t : Int) (c k : Fin N)
    (fuel : Nat) (hc : findDevice a d t = some c)
    (hl : (a.antChannel c).control_channel = some k) (hk : k ≠ c) :
    removeDevice T (fuel + 1) a d t =
      (removeDevice T fuel a d (a.antChannel k).channel_type).map
        fun r => (r.1.reset T c, 1) := by
  simp only [removeDevice, hc, hl, ne_eq, hk, not_false_eq_true, if_true, Option.map_map]
  rfl

/-- C10, as stated, fails: in `strayCompanionPool` the call `removeDevice(5, POWER)`
matches channel 0, whose control channel is channel 1, a different channel;
the nested call `removeDevice(5, QUARQ)` finds no channel, because channel 1
holds device 7, so channel 1 is neither closed nor reset. -/
theorem removeDevice_companion_counterexample :
    findDevice strayCompanionPool 5 sampleTypes.CHANNEL_TYPE_POWER = some 0 ∧
    (strayCompanionPool.antChannel 0).control_channel = some 1 ∧
    (removeDevice sampleTypes 5 strayCompanionPool 5 sampleTypes.CHANNEL_TYPE_POWER).map
      (fun r => (r.2, (r.1.antChannel 1).channel_type, (r.1.antChannel 1).device_number,
        r.1.calls))
      = some (1, sampleTypes.CHANNEL_TYPE_QUARQ, 7, [Call.close 0, Call.setId 0]) := by
  decide

/-- C10, amended. For every pool state and every call `removeDevice(d, t)` that
matches a channel `c` (the lowest index with that type and number): if `c` has a
control link to a different channel `k`, and `k` is the channel that the lookup
of `(d, type of k)` finds and has no control link or is linked to itself, then
the call returns 1 and both `c` and `k` are closed and reset to unused with
device number 0, every other channel being left untouched; if `c` has no
control link or is linked to itself, the call returns 1, only `c` is closed and
reset and every other channel is left untouched. -/
theorem removeDevice_companion {N : Nat} (T : ChannelConsts) (a : Pool N) (d t : Int)
    (c : Fin N) (fuel : Nat) (hc : findDevice a d t = some c) :
    (∀ k, (a.antChannel c).control_channel = some k → k ≠ c →
      findDevice a d (a.antChannel k).channel_type = some k →
      ((a.antChannel k).control_channel = none ∨ (a.antChannel k).control_channel = some k) →
      ∃ b, removeDevice T (fuel + 2) a d t = some (b, 1) ∧
        (b.antChannel c).channel_type = T.CHANNEL_TYPE_UNUSED ∧
        (b.antChannel c).device_number = 0 ∧
        (b.antChannel k).channel_type = T.CHANNEL_TYPE_UNUSED ∧
        (b.antChannel k).device_number = 0 ∧
        b.calls = a.calls ++ [Call.close k, Call.setId k, Call.close c, Call.setId c] ∧
        (∀ j, j ≠ c → j ≠ k → b.antChannel j = a.antChannel j) ∧
        b.powerchannels = a.powerchannels) ∧
    (((a.antChannel c).control_channel = none ∨ (a.antChannel c).control_channel = some c) →
      ∃ b, removeDevice T (fuel + 1) a d t = some (b, 1) ∧
        (b.antChannel c).channel_type = T.CHANNEL_TYPE_UNUSED ∧
        (b.antChannel c).device_number = 0 ∧
        b.calls = a.calls ++ [Call.close c, Call.setId c] ∧
        (∀ j, j ≠ c → b.antChannel j = a.antChannel j) ∧
        b.powerchannels = a.powerchannels) := by
  constructor
  · intro k hl hk hfk hlk
    refine ⟨(a.reset T k).reset T c, ?_, ?_⟩
    · rw [removeDevice_linked T a d t c k (fuel + 1) hc hl hk,
        removeDevice_single T a d _ k fuel hfk hlk]
      rfl
    · simp only [reset_antChannel, reset_calls, reset_powerchannels, Function.update_same,
        List.append_assoc, List.cons_append, List.nil_append, true_and, and_true]
      refine ⟨?_, ?_, ?_⟩
      · rw [Function.update_noteq hk, Function.update_same]
      · rw [Function.update_noteq hk, Function.update_same]
      · intro j hjc hjk
        rw [Function.update_noteq hjc, Function.update_noteq hjk]
  · intro hl
    refine ⟨a.reset T c, removeDevice_single T a d t c fuel hc hl, ?_⟩
    simp only [reset_antChannel, reset_calls, reset_powerchannels, Function.update_same,
      true_and, and_true]
    intro j hjc
    rw [Function.update_noteq hjc]

/-- Witness of the amended C10 on `companionPool`: `removeDevice(5, POWER)` resets
channel 0 and its companion, channel 1. -/
theorem removeDevice_companion_witness :
    ∃ b, removeDevice sampleTypes (0 + 2) companionPool 5 sampleTypes.CHANNEL_TYPE_POWER
          = some (b, 1) ∧
        (b.antChannel 0).channel_type = sampleTypes.CHANNEL_TYPE_UNUSED ∧
        (b.antChannel 0).device_number = 0 ∧
        (b.antChannel 1).channel_type = sampleTypes.CHANNEL_TYPE_UNUSED ∧
        (b.antChannel 1).device_number = 0 ∧
        b.calls = companionPool.calls ++
          [Call.close 1, Call.setId 1, Call.close 0, Call.setId 0] ∧
        (∀ j, j ≠ 0 → j ≠ 1 → b.antChannel j = companionPool.antChannel j) ∧
        b.powerchannels = companionPool.powerchannels :=
  (removeDevice_companion sampleTypes companionPool 5 sampleTypes.CHANNEL_TYPE_POWER 0 0
    (by decide)).1 1 rfl (by decide) (by decide) (Or.inr rfl)

/-! ## Channel pool: results of `removeDevice` and `findDevice` -/

theorem findDevice_eq_none {N : Nat} (a : Pool N) (d t : Int) :
    findDevice a d t = none ↔
      ∀ i, ¬ ((a.antChannel i).channel_type = t ∧ (a.antChannel i).device_number = d) := by
  unfold findDevice
  exact Fin.find_eq_none_iff

theorem findDevice_eq_some {N : Nat} (a : Pool N) (d t : Int) (c : Fin N) :
    findDevice a d t = some c ↔
      ((a.antChannel c).channel_type = t ∧ (a.antChannel c).device_number = d) ∧
        ∀ j, (a.antChannel j).channel_type = t ∧ (a.antChannel j).device_number = d → c ≤ j := by
  unfold findDevice
  exact Fin.find_eq_some_iff

/-- A call of `removeDevice` that finds no channel returns 0 and leaves the pool. -/
theorem removeDevice_absent {N : Nat} (T : ChannelConsts) (a : Pool N) (d t : Int) (fuel : Nat)
    (h : findDevice a d t = none) : removeDevice T (fuel + 1) a d t = some (a, 0) := by
  simp [removeDevice, h]

/-- The two ways in which `removeDevice` returns: no channel matches, 0 is returned
and the pool is as before; or channel `c` matches and the last thing done is
the reset of `c`, with 1 returned. -/
theorem removeDevice_cases {N : Nat} (T : ChannelConsts) (a : Pool N) (d t : Int) (fuel : Nat)
    (r : Pool N × Int) (h : removeDevice T fuel a d t = some r) :
    (findDevice a d t = none ∧ r = (a, 0)) ∨
      ∃ (c : Fin N) (a1 : Pool N), findDevice a d t = some c ∧ r = (a1.reset T c, 1) := by
  cases fuel with
  | zero => simp [removeDevice] at h
  | succ n =>
    cases hf : findDevice a d t with
    | none =>
      rw [removeDevice_absent T a d t n hf] at h
      exact Or.inl ⟨rfl, (Option.some.inj h).symm⟩
    | some c =>
      refine Or.inr ⟨c, ?_⟩
      simp only [removeDevice, hf, Option.map_eq_some'] at h
      obtain ⟨a1, _, h2⟩ := h
      exact ⟨a1, rfl, h2.symm⟩

/-- C11. `removeDevice(d, t)` returns 0 if and only if no channel has channel type
exactly `t` and device number exactly `d`, and then the pool is unchanged: with
no matching channel the call returns 0, and whenever the call returns, it
returns 0 only in that case.  When it returns 1, the lowest-index matching
channel has been closed and has channel type unused and device number 0; the
call does return 1 when that channel has no control channel or is its own. -/
theorem removeDevice_result {N : Nat} (T : ChannelConsts) (a : Pool N) (d t : Int) :
    ((∀ i, ¬ ((a.antChannel i).channel_type = t ∧ (a.antChannel i).device_number = d)) →
      ∀ fuel, removeDevice T (fuel + 1) a d t = some (a, 0)) ∧
    (∀ fuel r, removeDevice T fuel a d t = some r →
      (r.2 = 0 ↔
        ∀ i, ¬ ((a.antChannel i).channel_type = t ∧ (a.antChannel i).device_number = d)) ∧
      (r.2 = 0 → r.1 = a) ∧
      (r.2 ≠ 0 → r.2 = 1 ∧ ∃ c, findDevice a d t = some c ∧
        (r.1.antChannel c).channel_type = T.CHANNEL_TYPE_UNUSED ∧
        (r.1.antChannel c).device_number = 0 ∧ Call.close c ∈ r.1.calls)) ∧
    (∀ c, findDevice a d t = some c →
      ((a.antChannel c).control_channel = none ∨ (a.antChannel c).control_channel = some c) →
      ∀ fuel, removeDevice T (fuel + 1) a d t = some (a.reset T c, 1)) := by
  refine ⟨fun h fuel => removeDevice_absent T a d t fuel ((findDevice_eq_none a d t).mpr h),
    fun fuel r h => ?_, fun c hc hl fuel => removeDevice_single T a d t c fuel hc hl⟩
  rcases removeDevice_cases T a d t fuel r h with ⟨hf, hr⟩ | ⟨c, a1, hf, hr⟩
  · subst hr
    exact ⟨⟨fun _ => (findDevice_eq_none a d t).mp hf, fun _ => rfl⟩, fun _ => rfl,
      fun h => absurd rfl h⟩
  · subst hr
    refine ⟨⟨fun h => absurd h (by simp), fun h => ?_⟩, fun h => absurd h (by simp),
      fun _ => ⟨rfl, c, hf, ?_, ?_, ?_⟩⟩
    · exact absurd ((findDevice_eq_some a d t c).mp hf).1 (h c)
    · simp [reset_antChannel]
    · simp [reset_antChannel]
    · simp [reset_calls]

/-- C12, as stated, fails: after two calls `addDevice(0, POWER, -1)` on the initial
pool of four channels, channels 0 and 1 both have type POWER and device
number 0; `findDevice(0, POWER)` returns channel 0, and there is no unique
channel with that type and number. -/
theorem findDevice_unique_counterexample :
    findDevice (addDevice sampleTypes (addDevice sampleTypes (Pool.init sampleTypes 4) 0
        sampleTypes.CHANNEL_TYPE_POWER none).1 0 sampleTypes.CHANNEL_TYPE_POWER none).1
      0 sampleTypes.CHANNEL_TYPE_POWER = some 0 ∧
    boundTo (addDevice sampleTypes (addDevice sampleTypes (Pool.init sampleTypes 4) 0
        sampleTypes.CHANNEL_TYPE_POWER none).1 0 sampleTypes.CHANNEL_TYPE_POWER none).1
      0 sampleTypes.CHANNEL_TYPE_POWER = {0, 1} := by
  decide

/-- C12, amended. For every pool state, `findDevice(d, t)` returns none if and only if
no channel has channel type exactly `t` and device number exactly `d`;
otherwise it returns the lowest-index channel whose type and number equal
`(t, d)`, which is the only such channel when a single channel matches.  The
function only reads the pool: its result is an index and no pool is produced. -/
theorem findDevice_lowest {N : Nat} (a : Pool N) (d t : Int) :
    (findDevice a d t = none ↔
      ∀ i, ¬ ((a.antChannel i).channel_type = t ∧ (a.antChannel i).device_number = d)) ∧
    (∀ c, findDevice a d t = some c ↔
      ((a.antChannel c).channel_type = t ∧ (a.antChannel c).device_number = d) ∧
        ∀ j, (a.antChannel j).channel_type = t ∧ (a.antChannel j).device_number = d → c ≤ j) ∧
    (∀ c, (a.antChannel c).channel_type = t ∧ (a.antChannel c).device_number = d →
      (∀ j, (a.antChannel j).channel_type = t ∧ (a.antChannel j).device_number = d → j = c) →
      findDevice a d t = some c) := by
  refine ⟨findDevice_eq_none a d t, findDevice_eq_some a d t, fun c hc hu => ?_⟩
  exact (findDevice_eq_some a d t c).mpr ⟨hc, fun j hj => le_of_eq (hu j hj).symm⟩
/-! ## Channel pool: uniqueness of a pairing -/

/-- The three outcomes of `addDevice` without an explicit channel: satisfied by a
channel that is there, no unused channel, or the first unused channel `i`
opened for the identity requested, every other channel being kept. -/
theorem addDevice_none_cases {N : Nat} (T : ChannelConsts) (a : Pool N) (d t : Int) :
    addDevice T a d t none = (a, 1) ∨ addDevice T a d t none = (a, 0) ∨
      ∃ (i : Fin N) (b : Pool N), findUnused T a = some i ∧
        (d = 0 ∨ findBound a d t = none) ∧ addDevice T a d t none = (b, 1) ∧
        (∀ j, j ≠ i → b.antChannel j = a.antChannel j) ∧
        (b.antChannel i).channel_type = t ∧ (b.antChannel i).device_number = d ∧
        (b.antChannel i).control_channel = (a.antChannel i).control_channel := by
  by_cases hdup : d ≠ 0 ∧ ∃ i, mask0xf (a.antChannel i).channel_type = t ∧
      (a.antChannel i).device_number = d
  · exact Or.inl (addDevice_dedup T a d t hdup.1 hdup.2)
  · have hdup2 : d = 0 ∨ findBound a d t = none := by
      by_cases hd : d = 0
      · exact Or.inl hd
      · exact Or.inr ((findBound_eq_none a d t).mpr fun i hi => hdup ⟨hd, i, hi⟩)
    cases hU : findUnused T a with
    | none => exact Or.inr (Or.inl (addDevice_full T a d t hdup2 hU))
    | some i =>
      refine Or.inr (Or.inr ⟨i, _, rfl, hdup2, addDevice_alloc T a d t i hdup2 hU, ?_, ?_, ?_, ?_⟩)
      · intro j hj
        simp only
        rw [Function.update_noteq hj]
      · simp only [Function.update_same]
      · simp only [Function.update_same]
      · simp only [Function.update_same]

theorem allocInv_addDevice {N : Nat} (T : ChannelConsts) (a : Pool N) (d t : Int)
    (h : AllocInv a) (ht : d ≠ 0 → mask0xf t = t) : AllocInv (addDevice T a d t none).1 := by
  rcases addDevice_none_cases T a d t with e | e | ⟨i, b, _, hdup, e, hoth, hty, hnum, hctl⟩
  · rw [e]; exact h
  · rw [e]; exact h
  · rw [e]
    obtain ⟨h1, h2, h3⟩ := h
    have hnew : ∀ j, j ≠ i → (a.antChannel j).device_number ≠ 0 →
        ¬ ((a.antChannel j).channel_type = t ∧ (a.antChannel j).device_number = d) := by
      intro j _ hj0 ⟨hjt, hjd⟩
      have hd : d ≠ 0 := fun h0 => hj0 (hjd.trans h0)
      rcases hdup with h0 | hnone
      · exact hd h0
      · exact (findBound_eq_none a d t).mp hnone j ⟨by rw [h2 j hj0]; exact hjt, hjd⟩
    refine ⟨?_, ?_, ?_⟩
    · intro j
      by_cases hj : j = i
      · subst hj; simp only; rw [hctl]; exact h1 j
      · simp only; rw [hoth j hj]; exact h1 j
    · intro j hj0
      by_cases hj : j = i
      · subst hj
        simp only at hj0 ⊢
        rw [hty]
        rw [hnum] at hj0
        exact ht hj0
      · simp only at hj0 ⊢
        rw [hoth j hj] at hj0 ⊢
        exact h2 j hj0
    · intro j1 j2 hj0 hty12 hnum12
      simp only at hj0 hty12 hnum12
      by_cases e1 : j1 = i <;> by_cases e2 : j2 = i
      · rw [e1, e2]
      · exfalso
        rw [e1] at hj0 hty12 hnum12
        rw [hoth j2 e2, hty] at hty12
        rw [hoth j2 e2, hnum] at hnum12
        rw [hnum] at hj0
        exact hnew j2 e2 (by rw [← hnum12]; exact hj0) ⟨hty12.symm, hnum12.symm⟩
      · exfalso
        rw [e2] at hty12 hnum12
        rw [hoth j1 e1] at hj0 hty12 hnum12
        rw [hty] at hty12
        rw [hnum] at hnum12
        exact hnew j1 e1 hj0 ⟨hty12, hnum12⟩
      · rw [hoth j1 e1] at hj0 hty12 hnum12
        rw [hoth j2 e2] at hty12 hnum12
        exact h3 j1 j2 hj0 hty12 hnum12

theorem allocInv_reset {N : Nat} (T : ChannelConsts) (a : Pool N) (c : Fin N)
    (h : AllocInv a) : AllocInv (a.reset T c) := by
  obtain ⟨h1, h2, h3⟩ := h
  refine ⟨?_, ?_, ?_⟩
  · intro j
    rw [reset_antChannel]
    by_cases hj : j = c
    · subst hj; simp only [Function.update_same]; exact h1 j
    · rw [Function.update_noteq hj]; exact h1 j
  · intro j hj0
    rw [reset_antChannel] at hj0 ⊢
    by_cases hj : j = c
    · subst hj; simp only [Function.update_same] at hj0; exact absurd rfl hj0
    · rw [Function.update_noteq hj] at hj0 ⊢; exact h2 j hj0
  · intro j1 j2 hj0 hty hnum
    rw [reset_antChannel] at hj0 hty hnum
    by_cases e1 : j1 = c
    · subst e1; simp only [Function.update_same] at hj0; exact absurd rfl hj0
    · rw [Function.update_noteq e1] at hj0 hty hnum
      by_cases e2 : j2 = c
      · subst e2
        simp only [Function.update_same] at hnum
        exact absurd hnum hj0
      · rw [Function.update_noteq e2] at hty hnum
        exact h3 j1 j2 hj0 hty hnum

theorem allocInv_removeDevice {N : Nat} (T : ChannelConsts) (a : Pool N) (d t : Int)
    (fuel : Nat) (h : AllocInv a) :
    ∃ r, removeDevice T (fuel + 1) a d t = some r ∧ AllocInv r.1 := by
  cases hf : findDevice a d t with
  | none => exact ⟨(a, 0), removeDevice_absent T a d t fuel hf, h⟩
  | some c =>
    exact ⟨(a.reset T c, 1), removeDevice_single T a d t c fuel hf (Or.inl (h.1 c)),
      allocInv_reset T a c h⟩

theorem allocInv_runRequests {N : Nat} (T : ChannelConsts) (fuel : Nat)
    (reqs : List (Request N)) : ∀ a : Pool N, AllocInv a → (∀ r ∈ reqs, r.Allocating) →
    ∃ b, runRequests T (fuel + 1) a reqs = some b ∧ AllocInv b := by
  induction reqs with
  | nil => intro a h _; exact ⟨a, rfl, h⟩
  | cons r rest ih =>
    intro a h hall
    have hr := hall r (List.mem_cons_self _ _)
    have hrest : ∀ x ∈ rest, x.Allocating := fun x hx => hall x (List.mem_cons_of_mem _ hx)
    cases r with
    | add d t c =>
      obtain ⟨hc, ht⟩ := hr
      subst hc
      simp only [runRequests]
      exact ih _ (allocInv_addDevice T a d t h ht) hrest
    | remove d t =>
      obtain ⟨r1, e1, i1⟩ := allocInv_removeDevice T a d t fuel h
      simp only [runRequests, e1]
      exact ih _ i1 hrest

theorem allocInv_init (T : ChannelConsts) (N : Nat) : AllocInv (Pool.init T N) := by
  refine ⟨fun _ => rfl, fun i h => absurd rfl h, fun i j h _ _ => absurd rfl h⟩

/-- C13, as stated, fails in two ways on the initial pool of four channels.  With
explicit channel indices, `addDevice(5, POWER, 0)` and `addDevice(5, POWER, 1)`
leave channels 0 and 1 both bound to (POWER, 5): the explicit branch opens the
channel without the scan for an existing pairing.  And `addDevice(12, -1, -1)`
called twice, with the type -1 that `interpretSuffix` returns for an unknown
suffix, leaves channels 0 and 1 both bound to (-1, 12). -/
theorem pairing_unique_counterexample :
    (runRequests sampleTypes 1 (Pool.init sampleTypes 4)
        [Request.add 5 sampleTypes.CHANNEL_TYPE_POWER (some 0),
         Request.add 5 sampleTypes.CHANNEL_TYPE_POWER (some 1)]).map
      (fun b => (boundTo b 5 sampleTypes.CHANNEL_TYPE_POWER, decide (PairingUnique b)))
      = some ({0, 1}, false) ∧
    (runRequests sampleTypes 1 (Pool.init sampleTypes 4)
        [Request.add 12 (-1) none, Request.add 12 (-1) none]).map
      (fun b => (boundTo b 12 (-1), decide (PairingUnique b)))
      = some ({0, 1}, false) := by
  decide

/-- C13, amended. In every pool state reached from the initial all-unused pool by any
sequence of `addDevice` calls without an explicit channel index and with a
device type `t` such that `(t & 0xf) == t` (for a non-zero device number), and
of `removeDevice` calls, every call returns and no two distinct channels are
bound to the same (device type, device number) pair with a non-zero device
number. -/
theorem pairing_unique_allocating {N : Nat} (T : ChannelConsts) (fuel : Nat)
    (reqs : List (Request N)) (h : ∀ r ∈ reqs, r.Allocating) :
    ∃ b, runRequests T (fuel + 1) (Pool.init T N) reqs = some b ∧ PairingUnique b := by
  obtain ⟨b, hb, hinv⟩ := allocInv_runRequests T fuel reqs _ (allocInv_init T N) h
  exact ⟨b, hb, hinv.2.2⟩

/-- Witness of the amended C13: two requests for power device 5, one for heart-rate
device 5, and the removal of the power device, on four channels. -/
theorem pairing_unique_allocating_witness :
    ∃ b, runRequests sampleTypes (0 + 1) (Pool.init sampleTypes 4)
        [Request.add 5 sampleTypes.CHANNEL_TYPE_POWER none,
         Request.add 5 sampleTypes.CHANNEL_TYPE_POWER none,
         Request.add 5 sampleTypes.CHANNEL_TYPE_HR none,
         Request.remove 5 sampleTypes.CHANNEL_TYPE_POWER] = some b ∧ PairingUnique b :=
  pairing_unique_allocating sampleTypes 0 _ (by
    intro r hr
    simp only [List.mem_cons, List.mem_singleton, List.not_mem_nil, or_false] at hr
    rcases hr with h | h | h | h <;> subst h
    · exact ⟨rfl, fun _ => by decide⟩
    · exact ⟨rfl, fun _ => by decide⟩
    · exact ⟨rfl, fun _ => by decide⟩
    · trivial)

/-! ## Channel pool: `startWaitingSearch` -/

theorem testBit_clearBits (x m i : Nat) :
    (clearBits x m).testBit i = (x.testBit i && !m.testBit i) := by
  unfold clearBits
  rw [Nat.testBit_xor, Nat.testBit_and]
  cases x.testBit i <;> cases m.testBit i <;> rfl

theorem clearBits_and (x m : Nat) : clearBits x m &&& m = 0 := by
  apply Nat.eq_of_testBit_eq
  intro i
  rw [Nat.testBit_and, testBit_clearBits, Nat.zero_testBit]
  cases x.testBit i <;> cases m.testBit i <;> rfl

/-- C14. `startWaitingSearch` returns 1 if and only if no channel has the
quick-search flag and at least one channel has the waiting flag.  When it
returns 1, the waiting flag of the lowest-index waiting channel is cleared, every
other flag bit of that channel and every other channel are as before, and one
unassign-channel message for that channel index is sent.  Otherwise it returns
0, the pool is unchanged and nothing is sent; this is so whenever a channel has
the quick-search flag, however many channels are waiting. -/
theorem startWaitingSearch_spec {N : Nat} (T : ChannelConsts) (a : Pool N) :
    ((startWaitingSearch T a).2.1 = 1 ↔
      (∀ i, (a.antChannel i).channel_type_flags &&& T.CHANNEL_TYPE_QUICK_SEARCH = 0) ∧
      ∃ i, (a.antChannel i).channel_type_flags &&& T.CHANNEL_TYPE_WAITING ≠ 0) ∧
    ((startWaitingSearch T a).2.1 = 1 →
      ∃ i : Fin N,
        (a.antChannel i).channel_type_flags &&& T.CHANNEL_TYPE_WAITING ≠ 0 ∧
        (∀ j, (a.antChannel j).channel_type_flags &&& T.CHANNEL_TYPE_WAITING ≠ 0 → i ≤ j) ∧
        (startWaitingSearch T a).2.2 = [Sent.unassignChannel i] ∧
        (startWaitingSearch T a).1 = a.clearWaiting T i ∧
        (a.clearWaiting T i).powerchannels = a.powerchannels ∧
        (a.clearWaiting T i).calls = a.calls ∧
        (((startWaitingSearch T a).1.antChannel i).channel_type_flags
          &&& T.CHANNEL_TYPE_WAITING = 0) ∧
        (∀ n, T.CHANNEL_TYPE_WAITING.testBit n = false →
          ((startWaitingSearch T a).1.antChannel i).channel_type_flags.testBit n
            = (a.antChannel i).channel_type_flags.testBit n) ∧
        (∀ j, j ≠ i → (startWaitingSearch T a).1.antChannel j = a.antChannel j)) ∧
    ((startWaitingSearch T a).2.1 ≠ 1 →
      (startWaitingSearch T a).2.1 = 0 ∧ (startWaitingSearch T a).1 = a ∧
      (startWaitingSearch T a).2.2 = []) ∧
    ((∃ i, (a.antChannel i).channel_type_flags &&& T.CHANNEL_TYPE_QUICK_SEARCH ≠ 0) →
      startWaitingSearch T a = (a, 0, [])) := by
  cases hq : Fin.find fun i =>
      (a.antChannel i).channel_type_flags &&& T.CHANNEL_TYPE_QUICK_SEARCH ≠ 0 with
  | some q =>
    have hqs := Fin.find_spec _ hq
    have e : startWaitingSearch T a = (a, 0, []) := by simp [startWaitingSearch, hq]
    rw [e]
    refine ⟨⟨fun h => absurd h (by simp), fun h => absurd (h.1 q) hqs⟩,
      fun h => absurd h (by simp), fun _ => ⟨rfl, rfl, rfl⟩, fun _ => rfl⟩
  | none =>
    have hnq : ∀ i, (a.antChannel i).channel_type_flags &&& T.CHANNEL_TYPE_QUICK_SEARCH = 0 := by
      intro i
      have := Fin.find_eq_none_iff.mp hq i
      simpa using this
    cases hw : Fin.find fun i =>
        (a.antChannel i).channel_type_flags &&& T.CHANNEL_TYPE_WAITING ≠ 0 with
    | none =>
      have e : startWaitingSearch T a = (a, 0, []) := by simp [startWaitingSearch, hq, hw]
      rw [e]
      refine ⟨⟨fun h => absurd h (by simp), fun h => ?_⟩,
        fun h => absurd h (by simp), fun _ => ⟨rfl, rfl, rfl⟩, fun _ => rfl⟩
      obtain ⟨_, i, hi⟩ := h
      exact absurd hi (Fin.find_eq_none_iff.mp hw i)
    | some w =>
      obtain ⟨hw1, hw2⟩ := Fin.find_eq_some_iff.mp hw
      have e : startWaitingSearch T a = (a.clearWaiting T w, 1, [Sent.unassignChannel w]) := by
        simp [startWaitingSearch, hq, hw]
      rw [e]
      refine ⟨⟨fun _ => ⟨hnq, w, hw1⟩, fun _ => rfl⟩, fun _ => ⟨w, hw1, hw2, rfl, rfl, rfl, rfl, ?_, ?_, ?_⟩,
        fun h => absurd rfl h, fun ⟨i, hi⟩ => absurd (hnq i) hi⟩
      · simp only [Pool.clearWaiting, Function.update_same]
        exact clearBits_and _ _
      · intro n hn
        simp only [Pool.clearWaiting, Function.update_same]
        rw [testBit_clearBits, hn]
        simp
      · intro j hj
        simp only [Pool.clearWaiting]
        rw [Function.update_noteq hj]

/-! ## Sensor type table -/

theorem scanTable_cons_cons {α : Type} (guard : Int) (f : ant_sensor_type_t → Option α)
    (st nxt : ant_sensor_type_t) (rest : List ant_sensor_type_t) :
    scanTable guard f (st :: nxt :: rest) =
      match f st with
      | some r => Scan.found r
      | none => if nxt.type ≠ guard then scanTable guard f (nxt :: rest) else Scan.notFound :=
  rfl

theorem scanTable_head {α : Type} (guard : Int) (f : ant_sensor_type_t → Option α)
    (st : ant_sensor_type_t) (rest : List ant_sensor_type_t) (r : α) (h : f st = some r) :
    scanTable guard f (st :: rest) = Scan.found r := by
  cases rest with
  | nil => simp [scanTable, h]
  | cons nxt rest => rw [scanTable_cons_cons, h]

/-- A scan over a table that ends with a guard entry behind at least one other
entry is left at a guard at the latest: no entry behind the table is read. -/
theorem scanTable_ne_pastEnd {α : Type} (guard : Int) (f : ant_sensor_type_t → Option α)
    (g : ant_sensor_type_t) (hg : g.type = guard) :
    ∀ (rest : List ant_sensor_type_t) (st : ant_sensor_type_t), rest.getLast? = some g →
      scanTable guard f (st :: rest) ≠ Scan.pastEnd := by
  intro rest
  induction rest with
  | nil => intro st h; simp at h
  | cons nxt rest' ih =>
    intro st h
    rw [scanTable_cons_cons]
    cases f st with
    | some r => simp
    | none =>
      simp only
      by_cases hn : nxt.type = guard
      · simp [hn]
      · simp only [ne_eq, hn, not_false_eq_true, if_true]
        cases rest' with
        | nil =>
          simp only [List.getLast?_singleton, Option.some.injEq] at h
          exact absurd (h ▸ hg) hn
        | cons x xs =>
          rw [List.getLast?_cons_cons] at h
          exact ih nxt h

/-- A scan in which no entry before the final guard entry matches ends as not
found. -/
theorem scanTable_notFound {α : Type} (guard : Int) (f : ant_sensor_type_t → Option α)
    (g : ant_sensor_type_t) (hg : g.type = guard) :
    ∀ (rest : List ant_sensor_type_t) (st : ant_sensor_type_t), rest.getLast? = some g →
      (∀ e ∈ (st :: rest).dropLast, f e = none) →
      scanTable guard f (st :: rest) = Scan.notFound := by
  intro rest
  induction rest with
  | nil => intro st h; simp at h
  | cons nxt rest' ih =>
    intro st h hall
    have hst : f st = none := hall st (by simp [List.dropLast])
    rw [scanTable_cons_cons, hst]
    simp only
    by_cases hn : nxt.type = guard
    · simp [hn]
    · simp only [ne_eq, hn, not_false_eq_true, if_true]
      cases rest' with
      | nil =>
        simp only [List.getLast?_singleton, Option.some.injEq] at h
        exact absurd (h ▸ hg) hn
      | cons x xs =>
        rw [List.getLast?_cons_cons] at h
        refine ih nxt h fun e he => hall e ?_
        rw [List.dropLast_cons₂]
        exact List.mem_cons_of_mem _ he

/-- A scan returns the value of the entry at index `i` when no entry before it
matches and none of the entries at the indices 1 to `i` is a guard. -/
theorem scanTable_found {α : Type} (guard : Int) (f : ant_sensor_type_t → Option α) (r : α) :
    ∀ (tbl : List ant_sensor_type_t) (i : Nat) (e : ant_sensor_type_t), tbl[i]? = some e →
      f e = some r → (∀ j x, j < i → tbl[j]? = some x → f x = none) →
      (∀ j x, 1 ≤ j → j ≤ i → tbl[j]? = some x → x.type ≠ guard) →
      scanTable guard f tbl = Scan.found r := by
  intro tbl
  induction tbl with
  | nil => intro i e h; simp at h
  | cons st rest ih =>
    intro i e he hf hpre hgd
    cases i with
    | zero =>
      simp only [List.getElem?_cons_zero, Option.some.injEq] at he
      subst he
      exact scanTable_head guard f _ rest r hf
    | succ n =>
      have hst : f st = none := hpre 0 st (Nat.succ_pos n) (List.getElem?_cons_zero)
      rw [List.getElem?_cons_succ] at he
      cases rest with
      | nil => simp at he
      | cons nxt rest' =>
        have hn : nxt.type ≠ guard :=
          hgd 1 nxt (le_refl 1) (Nat.succ_le_succ (Nat.zero_le n)) (by simp)
        rw [scanTable_cons_cons, hst]
        simp only [ne_eq, hn, not_false_eq_true, if_true]
        refine ih n e he hf (fun j x hj hx => hpre (j + 1) x (Nat.succ_lt_succ hj) ?_)
          (fun j x h1 hj hx => hgd (j + 1) x (Nat.succ_le_succ (Nat.zero_le j))
            (Nat.succ_le_succ hj) ?_)
        · rw [List.getElem?_cons_succ]; exact hx
        · rw [List.getElem?_cons_succ]; exact hx

/-- The table is its first entry followed by a list that ends with the guard
entry. -/
theorem ant_sensor_types_guard (T : ChannelConsts) (S : SensorConsts) :
    ∃ st rest g, ant_sensor_types T S = st :: rest ∧ rest.getLast? = some g ∧
      g.type = T.CHANNEL_TYPE_GUARD := by
  refine ⟨_, _, _, rfl, rfl, rfl⟩

/-- C16, as stated, fails: `deviceTypeCode` and `deviceTypeDescription` compare their
argument with the member `device_id` of an entry, not with the member `type`.
With the channel types numbered 0 to 9 and the ANT+ device type codes, no entry
of the table, the guard included, has the type 120, and yet `deviceTypeCode(120)`
is `'h'` and `deviceTypeDescription(120)` is `"Heartrate"`, because 120 is the
device id of the heart-rate entry. -/
theorem sensor_lookups_counterexample :
    (∀ e ∈ ant_sensor_types sampleTypes sampleSensors, e.type ≠ 120) ∧
    deviceTypeCode sampleTypes sampleSensors 120 = some 'h' ∧
    deviceTypeDescription sampleTypes sampleSensors 120 = some "Heartrate" := by
  refine ⟨by decide, by decide, rfl⟩

/-- C16, amended. The sensor-table lookups are total and return the defined not-found
results: for every character that is not the suffix of an entry before the guard
`interpretSuffix` returns -1, and for every value that is not the `device_id` of
an entry before the guard (the member that these two functions compare with
their argument) `deviceTypeCode` returns `'-'` and `deviceTypeDescription`
returns `"Unknown device type"`; every scan is left at the guard entry at the
latest and reads no entry behind the table. -/
theorem sensor_lookups_total (T : ChannelConsts) (S : SensorConsts) :
    (∀ c, (∀ e ∈ sensorEntries T S, e.suffix ≠ c) → interpretSuffix T S c = some (-1)) ∧
    (∀ v, (∀ e ∈ sensorEntries T S, e.device_id ≠ v) →
      deviceTypeCode T S v = some '-' ∧
      deviceTypeDescription T S v = some "Unknown device type") ∧
    (∀ c, interpretSuffix T S c ≠ none) ∧
    (∀ v, deviceTypeCode T S v ≠ none ∧ deviceTypeDescription T S v ≠ none) := by
  obtain ⟨st, rest, g, htbl, hlast, hg⟩ := ant_sensor_types_guard T S
  have total : ∀ {α : Type} (f : ant_sensor_type_t → Option α) (dflt : α),
      (scanTable T.CHANNEL_TYPE_GUARD f (ant_sensor_types T S)).result dflt ≠ none := by
    intro α f dflt
    have := scanTable_ne_pastEnd T.CHANNEL_TYPE_GUARD f g hg rest st hlast
    rw [htbl]
    cases h : scanTable T.CHANNEL_TYPE_GUARD f (st :: rest) with
    | found a => simp [Scan.result]
    | notFound => simp [Scan.result]
    | pastEnd => exact absurd h this
  have missing : ∀ {α : Type} (f : ant_sensor_type_t → Option α) (dflt : α),
      (∀ e ∈ sensorEntries T S, f e = none) →
      (scanTable T.CHANNEL_TYPE_GUARD f (ant_sensor_types T S)).result dflt = some dflt := by
    intro α f dflt hall
    unfold sensorEntries at hall
    rw [htbl] at hall ⊢
    rw [scanTable_notFound T.CHANNEL_TYPE_GUARD f g hg rest st hlast hall]
    rfl
  refine ⟨fun c hc => ?_, fun v hv => ⟨?_, ?_⟩, fun c => total _ _,
    fun v => ⟨total _ _, total _ _⟩⟩
  · exact missing _ _ fun e he => by simp [hc e he]
  · exact missing _ _ fun e he => by simp [hv e he]
  · exact missing _ _ fun e he => by simp [hv e he]
/-- An entry before the guard sits at an index below 9, at the same index of the
whole table. -/
theorem sensorEntries_getElem (T : ChannelConsts) (S : SensorConsts) (i : Nat)
    (e : ant_sensor_type_t) (h : (sensorEntries T S)[i]? = some e) :
    i < 9 ∧ (ant_sensor_types T S)[i]? = some e := by
  have hl : i < 9 := by
    have := (List.getElem?_eq_some.mp h).1
    simpa [sensorEntries, ant_sensor_types] using this
  refine ⟨hl, ?_⟩
  interval_cases i <;> simpa [sensorEntries, ant_sensor_types] using h

/-- The suffixes of the entries before the guard are pairwise different. -/
theorem sensorEntries_suffix_inj (T : ChannelConsts) (S : SensorConsts) (i j : Nat)
    (e x : ant_sensor_type_t) (hi : (sensorEntries T S)[i]? = some e)
    (hj : (sensorEntries T S)[j]? = some x) (hs : x.suffix = e.suffix) : j = i := by
  have hli := (sensorEntries_getElem T S i e hi).1
  have hlj := (sensorEntries_getElem T S j x hj).1
  interval_cases i <;> interval_cases j <;>
    simp [sensorEntries, ant_sensor_types] at hi hj <;> subst hi <;> subst hj <;>
    first
      | rfl
      | (exfalso; simp at hs)

/-- Under `GuardLast`, the entries at the indices 1 to 8 are not guards. -/
theorem sensorEntries_not_guard (T : ChannelConsts) (S : SensorConsts) (hT : T.GuardLast)
    (j : Nat) (x : ant_sensor_type_t) (h1 : 1 ≤ j) (h9 : j < 9)
    (hj : (ant_sensor_types T S)[j]? = some x) : x.type ≠ T.CHANNEL_TYPE_GUARD := by
  obtain ⟨g1, g2, g3, g4, g5, g6, g7, g8⟩ := hT
  interval_cases j <;> simp [ant_sensor_types] at hj <;> subst hj <;> assumption

/-- C15, as stated, fails: `deviceTypeCode` compares its argument with the member
`device_id` (the protocol device type code), not with the member `type` that
`interpretSuffix` returns.  With the channel types numbered 0 to 9 and the
ANT+ device type codes, the suffix of every entry but the first is taken to its
type and from there to `'-'`: for `'p'`, type 2 is no device id of the table. -/
theorem sensor_round_trip_counterexample :
    (sensorEntries sampleTypes sampleSensors).map
      (fun e => (e.suffix, interpretSuffix sampleTypes sampleSensors e.suffix,
        (interpretSuffix sampleTypes sampleSensors e.suffix).bind
          (deviceTypeCode sampleTypes sampleSensors)))
      = [('?', some 0, some '?'), ('h', some 1, some '-'), ('p', some 2, some '-'),
         ('s', some 3, some '-'), ('c', some 4, some '-'), ('d', some 5, some '-'),
         ('Q', some 6, some '-'), ('q', some 7, some '-'), ('n', some 8, some '-')] := by
  decide

/-- C15, amended. For every entry of the sensor type table except the guard
(none of the types listed being the guard value), `interpretSuffix` takes the
suffix of the entry to the type of the entry, and `deviceTypeCode` and
`deviceTypeDescription`, which look an entry up by its `device_id`, take the
device id of the entry back to its suffix and to its name whenever no earlier
entry has the same device id. -/
theorem sensor_round_trip (T : ChannelConsts) (S : SensorConsts) (hT : T.GuardLast) (i : Nat)
    (e : ant_sensor_type_t) (he : (sensorEntries T S)[i]? = some e) :
    interpretSuffix T S e.suffix = some e.type ∧
    ((∀ j x, j < i → (sensorEntries T S)[j]? = some x → x.device_id ≠ e.device_id) →
      deviceTypeCode T S e.device_id = some e.suffix ∧
      deviceTypeDescription T S e.device_id = some e.descriptive_name) := by
  obtain ⟨hi9, hti⟩ := sensorEntries_getElem T S i e he
  have hguard : ∀ j x, 1 ≤ j → j ≤ i → (ant_sensor_types T S)[j]? = some x →
      x.type ≠ T.CHANNEL_TYPE_GUARD :=
    fun j x h1 hj hx => sensorEntries_not_guard T S hT j x h1 (by omega) hx
  have hback : ∀ j x, j < i → (ant_sensor_types T S)[j]? = some x →
      (sensorEntries T S)[j]? = some x := by
    intro j x hj hx
    have hj9 : j < 9 := by omega
    interval_cases j <;> simpa [sensorEntries, ant_sensor_types] using hx
  refine ⟨?_, fun hid => ⟨?_, ?_⟩⟩
  · unfold interpretSuffix
    rw [scanTable_found T.CHANNEL_TYPE_GUARD _ e.type (ant_sensor_types T S) i e hti (by simp)
      (fun j x hj hx => ?_) hguard]
    · rfl
    · have hne : x.suffix ≠ e.suffix := fun hs =>
        absurd (sensorEntries_suffix_inj T S i j e x he (hback j x hj hx) hs) (by omega)
      simp [hne]
  · unfold deviceTypeCode
    rw [scanTable_found T.CHANNEL_TYPE_GUARD _ e.suffix (ant_sensor_types T S) i e hti (by simp)
      (fun j x hj hx => ?_) hguard]
    · rfl
    · simp [hid j x hj (hback j x hj hx)]
  · unfold deviceTypeDescription
    rw [scanTable_found T.CHANNEL_TYPE_GUARD _ e.descriptive_name (ant_sensor_types T S) i e hti
      (by simp) (fun j x hj hx => ?_) hguard]
    · rfl
    · simp [hid j x hj (hback j x hj hx)]

/-- Witness of the amended C15: the power entry, at index 2. -/
theorem sensor_round_trip_witness :
    interpretSuffix sampleTypes sampleSensors 'p' = some sampleTypes.CHANNEL_TYPE_POWER ∧
    ((∀ j x, j < 2 → (sensorEntries sampleTypes sampleSensors)[j]? = some x →
        x.device_id ≠ sampleSensors.ANT_SPORT_POWER_TYPE) →
      deviceTypeCode sampleTypes sampleSensors sampleSensors.ANT_SPORT_POWER_TYPE = some 'p' ∧
      deviceTypeDescription sampleTypes sampleSensors sampleSensors.ANT_SPORT_POWER_TYPE
        = some "Power") :=
  sensor_round_trip sampleTypes sampleSensors (by decide) 2
    { type := sampleTypes.CHANNEL_TYPE_POWER, period := sampleSensors.ANT_SPORT_POWER_PERIOD,
      device_id := sampleSensors.ANT_SPORT_POWER_TYPE,
      frequency := sampleSensors.ANT_SPORT_FREQUENCY,
      network := sampleSensors.ANT_SPORT_NETWORK_NUMBER, descriptive_name := "Power",
      suffix := 'p' } rfl

/-! ## Message dispatch -/

/-- C17. Dispatch of a validated frame: the message is handed to a channel, and then
to exactly the one whose index is the low 3 bits of the first data byte, if and
only if that index is below 4 and the message id is acknowledged, broadcast or
burst data, channel-status or channel-id, or is channel-event with a sub-code
other than transfer-failure.  For every other message (index 4 to 7, a
channel-event with the transfer-failure sub-code, version, capabilities,
serial-number or any other id) no channel receives anything.  The function
assigns no member of the driver: besides the receiver, its only output is the
record of the buffer written to the debug capture, the same for every message. -/
theorem processMessage_route (k : Consts) (M : MessageConsts) (rxMessage : RxBuffer) :
    (∀ c, (processMessage k M rxMessage).receiver = some c ↔
      c = rxMessage k.ANT_OFFSET_DATA &&& 0x7 ∧ c < 4 ∧
      (rxMessage k.ANT_OFFSET_ID = M.ANT_ACK_DATA ∨
        rxMessage k.ANT_OFFSET_ID = M.ANT_BROADCAST_DATA ∨
        rxMessage k.ANT_OFFSET_ID = M.ANT_CHANNEL_STATUS ∨
        rxMessage k.ANT_OFFSET_ID = M.ANT_CHANNEL_ID ∨
        rxMessage k.ANT_OFFSET_ID = M.ANT_BURST_DATA ∨
        (rxMessage k.ANT_OFFSET_ID = M.ANT_CHANNEL_EVENT ∧
          rxMessage k.ANT_OFFSET_MESSAGE_CODE ≠ M.EVENT_TRANSFER_TX_FAILED))) ∧
    rxMessage k.ANT_OFFSET_DATA &&& 0x7 = rxMessage k.ANT_OFFSET_DATA % 8 ∧
    (processMessage k M rxMessage).antlog
      = (List.range M.ANT_MAX_MESSAGE_SIZE).map rxMessage := by
  refine ⟨fun c => ?_, Nat.and_pow_two_sub_one_eq_mod _ 3, ?_⟩
  · unfold processMessage handleChannelEvent
    simp only
    split_ifs with h1 h2 h3 h4 h5 <;> simp_all <;> omega
  · unfold processMessage
    simp only
    split_ifs <;> rfl
/-! ## Control status -/

theorem testBit_ANT_RUNNING (i : Nat) : ANT_RUNNING.testBit i = decide (i = 0) := by
  have := @Nat.testBit_two_pow 0 i
  simpa [ANT_RUNNING, eq_comm] using this

theorem testBit_ANT_PAUSED (i : Nat) : ANT_PAUSED.testBit i = decide (i = 1) := by
  have := @Nat.testBit_two_pow 1 i
  simpa [ANT_PAUSED, eq_comm] using this

/-- A flag test `status & mask` with the one-bit mask `2 ^ k` is not 0 exactly when
bit `k` is set. -/
theorem and_two_pow_ne_zero (s k : Nat) : s &&& 2 ^ k ≠ 0 ↔ s.testBit k = true := by
  constructor
  · intro h
    by_contra hb
    apply h
    apply Nat.eq_of_testBit_eq
    intro i
    rw [Nat.testBit_and, Nat.testBit_two_pow, Nat.zero_testBit]
    by_cases hi : k = i
    · subst hi
      rw [Bool.not_eq_true] at hb
      rw [hb, Bool.false_and]
    · rw [decide_eq_false hi, Bool.and_false]
  · intro hb h
    have h0 : (s &&& 2 ^ k).testBit k = false := by rw [h]; exact Nat.zero_testBit k
    rw [Nat.testBit_and, hb, Nat.testBit_two_pow, decide_eq_true rfl] at h0
    exact absurd h0 (by decide)

theorem and_RUNNING_ne_zero (s : Nat) : s &&& ANT_RUNNING ≠ 0 ↔ s.testBit 0 = true :=
  and_two_pow_ne_zero s 0

theorem and_PAUSED_ne_zero (s : Nat) : s &&& ANT_PAUSED ≠ 0 ↔ s.testBit 1 = true :=
  and_two_pow_ne_zero s 1

/-- Setting the paused flag and clearing it again gives back a status in which it
was not set. -/
theorem clearBits_or_PAUSED (s : Nat) (h : ¬ (s &&& ANT_PAUSED ≠ 0)) :
    clearBits (s ||| ANT_PAUSED) ANT_PAUSED = s := by
  have hb : ¬ s.testBit 1 = true := fun hb => h ((and_PAUSED_ne_zero s).mpr hb)
  apply Nat.eq_of_testBit_eq
  intro i
  rw [testBit_clearBits, Nat.testBit_or, testBit_ANT_PAUSED]
  by_cases hi : i = 1
  · subst hi; simp [hb]
  · simp [hi]

/-- C20. `pause()` and `restart()` change only the paused flag and only while running.
On a status with the running flag and without the paused flag, `pause()` sets the
paused flag, keeps every other bit and returns 0; on a status with the paused
flag it returns 2 and on a status with neither flag it returns 4, both without
changing the status.  On a status with both flags `restart()` clears the paused
flag, keeps every other bit and returns 0; on any other status it returns 2
without changing it.  Hence `restart()` after a successful `pause()` gives back
the status before the pause.  On the three statuses not running (0), running
(1) and running and paused (3) this reads as in the last line. -/
theorem pause_restart_spec (s : Nat) :
    (s &&& ANT_RUNNING ≠ 0 → ¬ (s &&& ANT_PAUSED ≠ 0) →
      pause s = (s ||| ANT_PAUSED, 0) ∧ (s ||| ANT_PAUSED) &&& ANT_PAUSED ≠ 0 ∧
      (s ||| ANT_PAUSED) &&& ANT_RUNNING ≠ 0 ∧
      (∀ i, i ≠ 1 → (s ||| ANT_PAUSED).testBit i = s.testBit i) ∧
      restart (pause s).1 = (s, 0)) ∧
    (s &&& ANT_PAUSED ≠ 0 → pause s = (s, 2)) ∧
    (¬ (s &&& ANT_PAUSED ≠ 0) → ¬ (s &&& ANT_RUNNING ≠ 0) → pause s = (s, 4)) ∧
    (s &&& ANT_RUNNING ≠ 0 → s &&& ANT_PAUSED ≠ 0 →
      restart s = (clearBits s ANT_PAUSED, 0) ∧ ¬ (clearBits s ANT_PAUSED &&& ANT_PAUSED ≠ 0) ∧
      clearBits s ANT_PAUSED &&& ANT_RUNNING ≠ 0 ∧
      (∀ i, i ≠ 1 → (clearBits s ANT_PAUSED).testBit i = s.testBit i)) ∧
    (¬ (s &&& ANT_RUNNING ≠ 0 ∧ s &&& ANT_PAUSED ≠ 0) → restart s = (s, 2)) ∧
    (pause 1 = (3, 0) ∧ pause 3 = (3, 2) ∧ pause 0 = (0, 4) ∧
      restart 3 = (1, 0) ∧ restart 1 = (1, 2) ∧ restart 0 = (0, 2)) := by
  refine ⟨fun hr hp => ?_, fun hp => ?_, fun hp hr => ?_, fun hr hp => ?_, fun h => ?_, ?_⟩
  · have hr0 := (and_RUNNING_ne_zero s).mp hr
    have e : pause s = (s ||| ANT_PAUSED, 0) := by
      unfold pause
      dsimp only
      rw [if_neg hp, if_neg (not_not.mpr hr)]
    have hp2 : (s ||| ANT_PAUSED) &&& ANT_PAUSED ≠ 0 :=
      (and_PAUSED_ne_zero _).mpr (by
        rw [Nat.testBit_or, testBit_ANT_PAUSED, decide_eq_true rfl, Bool.or_true])
    have hr2 : (s ||| ANT_PAUSED) &&& ANT_RUNNING ≠ 0 :=
      (and_RUNNING_ne_zero _).mpr (by rw [Nat.testBit_or, hr0, Bool.true_or])
    refine ⟨e, hp2, hr2, fun i hi => ?_, ?_⟩
    · rw [Nat.testBit_or, testBit_ANT_PAUSED, decide_eq_false hi, Bool.or_false]
    · rw [e]
      unfold restart
      dsimp only
      rw [if_pos ⟨hr2, hp2⟩, clearBits_or_PAUSED s hp]
  · unfold pause
    dsimp only
    rw [if_pos hp]
  · unfold pause
    dsimp only
    rw [if_neg hp, if_pos hr]
  · have hr0 := (and_RUNNING_ne_zero s).mp hr
    refine ⟨?_, ?_, ?_, fun i hi => ?_⟩
    · unfold restart
      dsimp only
      rw [if_pos ⟨hr, hp⟩]
    · rw [clearBits_and]; exact fun h => h rfl
    · exact (and_RUNNING_ne_zero _).mpr (by
        rw [testBit_clearBits, hr0, testBit_ANT_PAUSED, decide_eq_false (by decide),
          Bool.not_false, Bool.and_true])
    · rw [testBit_clearBits, testBit_ANT_PAUSED, decide_eq_false hi, Bool.not_false,
        Bool.and_true]
  · unfold restart
    dsimp only
    rw [if_neg h]
  · decide

/-! ## Start-up pairing -/

theorem addDevice_explicit {N : Nat} (T : ChannelConsts) (a : Pool N) (d t : Int) (c : Fin N) :
    addDevice T a d t (some c) =
      ({ antChannel := Function.update a.antChannel c ((a.antChannel c).open_ d t),
         powerchannels := a.powerchannels,
         calls := a.calls ++ [Call.close c, Call.open_ c d t] }, 1) := by
  simp [addDevice, Pool.close, Pool.open_]

/-- The default requests on a pool in which every channel is as initialised: the
four channels are bound in the order power, speed and cadence, cadence, heart
rate with the device number 0, every other channel stays as initialised, and
the calls made are a `close` and an `open` for each of the four channels. -/
theorem startupPairing_default {N : Nat} (T : ChannelConsts) (S : SensorConsts) (h : 4 ≤ N)
    (pc : Int) (cs : List (Call N)) :
    ∃ b : Pool N,
      b = startupPairing T S h []
        { antChannel := fun _ => ANTChannel.init T N, powerchannels := pc, calls := cs } ∧
      (b.antChannel ⟨0, by omega⟩).channel_type = T.CHANNEL_TYPE_POWER ∧
      (b.antChannel ⟨0, by omega⟩).device_number = 0 ∧
      (b.antChannel ⟨1, by omega⟩).channel_type = T.CHANNEL_TYPE_SandC ∧
      (b.antChannel ⟨1, by omega⟩).device_number = 0 ∧
      (b.antChannel ⟨2, by omega⟩).channel_type = T.CHANNEL_TYPE_CADENCE ∧
      (b.antChannel ⟨2, by omega⟩).device_number = 0 ∧
      (b.antChannel ⟨3, by omega⟩).channel_type = T.CHANNEL_TYPE_HR ∧
      (b.antChannel ⟨3, by omega⟩).device_number = 0 ∧
      (∀ j : Fin N, 4 ≤ j.val → b.antChannel j = ANTChannel.init T N) ∧
      b.calls = cs ++
        [Call.close ⟨0, by omega⟩, Call.open_ ⟨0, by omega⟩ 0 T.CHANNEL_TYPE_POWER,
         Call.close ⟨1, by omega⟩, Call.open_ ⟨1, by omega⟩ 0 T.CHANNEL_TYPE_SandC,
         Call.close ⟨2, by omega⟩, Call.open_ ⟨2, by omega⟩ 0 T.CHANNEL_TYPE_CADENCE,
         Call.close ⟨3, by omega⟩, Call.open_ ⟨3, by omega⟩ 0 T.CHANNEL_TYPE_HR] := by
  refine ⟨_, rfl, ?_⟩
  simp only [startupPairing, List.length_nil, ne_eq, not_true_eq_false, if_false, pairDefault,
    addDevice_explicit, List.append_assoc, List.cons_append, List.nil_append,
    Function.update_apply, Fin.mk.injEq, ANTChannel.open_]
  refine ⟨by simp, by simp, by simp, by simp, by simp, by simp, by simp, by simp, ?_, trivial⟩
  intro j hj
  have h0 : j ≠ ⟨0, by omega⟩ := fun e => by rw [e] at hj; simp at hj
  have h1 : j ≠ ⟨1, by omega⟩ := fun e => by rw [e] at hj; simp at hj
  have h2 : j ≠ ⟨2, by omega⟩ := fun e => by rw [e] at hj; simp at hj
  have h3 : j ≠ ⟨3, by omega⟩ := fun e => by rw [e] at hj; simp at hj
  simp [h0, h1, h2, h3]

/-- The loop of `run()` leaves the channels and what has been sent as they are, and
does not end as a failed open. -/
theorem runLoop_pool {N : Nat} (k : Consts) (M : MessageConsts) :
    ∀ (steps : List LoopStep) (d : Driver N),
      (runLoop k M steps d).1.pool = d.pool ∧ (runLoop k M steps d).1.sent = d.sent ∧
        (runLoop k M steps d).2 ≠ RunEnd.openFailed := by
  intro steps
  induction steps with
  | nil => intro d; exact ⟨rfl, rfl, by simp [runLoop]⟩
  | cons st rest ih =>
    intro d
    unfold runLoop
    dsimp only
    split
    · cases st.read <;> exact ⟨rfl, rfl, by simp⟩
    · obtain ⟨i1, i2, i3⟩ := ih
        { (match st.read with
            | some byte =>
              { d with rx := (receiveByte k d.rx byte).1,
                       received := d.received ++ [byte],
                       processed := d.processed ++
                         (receiveByte k d.rx byte).2.toList.map (processMessage k M) }
            | none => d) with
          Status := statusAfter
            (match st.read with
              | some byte =>
                { d with rx := (receiveByte k d.rx byte).1,
                         received := d.received ++ [byte],
                         processed := d.processed ++
                           (receiveByte k d.rx byte).2.toList.map (processMessage k M) }
              | none => d).Status st.control }
      refine ⟨i1.trans ?_, i2.trans ?_, i3⟩
      · cases st.read <;> rfl
      · cases st.read <;> rfl

/-- C18. With an empty configured device list and a port that opens, `run()`, from
any driver state and whatever the loop then reads and is told, sends the reset
and the network key, does not end as a failed open, and its start-up pairing
makes exactly four `open` calls, in this order: channel 0 for power, channel 1
for speed and cadence, channel 2 for cadence and channel 3 for heart rate, each
with the wildcard device number 0 and each after a `close` of that channel; the
four channels are bound accordingly and every other channel stays as
initialised. -/
theorem run_pairDefault {N : Nat} (T : ChannelConsts) (S : SensorConsts) (k : Consts)
    (M : MessageConsts) (h : 4 ≤ N) (steps : List LoopStep) (d : Driver N) :
    ∃ b : Pool N, b = (run T S k M h [] true steps d).1.pool ∧
      (b.antChannel ⟨0, by omega⟩).channel_type = T.CHANNEL_TYPE_POWER ∧
      (b.antChannel ⟨0, by omega⟩).device_number = 0 ∧
      (b.antChannel ⟨1, by omega⟩).channel_type = T.CHANNEL_TYPE_SandC ∧
      (b.antChannel ⟨1, by omega⟩).device_number = 0 ∧
      (b.antChannel ⟨2, by omega⟩).channel_type = T.CHANNEL_TYPE_CADENCE ∧
      (b.antChannel ⟨2, by omega⟩).device_number = 0 ∧
      (b.antChannel ⟨3, by omega⟩).channel_type = T.CHANNEL_TYPE_HR ∧
      (b.antChannel ⟨3, by omega⟩).device_number = 0 ∧
      (∀ j : Fin N, 4 ≤ j.val → b.antChannel j = ANTChannel.init T N) ∧
      b.calls = d.pool.calls ++
        [Call.close ⟨0, by omega⟩, Call.open_ ⟨0, by omega⟩ 0 T.CHANNEL_TYPE_POWER,
         Call.close ⟨1, by omega⟩, Call.open_ ⟨1, by omega⟩ 0 T.CHANNEL_TYPE_SandC,
         Call.close ⟨2, by omega⟩, Call.open_ ⟨2, by omega⟩ 0 T.CHANNEL_TYPE_CADENCE,
         Call.close ⟨3, by omega⟩, Call.open_ ⟨3, by omega⟩ 0 T.CHANNEL_TYPE_HR] ∧
      (run T S k M h [] true steps d).1.sent
        = d.sent ++ [Sent.resetSystem, Sent.setNetworkKey 1 key] ∧
      (run T S k M h [] true steps d).2 ≠ RunEnd.openFailed := by
  obtain ⟨b, hb, hrest⟩ := startupPairing_default T S h 0 d.pool.calls
  have hrun : run T S k M h [] true steps d
      = runLoop k M steps
          { Status := ANT_RUNNING, pool := b,
            rx := { state := ST_WAIT_FOR_SYNC, length := 0, bytes := 0,
                    checksum := k.ANT_SYNC_BYTE, rxMessage := d.rx.rxMessage },
            sent := d.sent ++ [Sent.resetSystem, Sent.setNetworkKey 1 key],
            received := d.received, processed := d.processed } := by
    rw [hb]
    simp [run]
  obtain ⟨l1, l2, l3⟩ := runLoop_pool k M steps
    { Status := ANT_RUNNING, pool := b,
      rx := { state := ST_WAIT_FOR_SYNC, length := 0, bytes := 0,
              checksum := k.ANT_SYNC_BYTE, rxMessage := d.rx.rxMessage },
      sent := d.sent ++ [Sent.resetSystem, Sent.setNetworkKey 1 key],
      received := d.received, processed := d.processed }
  rw [hrun]
  refine ⟨b, l1.symm, ?_⟩
  obtain ⟨c1, c2, c3, c4, c5, c6, c7, c8, c9, c10⟩ := hrest
  exact ⟨c1, c2, c3, c4, c5, c6, c7, c8, c9, c10, l2, l3⟩

/-- Witness of C18: the driver as constructed with eight channels, a port that opens,
and a loop that reads a sync byte and is then stopped. -/
theorem run_pairDefault_witness :
    ∃ b : Pool 8,
      b = (run sampleTypes sampleSensors sampleConsts sampleMessages (by decide) [] true
        [{ read := some 0xA4, control := [] }, { read := none, control := [Control.stop] }]
        (Driver.init sampleTypes sampleConsts 8 (fun _ => 0))).1.pool ∧
      (b.antChannel ⟨0, by omega⟩).channel_type = sampleTypes.CHANNEL_TYPE_POWER ∧
      (b.antChannel ⟨0, by omega⟩).device_number = 0 ∧
      (b.antChannel ⟨1, by omega⟩).channel_type = sampleTypes.CHANNEL_TYPE_SandC ∧
      (b.antChannel ⟨1, by omega⟩).device_number = 0 ∧
      (b.antChannel ⟨2, by omega⟩).channel_type = sampleTypes.CHANNEL_TYPE_CADENCE ∧
      (b.antChannel ⟨2, by omega⟩).device_number = 0 ∧
      (b.antChannel ⟨3, by omega⟩).channel_type = sampleTypes.CHANNEL_TYPE_HR ∧
      (b.antChannel ⟨3, by omega⟩).device_number = 0 ∧
      (∀ j : Fin 8, 4 ≤ j.val → b.antChannel j = ANTChannel.init sampleTypes 8) ∧
      b.calls = (Driver.init sampleTypes sampleConsts 8 (fun _ => 0)).pool.calls ++
        [Call.close ⟨0, by omega⟩, Call.open_ ⟨0, by omega⟩ 0 sampleTypes.CHANNEL_TYPE_POWER,
         Call.close ⟨1, by omega⟩, Call.open_ ⟨1, by omega⟩ 0 sampleTypes.CHANNEL_TYPE_SandC,
         Call.close ⟨2, by omega⟩, Call.open_ ⟨2, by omega⟩ 0 sampleTypes.CHANNEL_TYPE_CADENCE,
         Call.close ⟨3, by omega⟩, Call.open_ ⟨3, by omega⟩ 0 sampleTypes.CHANNEL_TYPE_HR] ∧
      (run sampleTypes sampleSensors sampleConsts sampleMessages (by decide) [] true
        [{ read := some 0xA4, control := [] }, { read := none, control := [Control.stop] }]
        (Driver.init sampleTypes sampleConsts 8 (fun _ => 0))).1.sent
        = (Driver.init sampleTypes sampleConsts 8 (fun _ => 0)).sent
            ++ [Sent.resetSystem, Sent.setNetworkKey 1 key] ∧
      (run sampleTypes sampleSensors sampleConsts sampleMessages (by decide) [] true
        [{ read := some 0xA4, control := [] }, { read := none, control := [Control.stop] }]
        (Driver.init sampleTypes sampleConsts 8 (fun _ => 0))).2 ≠ RunEnd.openFailed :=
  run_pairDefault sampleTypes sampleSensors sampleConsts sampleMessages (by decide)
    [{ read := some 0xA4, control := [] }, { read := none, control := [Control.stop] }]
    (Driver.init sampleTypes sampleConsts 8 (fun _ => 0))

/-- C23. Streaming equivalence: for every decoder state and all byte sequences `xs` and
`ys`, the messages dispatched by feeding `xs ++ ys` byte by byte are the messages
dispatched by `xs` followed by those dispatched by `ys` from the state reached
after `xs`, and the final states agree; so a stream split into arbitrary
chunks gives the same frames in the same order, and the same final state, as
the stream fed as one block. -/
theorem feed_streaming (k : Consts) (s : Rx) :
    (∀ xs ys : List Nat,
      (feed k s (xs ++ ys)).2 = (feed k s xs).2 ++ (feed k (feed k s xs).1 ys).2 ∧
      (feed k s (xs ++ ys)).1 = (feed k (feed k s xs).1 ys).1) ∧
    (∀ chunks : List (List Nat), feedChunks k s chunks = feed k s chunks.flatten) := by
  refine ⟨fun xs ys => ?_, fun chunks => ?_⟩
  · rw [feed_append]
    exact ⟨rfl, rfl⟩
  · induction chunks generalizing s with
    | nil => rfl
    | cons c cs ih =>
      rw [List.flatten_cons, feed_append, feedChunks, ih]

/-- From `ST_GET_DATA` with `bytes < length`, the decoder is in `ST_WAIT_FOR_SYNC`
after `length - bytes + 1` further bytes. -/
theorem wait_after_data (k : Consts) (s : Rx) (hs : s.state = ST_GET_DATA)
    (hlt : s.bytes < s.length) (bs : List Nat) (hl : s.length - s.bytes + 1 ≤ bs.length) :
    (feed k s (bs.take (s.length - s.bytes + 1))).1.state = ST_WAIT_FOR_SYNC := by
  have hm : 1 ≤ s.length - s.bytes := by omega
  rw [List.take_add, feed_append]
  have htake : (bs.take (s.length - s.bytes)).length = s.length - s.bytes := by
    rw [List.length_take]; omega
  have hne : bs.take (s.length - s.bytes) ≠ [] := by
    intro h
    rw [h] at htake
    simp only [List.length_nil] at htake
    omega
  have hlen : s.bytes + (bs.take (s.length - s.bytes)).length = s.length := by
    rw [htake]; omega
  obtain ⟨_, hv, _⟩ := feed_data k (bs.take (s.length - s.bytes)) s hs hne hlen
  cases hd : bs.drop (s.length - s.bytes) with
  | nil =>
    have := congrArg List.length hd
    rw [List.length_drop] at this
    simp at this
    omega
  | cons x xs =>
    simp only [List.take_succ_cons, List.take_zero, feed_cons, feed_nil]
    rw [receiveByte_validate k _ x hv]

/-- From `ST_GET_MESSAGE_ID` with a recorded length of at least 1 and no data byte
counted, the decoder is in `ST_WAIT_FOR_SYNC` after `length + 2` further bytes. -/
theorem wait_after_id (k : Consts) (s : Rx) (hs : s.state = ST_GET_MESSAGE_ID)
    (h1 : 1 ≤ s.length) (hb : s.bytes = 0) (bs : List Nat) (hl : s.length + 2 ≤ bs.length) :
    (feed k s (bs.take (s.length + 2))).1.state = ST_WAIT_FOR_SYNC := by
  cases bs with
  | nil => simp at hl
  | cons b rest =>
    simp only [List.length_cons] at hl
    rw [List.take_succ_cons, feed_cons, receiveByte_id k s b hs]
    simp only
    have := wait_after_data k
      { s with rxMessage := Function.update s.rxMessage k.ANT_OFFSET_ID b,
               checksum := s.checksum ^^^ b, state := ST_GET_DATA }
      rfl (by simp only; omega) rest (by simp only; omega)
    have e : s.length - s.bytes + 1 = s.length + 1 := by omega
    simp only [e] at this
    exact this

/-- From `ST_GET_LENGTH` the decoder is in `ST_WAIT_FOR_SYNC` after at least one and
at most `ANT_MAX_LENGTH + 3` further bytes. -/
theorem wait_after_length (k : Consts) (s : Rx) (hs : s.state = ST_GET_LENGTH)
    (bs : List Nat) (hl : k.ANT_MAX_LENGTH + 3 ≤ bs.length) :
    ∃ n, 1 ≤ n ∧ n ≤ k.ANT_MAX_LENGTH + 3 ∧
      (feed k s (bs.take n)).1.state = ST_WAIT_FOR_SYNC := by
  cases bs with
  | nil => simp at hl
  | cons b rest =>
    simp only [List.length_cons] at hl
    by_cases hb : b = 0 ∨ b > k.ANT_MAX_LENGTH
    · refine ⟨1, le_refl 1, by omega, ?_⟩
      simp [feed_cons, feed_nil, receiveByte, hs, hb]
    · refine ⟨b + 2 + 1, by omega, by omega, ?_⟩
      rw [List.take_succ_cons, feed_cons, receiveByte_length k s b hs (by omega) (by omega)]
      exact wait_after_id k _ rfl (by simp only; omega) rfl rest (by simp only; omega)

/-- C27. Bounded resynchronisation: from every decoder state reached from
`ST_WAIT_FOR_SYNC` by any input `pre`, and for every further input `bs`, the decoder
is back in `ST_WAIT_FOR_SYNC` after at least one and at most `ANT_MAX_LENGTH + 4`
of the further bytes, whatever they are. -/
theorem resync_bound (k : Consts) (s0 : Rx) (h0 : s0.state = ST_WAIT_FOR_SYNC)
    (pre bs : List Nat) (hl : k.ANT_MAX_LENGTH + 4 ≤ bs.length) :
    ∃ n, 1 ≤ n ∧ n ≤ k.ANT_MAX_LENGTH + 4 ∧
      (feed k (feed k s0 pre).1 (bs.take n)).1.state = ST_WAIT_FOR_SYNC := by
  obtain ⟨_, hI, hD⟩ := rxInv_feed k s0 h0 pre
  generalize (feed k s0 pre).1 = s at hI hD
  cases hst : s.state with
  | ST_WAIT_FOR_SYNC =>
    cases bs with
    | nil => simp at hl
    | cons b rest =>
      simp only [List.length_cons] at hl
      by_cases hb : b = k.ANT_SYNC_BYTE
      · subst hb
        obtain ⟨n, n1, n2, hn⟩ := wait_after_length k
          { s with state := ST_GET_LENGTH, checksum := k.ANT_SYNC_BYTE } rfl rest (by omega)
        refine ⟨n + 1, by omega, by omega, ?_⟩
        rw [List.take_succ_cons, feed_cons, receiveByte_sync k s hst]
        exact hn
      · refine ⟨1, le_refl 1, by omega, ?_⟩
        simp [feed_cons, feed_nil, receiveByte, hst, hb]
  | ST_GET_LENGTH =>
    obtain ⟨n, n1, n2, hn⟩ := wait_after_length k s hst bs (by omega)
    exact ⟨n, n1, by omega, hn⟩
  | ST_GET_MESSAGE_ID =>
    obtain ⟨p, len, _, h1, h2, h3, h4, _⟩ := hI hst
    exact ⟨s.length + 2, by omega, by omega,
      wait_after_id k s hst (by omega) h4 bs (by omega)⟩
  | ST_GET_DATA =>
    obtain ⟨p, len, id, d, _, h1, h2, h3, h4, h5, _⟩ := hD (Or.inl hst)
    have hlt := h5 hst
    exact ⟨s.length - s.bytes + 1, by omega, by omega,
      wait_after_data k s hst (by omega) bs (by omega)⟩
  | ST_VALIDATE_PACKET =>
    cases bs with
    | nil => simp at hl
    | cons b rest =>
      refine ⟨1, le_refl 1, by omega, ?_⟩
      simp only [List.take_succ_cons, List.take_zero, feed_cons, feed_nil]
      rw [receiveByte_validate k s b hst]

/-- Witness of C27: after the start of a frame of length 9, fourteen bytes of
noise. -/
theorem resync_bound_witness :
    ∃ n, 1 ≤ n ∧ n ≤ sampleConsts.ANT_MAX_LENGTH + 4 ∧
      (feed sampleConsts (feed sampleConsts (Rx.init sampleConsts (fun _ => 0)) [0xA4, 9]).1
        ((List.replicate 14 0x55).take n)).1.state = ST_WAIT_FOR_SYNC :=
  resync_bound sampleConsts (Rx.init sampleConsts (fun _ => 0)) rfl [0xA4, 9]
    (List.replicate 14 0x55) (by decide)

/-- C28. Receive-buffer index safety: in every decoder state reached from
`ST_WAIT_FOR_SYNC` by any byte sequence, whenever the state is `ST_GET_MESSAGE_ID`,
`ST_GET_DATA` or `ST_VALIDATE_PACKET` the recorded length satisfies
`1 ≤ length ≤ ANT_MAX_LENGTH`, and whenever the state is `ST_GET_DATA` the data
counter satisfies `bytes < length`; hence the index `ANT_OFFSET_DATA + bytes` at
which the next data byte is stored lies between `ANT_OFFSET_DATA` and
`ANT_OFFSET_DATA + ANT_MAX_LENGTH - 1`. -/
theorem rx_index_safety (k : Consts) (s0 : Rx) (h0 : s0.state = ST_WAIT_FOR_SYNC)
    (pre : List Nat) :
    ((feed k s0 pre).1.state = ST_GET_MESSAGE_ID ∨ (feed k s0 pre).1.state = ST_GET_DATA ∨
        (feed k s0 pre).1.state = ST_VALIDATE_PACKET →
      1 ≤ (feed k s0 pre).1.length ∧ (feed k s0 pre).1.length ≤ k.ANT_MAX_LENGTH) ∧
    ((feed k s0 pre).1.state = ST_GET_DATA →
      (feed k s0 pre).1.bytes < (feed k s0 pre).1.length ∧
      k.ANT_OFFSET_DATA ≤ k.ANT_OFFSET_DATA + (feed k s0 pre).1.bytes ∧
      k.ANT_OFFSET_DATA + (feed k s0 pre).1.bytes
        ≤ k.ANT_OFFSET_DATA + k.ANT_MAX_LENGTH - 1 ∧
      ∀ b, ∀ j, j ≠ k.ANT_OFFSET_DATA + (feed k s0 pre).1.bytes →
        (receiveByte k (feed k s0 pre).1 b).1.rxMessage j = (feed k s0 pre).1.rxMessage j) := by
  obtain ⟨_, hI, hD⟩ := rxInv_feed k s0 h0 pre
  generalize (feed k s0 pre).1 = s at hI hD
  refine ⟨fun h => ?_, fun h => ?_⟩
  · rcases h with h | h | h
    · obtain ⟨p, len, _, h1, h2, h3, _⟩ := hI h
      omega
    · obtain ⟨p, len, id, d, _, h1, h2, h3, _⟩ := hD (Or.inl h)
      omega
    · obtain ⟨p, len, id, d, _, h1, h2, h3, _⟩ := hD (Or.inr h)
      omega
  · obtain ⟨p, len, id, d, _, h1, h2, h3, h4, h5, _⟩ := hD (Or.inl h)
    have hlt := h5 h
    refine ⟨by omega, by omega, by omega, fun b j hj => ?_⟩
    rw [receiveByte_data k s b h]
    exact Function.update_noteq hj _ _

/-- Witness of C28: the state after the sync byte, the length 2, an id and one data
byte. -/
theorem rx_index_safety_witness :
    (Rx.init sampleConsts (fun _ => 0)).state = ST_WAIT_FOR_SYNC ∧
    (feed sampleConsts (Rx.init sampleConsts (fun _ => 0)) [0xA4, 2, 0x4E, 7]).1.state
      = ST_GET_DATA ∧
    (1 ≤ (feed sampleConsts (Rx.init sampleConsts (fun _ => 0)) [0xA4, 2, 0x4E, 7]).1.length ∧
      (feed sampleConsts (Rx.init sampleConsts (fun _ => 0)) [0xA4, 2, 0x4E, 7]).1.length
        ≤ sampleConsts.ANT_MAX_LENGTH) ∧
    ((feed sampleConsts (Rx.init sampleConsts (fun _ => 0)) [0xA4, 2, 0x4E, 7]).1.bytes
        < (feed sampleConsts (Rx.init sampleConsts (fun _ => 0)) [0xA4, 2, 0x4E, 7]).1.length ∧
      sampleConsts.ANT_OFFSET_DATA ≤ sampleConsts.ANT_OFFSET_DATA
        + (feed sampleConsts (Rx.init sampleConsts (fun _ => 0)) [0xA4, 2, 0x4E, 7]).1.bytes ∧
      sampleConsts.ANT_OFFSET_DATA
        + (feed sampleConsts (Rx.init sampleConsts (fun _ => 0)) [0xA4, 2, 0x4E, 7]).1.bytes
        ≤ sampleConsts.ANT_OFFSET_DATA + sampleConsts.ANT_MAX_LENGTH - 1 ∧
      ∀ b, ∀ j, j ≠ sampleConsts.ANT_OFFSET_DATA
          + (feed sampleConsts (Rx.init sampleConsts (fun _ => 0)) [0xA4, 2, 0x4E, 7]).1.bytes →
        (receiveByte sampleConsts
          (feed sampleConsts (Rx.init sampleConsts (fun _ => 0)) [0xA4, 2, 0x4E, 7]).1 b).1.rxMessage j
          = (feed sampleConsts (Rx.init sampleConsts (fun _ => 0))
              [0xA4, 2, 0x4E, 7]).1.rxMessage j) :=
  ⟨rfl, rfl,
    (rx_index_safety sampleConsts (Rx.init sampleConsts (fun _ => 0)) rfl
      [0xA4, 2, 0x4E, 7]).1 (Or.inr (Or.inl rfl)),
    (rx_index_safety sampleConsts (Rx.init sampleConsts (fun _ => 0)) rfl
      [0xA4, 2, 0x4E, 7]).2 rfl⟩

/-! ## Slots, control status and `run()` -/

/-- C21, the code at the failing input.  The slot `channelInfo` has no bound check: for
the channel index 7, and likewise for -1, it emits `foundDevice` with that index.
The other slots do drop an index outside 0..3 (`lostInfo`, `staleInfo` and
`slotSearchTimeout` by their bound check, `dropInfo` and `searchComplete` because
they emit nothing), and for an index in 0..3 `lostInfo` emits exactly one
`lostDevice` and `slotSearchTimeout` exactly one `searchTimeout` for it. -/
theorem channelInfo_unchecked :
    channelInfo 7 123 11 = [Signal.foundDevice 7 123 11] ∧
    channelInfo (-1) 123 11 = [Signal.foundDevice (-1) 123 11] ∧
    (∀ number : Int, number < 0 ∨ number > 3 →
      dropInfo number = [] ∧ lostInfo number = [] ∧ staleInfo number = [] ∧
      slotSearchTimeout number = [] ∧ searchComplete number = []) ∧
    (∀ number : Int, 0 ≤ number → number ≤ 3 →
      lostInfo number = [Signal.lostDevice number] ∧
      slotSearchTimeout number = [Signal.searchTimeout number] ∧
      dropInfo number = [] ∧ staleInfo number = [] ∧ searchComplete number = []) := by
  refine ⟨rfl, rfl, fun number h => ?_, fun number h0 h3 => ?_⟩
  · simp [dropInfo, lostInfo, staleInfo, slotSearchTimeout, searchComplete, h]
  · have : ¬ (number < 0 ∨ number > 3) := by omega
    simp [dropInfo, lostInfo, staleInfo, slotSearchTimeout, searchComplete, this]

/-- The statuses not running, running, and running and paused are closed under the
four calls. -/
theorem applyControl_closed (s : Nat) (c : Control) (h : s = 0 ∨ s = 1 ∨ s = 3) :
    (applyControl s c).1 = 0 ∨ (applyControl s c).1 = 1 ∨ (applyControl s c).1 = 3 := by
  rcases h with h | h | h <;> subst h <;> cases c <;> decide

theorem statusAfter_closed (cmds : List Control) :
    ∀ s, (s = 0 ∨ s = 1 ∨ s = 3) →
      statusAfter s cmds = 0 ∨ statusAfter s cmds = 1 ∨ statusAfter s cmds = 3 := by
  induction cmds with
  | nil => intro s h; exact h
  | cons c cs ih =>
    intro s h
    exact ih _ (applyControl_closed s c h)

/-- C26. Control-status invariant: from the status 0 that the constructor sets, under
every sequence of run start, `pause()`, `restart()` and `stop()` the status is one
of not running (0), running (`ANT_RUNNING`) and running and paused
(`ANT_RUNNING | ANT_PAUSED`), so the paused flag is never set without the running
flag; `stop()` from any status gives 0 and returns 0; from not running neither
`pause()` nor `restart()` changes the status; and from running or running and
paused, `pause()` and `restart()` lead to one of these two statuses. -/
theorem status_invariant :
    (∀ cmds : List Control,
      (statusAfter 0 cmds = 0 ∨ statusAfter 0 cmds = ANT_RUNNING ∨
        statusAfter 0 cmds = ANT_RUNNING ||| ANT_PAUSED) ∧
      (statusAfter 0 cmds &&& ANT_PAUSED ≠ 0 → statusAfter 0 cmds &&& ANT_RUNNING ≠ 0)) ∧
    (∀ s : Nat, stop s = (0, 0)) ∧
    (pause 0 = (0, 4) ∧ restart 0 = (0, 2)) ∧
    (∀ s : Nat, s = ANT_RUNNING ∨ s = ANT_RUNNING ||| ANT_PAUSED →
      ((pause s).1 = ANT_RUNNING ∨ (pause s).1 = ANT_RUNNING ||| ANT_PAUSED) ∧
      ((restart s).1 = ANT_RUNNING ∨ (restart s).1 = ANT_RUNNING ||| ANT_PAUSED)) := by
  refine ⟨fun cmds => ?_, fun s => rfl, by decide, fun s h => ?_⟩
  · have h := statusAfter_closed cmds 0 (Or.inl rfl)
    refine ⟨h, ?_⟩
    rcases h with h | h | h <;> rw [h] <;> decide
  · rcases h with h | h <;> subst h <;> decide

/-- When `openPort()` fails, `run()` returns with nothing sent, no call made on a
channel, no byte passed to the decoder, and `Status` equal to `ANT_RUNNING`. -/
theorem run_openFailed {N : Nat} (T : ChannelConsts) (S : SensorConsts) (k : Consts)
    (M : MessageConsts) (h : 4 ≤ N) (antIDs : List (List Char)) (steps : List LoopStep)
    (d : Driver N) :
    (run T S k M h antIDs false steps d).2 = RunEnd.openFailed ∧
    (run T S k M h antIDs false steps d).1.sent = d.sent ∧
    (run T S k M h antIDs false steps d).1.pool.calls = d.pool.calls ∧
    (run T S k M h antIDs false steps d).1.received = d.received ∧
    (run T S k M h antIDs false steps d).1.processed = d.processed ∧
    (run T S k M h antIDs false steps d).1.Status = ANT_RUNNING := by
  simp [run]

/-- C22, the code at the failing input.  On the driver as constructed, with the
configuration `"12p,45h"`, a port that does not open and a byte ready to be
read, `run()` returns at once: nothing is sent, no pairing request is made, no
byte reaches the decoder; but `Status`, set to `ANT_RUNNING` before the port is
opened, still has the running flag, and a following `pause()` succeeds. -/
theorem run_openFailed_still_running :
    (run sampleTypes sampleSensors sampleConsts sampleMessages (by decide : 4 ≤ 4)
        (configuredIDs "12p,45h".toList) false [{ read := some 0xA4, control := [] }]
        (Driver.init sampleTypes sampleConsts 4 (fun _ => 0))).2 = RunEnd.openFailed ∧
    (run sampleTypes sampleSensors sampleConsts sampleMessages (by decide : 4 ≤ 4)
        (configuredIDs "12p,45h".toList) false [{ read := some 0xA4, control := [] }]
        (Driver.init sampleTypes sampleConsts 4 (fun _ => 0))).1.sent = [] ∧
    (run sampleTypes sampleSensors sampleConsts sampleMessages (by decide : 4 ≤ 4)
        (configuredIDs "12p,45h".toList) false [{ read := some 0xA4, control := [] }]
        (Driver.init sampleTypes sampleConsts 4 (fun _ => 0))).1.pool.calls = [] ∧
    (run sampleTypes sampleSensors sampleConsts sampleMessages (by decide : 4 ≤ 4)
        (configuredIDs "12p,45h".toList) false [{ read := some 0xA4, control := [] }]
        (Driver.init sampleTypes sampleConsts 4 (fun _ => 0))).1.received = [] ∧
    (run sampleTypes sampleSensors sampleConsts sampleMessages (by decide : 4 ≤ 4)
        (configuredIDs "12p,45h".toList) false [{ read := some 0xA4, control := [] }]
        (Driver.init sampleTypes sampleConsts 4 (fun _ => 0))).1.Status = ANT_RUNNING ∧
    (run sampleTypes sampleSensors sampleConsts sampleMessages (by decide : 4 ≤ 4)
        (configuredIDs "12p,45h".toList) false [{ read := some 0xA4, control := [] }]
        (Driver.init sampleTypes sampleConsts 4 (fun _ => 0))).1.Status &&& ANT_RUNNING ≠ 0 ∧
    pause (run sampleTypes sampleSensors sampleConsts sampleMessages (by decide : 4 ≤ 4)
        (configuredIDs "12p,45h".toList) false [{ read := some 0xA4, control := [] }]
        (Driver.init sampleTypes sampleConsts 4 (fun _ => 0))).1.Status
      = (ANT_RUNNING ||| ANT_PAUSED, 0) := by
  decide

/-! ## Termination of `removeDevice` and routing on stale bytes -/

/-- C29, the code at the failing input.  In `loopPool` the call
`removeDevice(5, POWER)` matches channel 0, whose control channel is channel 1;
the nested call is made with the type of channel 1, POWER again, and matches
channel 0 again: the call does not return, whatever the depth allowed. -/
theorem removeDevice_diverges :
    ∀ fuel : Nat,
      removeDevice sampleTypes fuel loopPool 5 sampleTypes.CHANNEL_TYPE_POWER = none := by
  intro fuel
  induction fuel with
  | zero => rfl
  | succ n ih =>
    rw [removeDevice_linked sampleTypes loopPool 5 sampleTypes.CHANNEL_TYPE_POWER 0 1 n
      (by decide) rfl (by decide)]
    have : (loopPool.antChannel 1).channel_type = sampleTypes.CHANNEL_TYPE_POWER := rfl
    rw [this, ih]
    rfl

/-- C30, the code at the failing input.  Two streams, each one well-formed frame of
three data bytes that leaves the decoder in `ST_WAIT_FOR_SYNC`, differ only in
the third data byte (6, the transfer-failure code, against 5).  The same
channel-event frame with a single data byte follows: `A4 01 40 00 E5`.  Its
sub-code is read at `ANT_OFFSET_MESSAGE_CODE`, where the byte of the earlier
frame still stands: after the first stream the frame is discarded, after the
second it is routed to channel 0. -/
theorem routing_reads_stale_byte :
    (feed sampleConsts (Rx.init sampleConsts (fun _ => 0))
        (frame sampleConsts 3 0x4E [0, 1, 6])).1.state = ST_WAIT_FOR_SYNC ∧
    (feed sampleConsts (Rx.init sampleConsts (fun _ => 0))
        (frame sampleConsts 3 0x4E [0, 1, 5])).1.state = ST_WAIT_FOR_SYNC ∧
    frame sampleConsts 1 sampleMessages.ANT_CHANNEL_EVENT [0] = [0xA4, 1, 0x40, 0, 0xE5] ∧
    (processAll sampleConsts sampleMessages
        (feed sampleConsts (Rx.init sampleConsts (fun _ => 0))
          (frame sampleConsts 3 0x4E [0, 1, 6])).1
        (frame sampleConsts 1 sampleMessages.ANT_CHANNEL_EVENT [0])).map Dispatch.receiver
      = [none] ∧
    (processAll sampleConsts sampleMessages
        (feed sampleConsts (Rx.init sampleConsts (fun _ => 0))
          (frame sampleConsts 3 0x4E [0, 1, 5])).1
        (frame sampleConsts 1 sampleMessages.ANT_CHANNEL_EVENT [0])).map Dispatch.receiver
      = [some 0] := by
  decide

/-! ## Control channels -/

/-- What `addDevice` without an explicit channel keeps and changes: the control
channel and the composite flags of every channel are kept, and a channel is
either kept as a whole or was unused and is now bound to the identity requested
and searching. -/
theorem addDevice_none_fields {N : Nat} (T : ChannelConsts) (a : Pool N) (d t : Int) :
    (∀ m, ((addDevice T a d t none).1.antChannel m).control_channel
        = (a.antChannel m).control_channel ∧
      ((addDevice T a d t none).1.antChannel m).is_cinqo = (a.antChannel m).is_cinqo ∧
      ((addDevice T a d t none).1.antChannel m).is_old_cinqo = (a.antChannel m).is_old_cinqo) ∧
    (∀ m, (addDevice T a d t none).1.antChannel m = a.antChannel m ∨
      ((a.antChannel m).channel_type = T.CHANNEL_TYPE_UNUSED ∧
        ((addDevice T a d t none).1.antChannel m).channel_type = t ∧
        ((addDevice T a d t none).1.antChannel m).device_number = d ∧
        ((addDevice T a d t none).1.antChannel m).searching = true)) := by
  by_cases hdup : d ≠ 0 ∧ ∃ i, mask0xf (a.antChannel i).channel_type = t ∧
      (a.antChannel i).device_number = d
  · rw [addDevice_dedup T a d t hdup.1 hdup.2]
    exact ⟨fun m => ⟨rfl, rfl, rfl⟩, fun m => Or.inl rfl⟩
  · have hdup2 : d = 0 ∨ findBound a d t = none := by
      by_cases hd : d = 0
      · exact Or.inl hd
      · exact Or.inr ((findBound_eq_none a d t).mpr fun i hi => hdup ⟨hd, i, hi⟩)
    cases hU : findUnused T a with
    | none =>
      rw [addDevice_full T a d t hdup2 hU]
      exact ⟨fun m => ⟨rfl, rfl, rfl⟩, fun m => Or.inl rfl⟩
    | some i =>
      rw [addDevice_alloc T a d t i hdup2 hU]
      have hiU := ((findUnused_eq_some T a i).mp hU).1
      refine ⟨fun m => ?_, fun m => ?_⟩
      · by_cases hm : m = i
        · subst hm; simp only [Function.update_same, and_self]
        · simp only [Function.update_noteq hm, and_self]
      · by_cases hm : m = i
        · subst hm
          exact Or.inr ⟨hiU, by simp only [Function.update_same, and_self]⟩
        · exact Or.inl (by simp only [Function.update_noteq hm])

/-- The outcomes of one pass of the loop, by the branch taken. -/
theorem associateStep_cases {N : Nat} (T : ChannelConsts) (st : Pool N × List (AssocEvent N))
    (i : Fin N) :
    ((st.1.antChannel i).channel_type = T.CHANNEL_TYPE_POWER ∧
      (st.1.antChannel i).is_cinqo = true ∧ (st.1.antChannel i).is_old_cinqo = true ∧
      ∃ c, companion T st.1 (st.1.antChannel i).device_number = some c ∧
        (st.1.antChannel c).searching = true ∧ associateStep T st i = st) ∨
    ((st.1.antChannel i).channel_type = T.CHANNEL_TYPE_POWER ∧
      (st.1.antChannel i).is_cinqo = true ∧ (st.1.antChannel i).is_old_cinqo = true ∧
      ∃ c, companion T st.1 (st.1.antChannel i).device_number = some c ∧
        (st.1.antChannel c).searching = false ∧
        associateStep T st i
          = (st.1.setControl i (some c), st.2 ++ [AssocEvent.sendCinqoSuccess i])) ∨
    ((st.1.antChannel i).channel_type = T.CHANNEL_TYPE_POWER ∧
      (st.1.antChannel i).is_cinqo = true ∧ (st.1.antChannel i).is_old_cinqo = true ∧
      companion T st.1 (st.1.antChannel i).device_number = none ∧
      associateStep T st i
        = ((addDevice T st.1 (st.1.antChannel i).device_number T.CHANNEL_TYPE_QUARQ none).1,
            st.2 ++ [AssocEvent.addDevice (st.1.antChannel i).device_number
              T.CHANNEL_TYPE_QUARQ])) ∨
    ((st.1.antChannel i).channel_type = T.CHANNEL_TYPE_POWER ∧
      (st.1.antChannel i).is_cinqo = true ∧ (st.1.antChannel i).is_old_cinqo = false ∧
      associateStep T st i
        = (st.1.setControl i (some i), st.2 ++ [AssocEvent.sendCinqoSuccess i])) ∨
    ((st.1.antChannel i).channel_type = T.CHANNEL_TYPE_POWER ∧
      (st.1.antChannel i).is_cinqo = false ∧ associateStep T st i = st) ∨
    ((st.1.antChannel i).channel_type ≠ T.CHANNEL_TYPE_POWER ∧
      T.IsQuarq (st.1.antChannel i).channel_type ∧
      associateStep T st i = (st.1.markCinqo i, st.2)) ∨
    ((st.1.antChannel i).channel_type ≠ T.CHANNEL_TYPE_POWER ∧
      ¬ T.IsQuarq (st.1.antChannel i).channel_type ∧ associateStep T st i = st) := by
  unfold associateStep ChannelConsts.IsQuarq
  by_cases hp : (st.1.antChannel i).channel_type = T.CHANNEL_TYPE_POWER
  · cases hc : (st.1.antChannel i).is_cinqo with
    | false => simp [hp, hc]
    | true =>
      cases ho : (st.1.antChannel i).is_old_cinqo with
      | false => simp [hp, hc, ho]
      | true =>
        cases hcomp : companion T st.1 (st.1.antChannel i).device_number with
        | none => simp [hp, hc, ho, hcomp]
        | some c =>
          cases hs : (st.1.antChannel c).searching with
          | true => simp [hp, hc, ho, hcomp, hs]
          | false => simp [hp, hc, ho, hcomp, hs]
  · by_cases hq : (st.1.antChannel i).channel_type = T.CHANNEL_TYPE_FAST_QUARQ ∨
        (st.1.antChannel i).channel_type = T.CHANNEL_TYPE_FAST_QUARQ_NEW ∨
        (st.1.antChannel i).channel_type = T.CHANNEL_TYPE_QUARQ
    · simp [hp, hq]
    · simp [hp, hq]

theorem setControl_antChannel {N : Nat} (a : Pool N) (i : Fin N) (c : Option (Fin N))
    (m : Fin N) :
    ((a.setControl i c).antChannel m).channel_type = (a.antChannel m).channel_type ∧
    ((a.setControl i c).antChannel m).device_number = (a.antChannel m).device_number ∧
    ((a.setControl i c).antChannel m).searching = (a.antChannel m).searching ∧
    ((a.setControl i c).antChannel m).is_cinqo = (a.antChannel m).is_cinqo ∧
    ((a.setControl i c).antChannel m).is_old_cinqo = (a.antChannel m).is_old_cinqo ∧
    ((a.setControl i c).antChannel m).control_channel
      = if m = i then c else (a.antChannel m).control_channel := by
  unfold Pool.setControl
  by_cases hm : m = i
  · subst hm; simp
  · simp [Function.update_noteq hm, hm]

theorem markCinqo_antChannel {N : Nat} (a : Pool N) (i : Fin N) (m : Fin N) :
    ((a.markCinqo i).antChannel m).channel_type = (a.antChannel m).channel_type ∧
    ((a.markCinqo i).antChannel m).device_number = (a.antChannel m).device_number ∧
    ((a.markCinqo i).antChannel m).searching = (a.antChannel m).searching ∧
    ((a.markCinqo i).antChannel m).is_cinqo
      = (if m = i then true else (a.antChannel m).is_cinqo) ∧
    ((a.markCinqo i).antChannel m).is_old_cinqo = (a.antChannel m).is_old_cinqo ∧
    ((a.markCinqo i).antChannel m).control_channel
      = if m = i then some i else (a.antChannel m).control_channel := by
  unfold Pool.markCinqo
  by_cases hm : m = i
  · subst hm; simp
  · simp [Function.update_noteq hm, hm]

/-- The lookup `findDevice` depends only on which channels hold the identity. -/
theorem findDevice_congr {N : Nat} (p a : Pool N) (d t : Int)
    (h : ∀ m, ((p.antChannel m).channel_type = t ∧ (p.antChannel m).device_number = d) ↔
      ((a.antChannel m).channel_type = t ∧ (a.antChannel m).device_number = d)) :
    findDevice p d t = findDevice a d t := by
  cases ha : findDevice a d t with
  | none =>
    rw [findDevice_eq_none] at ha ⊢
    exact fun i hi => ha i ((h i).mp hi)
  | some c =>
    rw [findDevice_eq_some] at ha ⊢
    exact ⟨(h c).mpr ha.1, fun j hj => ha.2 j ((h j).mp hj)⟩

/-- The companion found holds the device number under one of the three Quarq types. -/
theorem companion_some {N : Nat} (T : ChannelConsts) (a : Pool N) (d : Int) (c : Fin N)
    (h : companion T a d = some c) :
    T.IsQuarq (a.antChannel c).channel_type ∧ (a.antChannel c).device_number = d := by
  unfold companion at h
  unfold ChannelConsts.IsQuarq
  cases h1 : findDevice a d T.CHANNEL_TYPE_QUARQ with
  | some c1 =>
    rw [h1] at h
    simp only [Option.some.injEq] at h
    subst h
    have := ((findDevice_eq_some a d _ c1).mp h1).1
    exact ⟨Or.inr (Or.inr this.1), this.2⟩
  | none =>
    rw [h1] at h
    cases h2 : findDevice a d T.CHANNEL_TYPE_FAST_QUARQ with
    | some c2 =>
      rw [h2] at h
      simp only [Option.some.injEq] at h
      subst h
      have := ((findDevice_eq_some a d _ c2).mp h2).1
      exact ⟨Or.inl this.1, this.2⟩
    | none =>
      rw [h2] at h
      have := ((findDevice_eq_some a d _ c).mp h).1
      exact ⟨Or.inr (Or.inl this.1), this.2⟩

/-- There is no companion exactly when no channel holds the device number under one
of the three Quarq types. -/
theorem companion_eq_none {N : Nat} (T : ChannelConsts) (a : Pool N) (d : Int) :
    companion T a d = none ↔
      ∀ m, ¬ (T.IsQuarq (a.antChannel m).channel_type ∧ (a.antChannel m).device_number = d) := by
  constructor
  · intro h m hm
    unfold companion at h
    cases h1 : findDevice a d T.CHANNEL_TYPE_QUARQ with
    | some c1 => rw [h1] at h; cases h
    | none =>
      rw [h1] at h
      cases h2 : findDevice a d T.CHANNEL_TYPE_FAST_QUARQ with
      | some c2 => rw [h2] at h; cases h
      | none =>
        rw [h2] at h
        rw [findDevice_eq_none] at h1 h2 h
        rcases hm.1 with e | e | e
        · exact h2 m ⟨e, hm.2⟩
        · exact h m ⟨e, hm.2⟩
        · exact h1 m ⟨e, hm.2⟩
  · intro h
    cases hc : companion T a d with
    | none => rfl
    | some c => exact absurd (companion_some T a d c hc) (h c)

/-- A channel in the relation to the entry pool that holds a device number under a
Quarq type held it on entry, unless it was opened by the loop. -/
theorem assocRel_match {N : Nat} (T : ChannelConsts) (hD : T.AssocDistinct) (a : Pool N)
    (st : Pool N × List (AssocEvent N)) (m : Fin N) (hr : AssocRel T a st m) (d t : Int)
    (ht : T.IsQuarq t) :
    (((a.antChannel m).channel_type = t ∧ (a.antChannel m).device_number = d) →
      ((st.1.antChannel m).channel_type = t ∧ (st.1.antChannel m).device_number = d) ∧
        (st.1.antChannel m).searching = (a.antChannel m).searching) ∧
    (((st.1.antChannel m).channel_type = t ∧ (st.1.antChannel m).device_number = d) →
      ((a.antChannel m).channel_type = t ∧ (a.antChannel m).device_number = d) ∨
      (companion T a d = none ∧ (st.1.antChannel m).searching = true ∧
        AssocEvent.addDevice d T.CHANNEL_TYPE_QUARQ ∈ st.2)) := by
  obtain ⟨-, hq, hfq, hfqn, -, -, -⟩ := hD
  have htU : t ≠ T.CHANNEL_TYPE_UNUSED := by
    rcases ht with e | e | e <;> rw [e] <;> assumption
  rcases hr with ⟨h1, h2, h3, -, -⟩ | ⟨hu, hty, hs, hev, hc⟩
  · constructor
    · intro h
      exact ⟨⟨h1.trans h.1, h2.trans h.2⟩, h3⟩
    · intro h
      exact Or.inl ⟨h1.symm.trans h.1, h2.symm.trans h.2⟩
  · constructor
    · intro h
      exact absurd (h.1.symm.trans hu) htU
    · intro h
      rw [h.2] at hev hc
      exact Or.inr ⟨hc, hs, hev⟩

/-- The companion lookup in the pool reached in the loop, against the lookup on
entry: a companion on entry is still the companion and searches as on entry; when
there was none on entry, a companion found now is one the loop has opened, which
is searching and was requested by `addDevice`. -/
theorem companion_rel {N : Nat} (T : ChannelConsts) (hD : T.AssocDistinct) (a : Pool N)
    (st : Pool N × List (AssocEvent N)) (hr : ∀ m, AssocRel T a st m) (d : Int) :
    (∀ c, companion T a d = some c →
      companion T st.1 d = some c ∧ (st.1.antChannel c).searching = (a.antChannel c).searching) ∧
    (companion T a d = none → ∀ c, companion T st.1 d = some c →
      (st.1.antChannel c).searching = true ∧
        AssocEvent.addDevice d T.CHANNEL_TYPE_QUARQ ∈ st.2) := by
  constructor
  · intro c hc
    have hne : companion T a d ≠ none := by rw [hc]; exact Option.some_ne_none c
    have hfd : ∀ t, T.IsQuarq t → findDevice st.1 d t = findDevice a d t := by
      intro t ht
      apply findDevice_congr
      intro m
      constructor
      · intro h
        rcases (assocRel_match T hD a st m (hr m) d t ht).2 h with h1 | h1
        · exact h1
        · exact absurd h1.1 hne
      · intro h
        exact ((assocRel_match T hD a st m (hr m) d t ht).1 h).1
    have hcomp : companion T st.1 d = some c := by
      rw [← hc]
      unfold companion
      rw [hfd _ (Or.inr (Or.inr rfl)), hfd _ (Or.inl rfl), hfd _ (Or.inr (Or.inl rfl))]
    refine ⟨hcomp, ?_⟩
    obtain ⟨hq, hn⟩ := companion_some T a d c hc
    exact ((assocRel_match T hD a st c (hr c) d _ hq).1 ⟨rfl, hn⟩).2
  · intro hnone c hc
    obtain ⟨hq, hn⟩ := companion_some T st.1 d c hc
    rcases (assocRel_match T hD a st c (hr c) d _ hq).2 ⟨rfl, hn⟩ with h1 | h1
    · have := (companion_eq_none T a d).mp hnone c
      refine absurd ⟨?_, h1.2⟩ this
      rw [h1.1]; exact hq
    · exact ⟨h1.2.1, h1.2.2⟩

/-- One pass of the loop leaves the control link and the composite flag of every
other channel, and the legacy flag of every channel. -/
theorem associateStep_frame {N : Nat} (T : ChannelConsts) (st : Pool N × List (AssocEvent N))
    (i m : Fin N) (hm : m ≠ i) :
    ((associateStep T st i).1.antChannel m).control_channel
        = (st.1.antChannel m).control_channel ∧
    ((associateStep T st i).1.antChannel m).is_cinqo = (st.1.antChannel m).is_cinqo := by
  rcases associateStep_cases T st i with h | h | h | h | h | h | h
  · obtain ⟨-, -, -, c, -, -, e⟩ := h; rw [e]; exact ⟨rfl, rfl⟩
  · obtain ⟨-, -, -, c, -, -, e⟩ := h; rw [e]
    have := setControl_antChannel st.1 i (some c) m
    exact ⟨by rw [this.2.2.2.2.2, if_neg hm], this.2.2.2.1⟩
  · obtain ⟨-, -, -, -, e⟩ := h; rw [e]
    have := (addDevice_none_fields T st.1 (st.1.antChannel i).device_number
      T.CHANNEL_TYPE_QUARQ).1 m
    exact ⟨this.1, this.2.1⟩
  · obtain ⟨-, -, -, e⟩ := h; rw [e]
    have := setControl_antChannel st.1 i (some i) m
    exact ⟨by rw [this.2.2.2.2.2, if_neg hm], this.2.2.2.1⟩
  · obtain ⟨-, -, e⟩ := h; rw [e]; exact ⟨rfl, rfl⟩
  · obtain ⟨-, -, e⟩ := h; rw [e]
    have := markCinqo_antChannel st.1 i m
    exact ⟨by rw [this.2.2.2.2.2, if_neg hm], by rw [this.2.2.2.1, if_neg hm]⟩
  · obtain ⟨-, -, e⟩ := h; rw [e]; exact ⟨rfl, rfl⟩

/-- One pass of the loop only adds to the calls recorded. -/
theorem associateStep_log {N : Nat} (T : ChannelConsts) (st : Pool N × List (AssocEvent N))
    (i : Fin N) (x : AssocEvent N) (hx : x ∈ st.2) : x ∈ (associateStep T st i).2 := by
  rcases associateStep_cases T st i with h | h | h | h | h | h | h
  · obtain ⟨-, -, -, c, -, -, e⟩ := h; rw [e]; exact hx
  · obtain ⟨-, -, -, c, -, -, e⟩ := h; rw [e]; exact List.mem_append_left _ hx
  · obtain ⟨-, -, -, -, e⟩ := h; rw [e]; exact List.mem_append_left _ hx
  · obtain ⟨-, -, -, e⟩ := h; rw [e]; exact List.mem_append_left _ hx
  · obtain ⟨-, -, e⟩ := h; rw [e]; exact hx
  · obtain ⟨-, -, e⟩ := h; rw [e]; exact hx
  · obtain ⟨-, -, e⟩ := h; rw [e]; exact hx

/-- The relation to the entry pool passes to a pool whose channel has the same
fields, when the calls recorded have only grown. -/
theorem assocRel_of_eq {N : Nat} (T : ChannelConsts) (a : Pool N)
    (st st2 : Pool N × List (AssocEvent N)) (m : Fin N) (hr : AssocRel T a st m)
    (h1 : (st2.1.antChannel m).channel_type = (st.1.antChannel m).channel_type)
    (h2 : (st2.1.antChannel m).device_number = (st.1.antChannel m).device_number)
    (h3 : (st2.1.antChannel m).searching = (st.1.antChannel m).searching)
    (h4 : (st2.1.antChannel m).is_old_cinqo = (st.1.antChannel m).is_old_cinqo)
    (h5 : (st.1.antChannel m).channel_type = T.CHANNEL_TYPE_POWER →
      (st2.1.antChannel m).is_cinqo = (st.1.antChannel m).is_cinqo)
    (hl : ∀ x, x ∈ st.2 → x ∈ st2.2) : AssocRel T a st2 m := by
  rcases hr with ⟨r1, r2, r3, r4, r5⟩ | ⟨hu, hty, hs, hev, hc⟩
  · refine Or.inl ⟨h1.trans r1, h2.trans r2, h3.trans r3, h4.trans r4, fun hp => ?_⟩
    exact (h5 (r1.trans hp)).trans (r5 hp)
  · refine Or.inr ⟨hu, h1.trans hty, h3.trans hs, ?_, ?_⟩
    · rw [h2]; exact hl _ hev
    · rw [h2]; exact hc

/-- One pass of the loop keeps the relation of every channel to the entry pool. -/
theorem associateStep_rel {N : Nat} (T : ChannelConsts) (hD : T.AssocDistinct) (a : Pool N)
    (st : Pool N × List (AssocEvent N)) (hr : ∀ m, AssocRel T a st m) (i m : Fin N) :
    AssocRel T a (associateStep T st i) m := by
  have hlog := associateStep_log T st i
  rcases associateStep_cases T st i with h | h | h | h | h | h | h
  · obtain ⟨-, -, -, c, -, -, e⟩ := h; rw [e]; exact hr m
  · obtain ⟨-, -, -, c, -, -, e⟩ := h
    rw [e] at hlog ⊢
    have := setControl_antChannel st.1 i (some c) m
    exact assocRel_of_eq T a st _ m (hr m) this.1 this.2.1 this.2.2.1 this.2.2.2.2.1
      (fun _ => this.2.2.2.1) hlog
  · obtain ⟨-, -, -, hcomp, e⟩ := h
    rw [e] at hlog ⊢
    have hf := addDevice_none_fields T st.1 (st.1.antChannel i).device_number
      T.CHANNEL_TYPE_QUARQ
    rcases hf.2 m with hsame | ⟨hu, hty, hdn, hs⟩
    · exact assocRel_of_eq T a st _ m (hr m) (by rw [hsame]) (by rw [hsame]) (by rw [hsame])
        (by rw [hsame]) (fun _ => by rw [hsame]) hlog
    · have hau : (a.antChannel m).channel_type = T.CHANNEL_TYPE_UNUSED := by
        rcases hr m with ⟨r1, -, -, -, -⟩ | ⟨hu2, -, -, -, -⟩
        · exact r1.symm.trans hu
        · exact hu2
      refine Or.inr ⟨hau, hty, hs, ?_, ?_⟩
      · show AssocEvent.addDevice _ _ ∈ _ ++ _
        rw [hdn]
        exact List.mem_append_right _ (List.mem_singleton.mpr rfl)
      · show companion T a _ = none
        rw [hdn]
        cases hca : companion T a (st.1.antChannel i).device_number with
        | none => rfl
        | some c =>
          have := ((companion_rel T hD a st hr _).1 c hca).1
          rw [hcomp] at this
          cases this
  · obtain ⟨-, -, -, e⟩ := h
    rw [e] at hlog ⊢
    have := setControl_antChannel st.1 i (some i) m
    exact assocRel_of_eq T a st _ m (hr m) this.1 this.2.1 this.2.2.1 this.2.2.2.2.1
      (fun _ => this.2.2.2.1) hlog
  · obtain ⟨-, -, e⟩ := h; rw [e]; exact hr m
  · obtain ⟨hnp, -, e⟩ := h
    rw [e] at hlog ⊢
    have := markCinqo_antChannel st.1 i m
    refine assocRel_of_eq T a st _ m (hr m) this.1 this.2.1 this.2.2.1 this.2.2.2.2.1
      (fun hp => ?_) hlog
    rw [this.2.2.2.1]
    by_cases hm : m = i
    · subst hm; exact absurd hp hnp
    · rw [if_neg hm]
  · obtain ⟨-, -, e⟩ := h; rw [e]; exact hr m

/-- The pass of the loop for channel `i` settles channel `i`. -/
theorem associateStep_at {N : Nat} (T : ChannelConsts) (hD : T.AssocDistinct) (a : Pool N)
    (st : Pool N × List (AssocEvent N)) (hr : ∀ m, AssocRel T a st m) (i : Fin N)
    (hnone : (st.1.antChannel i).control_channel = none) :
    AssocFinal T a (associateStep T st i) i := by
  have hcr := companion_rel T hD a st hr
  obtain ⟨hpu, hqu, hfqu, hfqnu, hpq, hpfq, hpfqn⟩ := hD
  unfold AssocFinal LegacyOutcome ChannelConsts.IsQuarq
  rcases hr i with ⟨r1, r2, r3, r4, r5⟩ | ⟨hu, hty, hs, hev, hc⟩
  · have hpow : (a.antChannel i).channel_type = T.CHANNEL_TYPE_POWER →
        ¬ ((a.antChannel i).channel_type = T.CHANNEL_TYPE_FAST_QUARQ ∨
          (a.antChannel i).channel_type = T.CHANNEL_TYPE_FAST_QUARQ_NEW ∨
          (a.antChannel i).channel_type = T.CHANNEL_TYPE_QUARQ) := by
      intro hp2 h
      rw [hp2] at h
      rcases h with h | h | h
      · exact absurd h hpfq
      · exact absurd h hpfqn
      · exact absurd h hpq
    rcases associateStep_cases T st i with h | h | h | h | h | h | h
    · obtain ⟨hp, hci, ho, c, hcomp, hsc, e⟩ := h
      rw [e]
      have hp2 := r1.symm.trans hp
      rw [r5 hp2] at hci
      rw [r4] at ho
      rw [r2] at hcomp
      refine ⟨fun _ _ _ => ⟨fun c2 hc2 hs2 => ?_, fun _ _ _ => hnone, fun hn => ⟨hnone, ?_⟩⟩,
        ?_, ?_, ?_, ?_, ?_⟩
      · have := (hcr _).1 c2 hc2
        rw [hcomp] at this
        obtain ⟨e1, e2⟩ := this
        simp only [Option.some.injEq] at e1
        subst e1
        rw [hsc] at e2
        rw [← e2] at hs2
        cases hs2
      · exact ((hcr _).2 hn c hcomp).2
      · intro _ _ h; rw [ho] at h; cases h
      · intro _ h; rw [hci] at h; cases h
      · intro h; exact absurd h (hpow hp2)
      · intro h; exact absurd hp2 h
      · intro h; exact absurd (hp2.symm.trans h) hpu
    · obtain ⟨hp, hci, ho, c, hcomp, hsc, e⟩ := h
      rw [e]
      have hp2 := r1.symm.trans hp
      rw [r5 hp2] at hci
      rw [r4] at ho
      rw [r2] at hcomp
      have hctl : ((st.1.setControl i (some c)).antChannel i).control_channel = some c := by
        rw [(setControl_antChannel st.1 i (some c) i).2.2.2.2.2, if_pos rfl]
      refine ⟨fun _ _ _ => ⟨fun c2 hc2 _ => ?_, fun c2 hc2 hs2 => ?_, fun hn => ?_⟩,
        ?_, ?_, ?_, ?_, ?_⟩
      · have := ((hcr _).1 c2 hc2).1
        rw [hcomp] at this
        simp only [Option.some.injEq] at this
        subst this
        exact hctl
      · have := (hcr _).1 c2 hc2
        rw [hcomp] at this
        obtain ⟨e1, e2⟩ := this
        simp only [Option.some.injEq] at e1
        subst e1
        rw [hsc] at e2
        rw [← e2] at hs2
        cases hs2
      · have := ((hcr _).2 hn c hcomp).1
        rw [hsc] at this
        cases this
      · intro _ _ h; rw [ho] at h; cases h
      · intro _ h; rw [hci] at h; cases h
      · intro h; exact absurd h (hpow hp2)
      · intro h; exact absurd hp2 h
      · intro h; exact absurd (hp2.symm.trans h) hpu
    · obtain ⟨hp, hci, ho, hcomp, e⟩ := h
      rw [e]
      have hp2 := r1.symm.trans hp
      rw [r5 hp2] at hci
      rw [r4] at ho
      rw [r2] at hcomp
      have hctl : ((addDevice T st.1 (st.1.antChannel i).device_number T.CHANNEL_TYPE_QUARQ
          none).1.antChannel i).control_channel = none :=
        ((addDevice_none_fields T st.1 _ _).1 i).1.trans hnone
      refine ⟨fun _ _ _ => ⟨fun c2 hc2 _ => ?_, fun _ _ _ => hctl, fun _ => ⟨hctl, ?_⟩⟩,
        ?_, ?_, ?_, ?_, ?_⟩
      · have := ((hcr _).1 c2 hc2).1
        rw [hcomp] at this
        cases this
      · show AssocEvent.addDevice _ _ ∈ _ ++ _
        rw [r2]
        exact List.mem_append_right _ (List.mem_singleton.mpr rfl)
      · intro _ _ h; rw [ho] at h; cases h
      · intro _ h; rw [hci] at h; cases h
      · intro h; exact absurd h (hpow hp2)
      · intro h; exact absurd hp2 h
      · intro h; exact absurd (hp2.symm.trans h) hpu
    · obtain ⟨hp, hci, ho, e⟩ := h
      rw [e]
      have hp2 := r1.symm.trans hp
      rw [r5 hp2] at hci
      rw [r4] at ho
      have hctl : ((st.1.setControl i (some i)).antChannel i).control_channel = some i := by
        rw [(setControl_antChannel st.1 i (some i) i).2.2.2.2.2, if_pos rfl]
      refine ⟨fun _ _ h => ?_, fun _ _ _ => hctl, ?_, ?_, ?_, ?_⟩
      · rw [ho] at h; cases h
      · intro _ h; rw [hci] at h; cases h
      · intro h; exact absurd h (hpow hp2)
      · intro h; exact absurd hp2 h
      · intro h; exact absurd (hp2.symm.trans h) hpu
    · obtain ⟨hp, hci, e⟩ := h
      rw [e]
      have hp2 := r1.symm.trans hp
      rw [r5 hp2] at hci
      refine ⟨fun _ h _ => ?_, fun _ h _ => ?_, fun _ _ => hnone, ?_, ?_, ?_⟩
      · rw [hci] at h; cases h
      · rw [hci] at h; cases h
      · intro h; exact absurd h (hpow hp2)
      · intro h; exact absurd hp2 h
      · intro h; exact absurd (hp2.symm.trans h) hpu
    · obtain ⟨hnp, hq, e⟩ := h
      rw [e]
      rw [r1] at hnp
      have hm := markCinqo_antChannel st.1 i i
      have hctl : ((st.1.markCinqo i).antChannel i).control_channel = some i := by
        rw [hm.2.2.2.2.2, if_pos rfl]
      have hcq : ((st.1.markCinqo i).antChannel i).is_cinqo = true := by
        rw [hm.2.2.2.1, if_pos rfl]
      rw [r1] at hq
      refine ⟨fun h => absurd h hnp, fun h => absurd h hnp, fun h => absurd h hnp,
        fun _ => ⟨hcq, hctl⟩, fun _ h _ => absurd hq h, fun h => ?_⟩
      rw [h] at hq
      rcases hq with h | h | h
      · exact absurd h.symm hfqu
      · exact absurd h.symm hfqnu
      · exact absurd h.symm hqu
    · obtain ⟨hnp, hq, e⟩ := h
      rw [e]
      rw [r1] at hnp
      rw [r1] at hq
      exact ⟨fun h => absurd h hnp, fun h => absurd h hnp, fun h => absurd h hnp,
        fun h => absurd h hq, fun _ _ _ => hnone, fun _ => Or.inl hnone⟩
  · have hnp : (a.antChannel i).channel_type ≠ T.CHANNEL_TYPE_POWER := by
      rw [hu]; exact Ne.symm hpu
    have hnq : ¬ ((a.antChannel i).channel_type = T.CHANNEL_TYPE_FAST_QUARQ ∨
          (a.antChannel i).channel_type = T.CHANNEL_TYPE_FAST_QUARQ_NEW ∨
          (a.antChannel i).channel_type = T.CHANNEL_TYPE_QUARQ) := by
      rw [hu]
      intro h
      rcases h with h | h | h
      · exact hfqu h.symm
      · exact hfqnu h.symm
      · exact hqu h.symm
    refine ⟨fun h => absurd h hnp, fun h => absurd h hnp, fun h => absurd h hnp,
        fun h => absurd h hnq, fun _ _ h => absurd hu h, fun _ => Or.inr ?_⟩
    have hstp : (st.1.antChannel i).channel_type ≠ T.CHANNEL_TYPE_POWER := by
      rw [hty]; exact Ne.symm hpq
    rcases associateStep_cases T st i with h | h | h | h | h | h | h
    · exact absurd h.1 hstp
    · exact absurd h.1 hstp
    · exact absurd h.1 hstp
    · exact absurd h.1 hstp
    · exact absurd h.1 hstp
    · obtain ⟨-, -, e⟩ := h
      rw [e, (markCinqo_antChannel st.1 i i).2.2.2.2.2, if_pos rfl,
        (markCinqo_antChannel st.1 i i).1]
      exact ⟨rfl, hty⟩
    · exact absurd (Or.inr (Or.inr hty)) h.2.1

/-- What has been settled for a channel stays when its control link and composite
flag stay and the calls recorded only grow. -/
theorem assocFinal_of_eq {N : Nat} (T : ChannelConsts) (a : Pool N)
    (st st2 : Pool N × List (AssocEvent N)) (m : Fin N) (h : AssocFinal T a st m)
    (h1 : (st2.1.antChannel m).control_channel = (st.1.antChannel m).control_channel)
    (h2 : (st2.1.antChannel m).is_cinqo = (st.1.antChannel m).is_cinqo)
    (h3 : (st.1.antChannel m).channel_type = T.CHANNEL_TYPE_QUARQ →
      (st2.1.antChannel m).channel_type = T.CHANNEL_TYPE_QUARQ)
    (hl : ∀ x, x ∈ st.2 → x ∈ st2.2) : AssocFinal T a st2 m := by
  unfold AssocFinal LegacyOutcome at h ⊢
  rw [h1, h2]
  obtain ⟨f1, f2, f3, f4, f5, f6⟩ := h
  refine ⟨fun x y z => ?_, f2, f3, f4, f5, fun hu => ?_⟩
  · obtain ⟨g1, g2, g3⟩ := f1 x y z
    exact ⟨g1, g2, fun hn => ⟨(g3 hn).1, hl _ (g3 hn).2⟩⟩
  · rcases f6 hu with e | e
    · exact Or.inl e
    · exact Or.inr ⟨e.1, h3 e.2⟩

/-- One pass of the loop keeps the type of a channel that is not unused. -/
theorem associateStep_type {N : Nat} (T : ChannelConsts) (st : Pool N × List (AssocEvent N))
    (i m : Fin N) (hu : (st.1.antChannel m).channel_type ≠ T.CHANNEL_TYPE_UNUSED) :
    ((associateStep T st i).1.antChannel m).channel_type = (st.1.antChannel m).channel_type := by
  rcases associateStep_cases T st i with h | h | h | h | h | h | h
  · obtain ⟨-, -, -, c, -, -, e⟩ := h; rw [e]
  · obtain ⟨-, -, -, c, -, -, e⟩ := h; rw [e]
    exact (setControl_antChannel st.1 i (some c) m).1
  · obtain ⟨-, -, -, -, e⟩ := h; rw [e]
    rcases (addDevice_none_fields T st.1 (st.1.antChannel i).device_number
      T.CHANNEL_TYPE_QUARQ).2 m with hs | hs
    · rw [hs]
    · exact absurd hs.1 hu
  · obtain ⟨-, -, -, e⟩ := h; rw [e]
    exact (setControl_antChannel st.1 i (some i) m).1
  · obtain ⟨-, -, e⟩ := h; rw [e]
  · obtain ⟨-, -, e⟩ := h; rw [e]
    exact (markCinqo_antChannel st.1 i m).1
  · obtain ⟨-, -, e⟩ := h; rw [e]

/-- The invariant passes from the channels `l` to `l ++ [i]` by the pass for `i`. -/
theorem assocInv_step {N : Nat} (T : ChannelConsts) (hD : T.AssocDistinct) (a : Pool N)
    (l : List (Fin N)) (st : Pool N × List (AssocEvent N)) (i : Fin N) (hi : i ∉ l)
    (h : AssocInv T a l st) : AssocInv T a (l ++ [i]) (associateStep T st i) := by
  obtain ⟨hA, hB, hC⟩ := h
  refine ⟨fun m => associateStep_rel T hD a st hA i m, fun m hm => ?_, fun m hm => ?_⟩
  · have hmi : m ≠ i := fun e => hm (by rw [e]; exact List.mem_append_right _ (List.mem_singleton.mpr rfl))
    have hml : m ∉ l := fun e => hm (List.mem_append_left _ e)
    rw [(associateStep_frame T st i m hmi).1]
    exact hB m hml
  · by_cases hmi : m = i
    · subst hmi
      exact associateStep_at T hD a st hA m (hB m hi)
    · have hml : m ∈ l := by
        rcases List.mem_append.mp hm with e | e
        · exact e
        · exact absurd (List.mem_singleton.mp e) hmi
      have hf := associateStep_frame T st i m hmi
      refine assocFinal_of_eq T a st _ m (hC m hml) hf.1 hf.2 (fun hq => ?_)
        (associateStep_log T st i)
      rw [associateStep_type T st i m (by rw [hq]; exact hD.2.1)]
      exact hq

/-- The invariant holds along the loop over any list of distinct channels. -/
theorem assocInv_foldl {N : Nat} (T : ChannelConsts) (hD : T.AssocDistinct) (a : Pool N)
    (l : List (Fin N)) (hl : l.Nodup) :
    AssocInv T a l (l.foldl (associateStep T) (a.clearControl, [])) := by
  induction l using List.reverseRecOn with
  | nil =>
    refine ⟨fun m => Or.inl ⟨rfl, rfl, rfl, rfl, fun _ => rfl⟩, fun m _ => rfl, fun m hm => ?_⟩
    cases hm
  | append_singleton l i ih =>
    rw [List.foldl_append]
    have hn := List.nodup_append.mp hl
    have hi : i ∉ l := fun e => hn.2.2 e (List.mem_singleton.mpr rfl)
    exact assocInv_step T hD a l _ i hi (ih hn.1)

/-- The state after `associateControlChannels`: every channel is in the relation to
the entry pool and has been settled. -/
theorem associate_inv {N : Nat} (T : ChannelConsts) (hD : T.AssocDistinct) (a : Pool N)
    (m : Fin N) :
    AssocRel T a (associateControlChannels T a) m ∧
      AssocFinal T a (associateControlChannels T a) m := by
  have h := assocInv_foldl T hD a (List.finRange N) (List.nodup_finRange N)
  exact ⟨h.1 m, h.2.2 m (List.mem_finRange m)⟩

/-- C24: after `associateControlChannels`, for every power channel flagged composite
and legacy, with the companion the channel `findDevice` gives for its device
number and the type `CHANNEL_TYPE_QUARQ`, else `CHANNEL_TYPE_FAST_QUARQ`, else
`CHANNEL_TYPE_FAST_QUARQ_NEW`: the control link is the companion when that is not
searching, there is no link when it is searching, and when there is no companion
there is no link and `addDevice(device_number, CHANNEL_TYPE_QUARQ, -1)` has been
called.  This holds with the flags and the companion read in the pool on entry,
and also with both read in the pool after the call.  The type constants are taken
distinct as far as the `switch` and the unused type need. -/
theorem associate_legacy {N : Nat} (T : ChannelConsts) (hD : T.AssocDistinct) (a : Pool N)
    (m : Fin N) :
    LegacyOutcome T a (associateControlChannels T a) m ∧
      LegacyOutcome T (associateControlChannels T a).1 (associateControlChannels T a) m := by
  have hrel : ∀ k, AssocRel T a (associateControlChannels T a) k :=
    fun k => (associate_inv T hD a k).1
  have hfin := (associate_inv T hD a m).2.1
  refine ⟨hfin, ?_⟩
  intro hp hc ho
  rcases hrel m with ⟨r1, r2, -, r4, r5⟩ | ⟨-, hty, -, -, -⟩
  · have hp2 := r1.symm.trans hp
    obtain ⟨g1, g2, g3⟩ := hfin hp2 ((r5 hp2).symm.trans hc) (r4.symm.trans ho)
    have hcr := companion_rel T hD a (associateControlChannels T a) hrel
      (a.antChannel m).device_number
    rw [r2]
    refine ⟨fun c hcomp hs => ?_, fun c hcomp hs => ?_, fun hcomp => ?_⟩
    · cases hca : companion T a (a.antChannel m).device_number with
      | some c2 =>
        obtain ⟨e1, e2⟩ := hcr.1 c2 hca
        rw [hcomp] at e1
        simp only [Option.some.injEq] at e1
        subst e1
        exact g1 c hca (e2.symm.trans hs)
      | none =>
        have := (hcr.2 hca c hcomp).1
        rw [hs] at this
        cases this
    · cases hca : companion T a (a.antChannel m).device_number with
      | some c2 =>
        obtain ⟨e1, e2⟩ := hcr.1 c2 hca
        rw [hcomp] at e1
        simp only [Option.some.injEq] at e1
        subst e1
        exact g2 c hca (e2.symm.trans hs)
      | none => exact (g3 hca).1
    · cases hca : companion T a (a.antChannel m).device_number with
      | some c2 =>
        have := (hcr.1 c2 hca).1
        rw [hcomp] at this
        cases this
      | none => exact g3 hca
  · rw [hty] at hp
    exact absurd hp.symm hD.2.2.2.2.1

/-- The legacy case on the sample pool: channel 0 is linked to its companion, channel 1,
and for channel 2, which has no companion, `addDevice(6, CHANNEL_TYPE_QUARQ, -1)`
is called and there is no link. -/
theorem associate_legacy_witness :
    sampleTypes.AssocDistinct ∧
      ((associateControlChannels sampleTypes legacyPool).1.antChannel 0).control_channel
        = some 1 ∧
      (((associateControlChannels sampleTypes legacyPool).1.antChannel 2).control_channel
          = none ∧
        AssocEvent.addDevice 6 sampleTypes.CHANNEL_TYPE_QUARQ
          ∈ (associateControlChannels sampleTypes legacyPool).2) :=
  ⟨by decide,
    ((associate_legacy sampleTypes (by decide) legacyPool 0).1 (by decide) (by decide)
      (by decide)).1 1 (by decide) (by decide),
    ((associate_legacy sampleTypes (by decide) legacyPool 2).1 (by decide) (by decide)
      (by decide)).2.2 (by decide)⟩

/-- C25: after `associateControlChannels`, whatever the control links on entry: a
channel that on entry has one of the types `CHANNEL_TYPE_QUARQ`,
`CHANNEL_TYPE_FAST_QUARQ`, `CHANNEL_TYPE_FAST_QUARQ_NEW` is flagged composite and
linked to itself; a power channel flagged composite and not legacy is linked to
itself; a power channel not flagged composite has no link; and a channel bound on
entry to any other type has no link, as has a channel that after the call is of
a type other than the power type and the three Quarq types.  A channel unused on
entry is not bound to a type: it has no link, or the loop has opened it as a
`CHANNEL_TYPE_QUARQ` channel and linked it to itself.  The type constants are taken
distinct as far as the `switch` and the unused type need. -/
theorem associate_self_and_cleared {N : Nat} (T : ChannelConsts) (hD : T.AssocDistinct)
    (a : Pool N) (m : Fin N) :
    (T.IsQuarq (a.antChannel m).channel_type →
      ((associateControlChannels T a).1.antChannel m).is_cinqo = true ∧
        ((associateControlChannels T a).1.antChannel m).control_channel = some m) ∧
    ((a.antChannel m).channel_type = T.CHANNEL_TYPE_POWER → (a.antChannel m).is_cinqo = true →
      (a.antChannel m).is_old_cinqo = false →
      ((associateControlChannels T a).1.antChannel m).control_channel = some m) ∧
    ((a.antChannel m).channel_type = T.CHANNEL_TYPE_POWER → (a.antChannel m).is_cinqo = false →
      ((associateControlChannels T a).1.antChannel m).control_channel = none) ∧
    ((a.antChannel m).channel_type ≠ T.CHANNEL_TYPE_POWER →
      ¬ T.IsQuarq (a.antChannel m).channel_type →
      (a.antChannel m).channel_type ≠ T.CHANNEL_TYPE_UNUSED →
      ((associateControlChannels T a).1.antChannel m).control_channel = none) ∧
    (((associateControlChannels T a).1.antChannel m).channel_type ≠ T.CHANNEL_TYPE_POWER →
      ¬ T.IsQuarq ((associateControlChannels T a).1.antChannel m).channel_type →
      ((associateControlChannels T a).1.antChannel m).control_channel = none) ∧
    ((a.antChannel m).channel_type = T.CHANNEL_TYPE_UNUSED →
      ((associateControlChannels T a).1.antChannel m).control_channel = none ∨
      (((associateControlChannels T a).1.antChannel m).control_channel = some m ∧
        ((associateControlChannels T a).1.antChannel m).channel_type
          = T.CHANNEL_TYPE_QUARQ)) := by
  obtain ⟨hrel, -, f2, f3, f4, f5, f6⟩ := associate_inv T hD a m
  refine ⟨f4, f2, f3, f5, fun hnp hnq => ?_, f6⟩
  rcases hrel with ⟨r1, -, -, -, -⟩ | ⟨-, hty, -, -, -⟩
  · rw [r1] at hnp hnq
    by_cases hu : (a.antChannel m).channel_type = T.CHANNEL_TYPE_UNUSED
    · rcases f6 hu with e | e
      · exact e
      · exact absurd (Or.inr (Or.inr e.2)) (by rw [r1]; exact hnq)
    · exact f5 hnp hnq hu
  · exact absurd (Or.inr (Or.inr hty)) hnq

/-- The self-linked and cleared cases on a sample pool in which every channel is
linked on entry: the Quarq channel 1 ends flagged composite and linked to itself,
the power channel 0, composite and not legacy, ends linked to itself, and the
heart-rate channel 2 and the plain power channel 3 end without a link. -/
theorem associate_self_and_cleared_witness :
    sampleTypes.AssocDistinct ∧
      (((associateControlChannels sampleTypes linkedPool).1.antChannel 1).is_cinqo = true ∧
        ((associateControlChannels sampleTypes linkedPool).1.antChannel 1).control_channel
          = some 1) ∧
      ((associateControlChannels sampleTypes linkedPool).1.antChannel 0).control_channel
        = some 0 ∧
      ((associateControlChannels sampleTypes linkedPool).1.antChannel 2).control_channel
        = none ∧
      ((associateControlChannels sampleTypes linkedPool).1.antChannel 3).control_channel
        = none :=
  ⟨by decide,
    (associate_self_and_cleared sampleTypes (by decide) linkedPool 1).1 (by decide),
    (associate_self_and_cleared sampleTypes (by decide) linkedPool 0).2.1 (by decide)
      (by decide) (by decide),
    (associate_self_and_cleared sampleTypes (by decide) linkedPool 2).2.2.2.1 (by decide)
      (by decide) (by decide),
    (associate_self_and_cleared sampleTypes (by decide) linkedPool 3).2.2.1 (by decide)
      (by decide)⟩

/-- A channel unused on entry may end linked: on the sample pool of the legacy case
the call `addDevice(6, CHANNEL_TYPE_QUARQ, -1)` made for channel 2 opens channel 3,
which the loop then reaches as a Quarq channel and links to itself. -/
theorem associate_unused_opened :
    (legacyPool.antChannel 3).channel_type = sampleTypes.CHANNEL_TYPE_UNUSED ∧
      ((associateControlChannels sampleTypes legacyPool).1.antChannel 3).channel_type
        = sampleTypes.CHANNEL_TYPE_QUARQ ∧
      ((associateControlChannels sampleTypes legacyPool).1.antChannel 3).control_channel
        = some 3 := by
  decide

/-- The configuration `"12p,45h"` through `run()` itself, with a port that opens and a
loop that reads a sync byte and is then stopped: channel 0 ends bound to power
device 12, channel 1 to heart-rate device 45, channels 2 and 3 stay unused, and
the calls made on the channels are the two `open` calls, in this order. -/
theorem run_pairConfigured_sample :
    (((run sampleTypes sampleSensors sampleConsts sampleMessages (by decide : 4 ≤ 4)
        (configuredIDs "12p,45h".toList) true
        [{ read := some 0xA4, control := [] }, { read := none, control := [Control.stop] }]
        (Driver.init sampleTypes sampleConsts 4 (fun _ => 0))).1.pool.antChannel 0).channel_type
      = sampleTypes.CHANNEL_TYPE_POWER ∧
    ((run sampleTypes sampleSensors sampleConsts sampleMessages (by decide : 4 ≤ 4)
        (configuredIDs "12p,45h".toList) true
        [{ read := some 0xA4, control := [] }, { read := none, control := [Control.stop] }]
        (Driver.init sampleTypes sampleConsts 4 (fun _ => 0))).1.pool.antChannel 0).device_number
      = 12) ∧
    (((run sampleTypes sampleSensors sampleConsts sampleMessages (by decide : 4 ≤ 4)
        (configuredIDs "12p,45h".toList) true
        [{ read := some 0xA4, control := [] }, { read := none, control := [Control.stop] }]
        (Driver.init sampleTypes sampleConsts 4 (fun _ => 0))).1.pool.antChannel 1).channel_type
      = sampleTypes.CHANNEL_TYPE_HR ∧
    ((run sampleTypes sampleSensors sampleConsts sampleMessages (by decide : 4 ≤ 4)
        (configuredIDs "12p,45h".toList) true
        [{ read := some 0xA4, control := [] }, { read := none, control := [Control.stop] }]
        (Driver.init sampleTypes sampleConsts 4 (fun _ => 0))).1.pool.antChannel 1).device_number
      = 45) ∧
    ((run sampleTypes sampleSensors sampleConsts sampleMessages (by decide : 4 ≤ 4)
        (configuredIDs "12p,45h".toList) true
        [{ read := some 0xA4, control := [] }, { read := none, control := [Control.stop] }]
        (Driver.init sampleTypes sampleConsts 4 (fun _ => 0))).1.pool.antChannel 2).channel_type
      = sampleTypes.CHANNEL_TYPE_UNUSED ∧
    ((run sampleTypes sampleSensors sampleConsts sampleMessages (by decide : 4 ≤ 4)
        (configuredIDs "12p,45h".toList) true
        [{ read := some 0xA4, control := [] }, { read := none, control := [Control.stop] }]
        (Driver.init sampleTypes sampleConsts 4 (fun _ => 0))).1.pool.antChannel 3).channel_type
      = sampleTypes.CHANNEL_TYPE_UNUSED ∧
    (run sampleTypes sampleSensors sampleConsts sampleMessages (by decide : 4 ≤ 4)
        (configuredIDs "12p,45h".toList) true
        [{ read := some 0xA4, control := [] }, { read := none, control := [Control.stop] }]
        (Driver.init sampleTypes sampleConsts 4 (fun _ => 0))).1.pool.calls
      = [Call.open_ 0 12 sampleTypes.CHANNEL_TYPE_POWER,
         Call.open_ 1 45 sampleTypes.CHANNEL_TYPE_HR] ∧
    (run sampleTypes sampleSensors sampleConsts sampleMessages (by decide : 4 ≤ 4)
        (configuredIDs "12p,45h".toList) true
        [{ read := some 0xA4, control := [] }, { read := none, control := [Control.stop] }]
        (Driver.init sampleTypes sampleConsts 4 (fun _ => 0))).2 = RunEnd.stopped := by
  decide

end ANT
